import Mathlib

/-!
# Regression statistics of `main.go`

A shallow embedding of the statistical functions of `main.go`
(`linearRegression`, `rSquared`, `residualStandardError`, `fStatistic`, `mean`), of the
four datasets and the statistics calls of `main`, and of the regression line built by
`scatterPlotWithRegression`, with theorems about them.

## Number model

Go's `float64` is embedded as `Float64 K`: a finite value carries an exact number of an
ordered field `K` (take `K = ℚ` to evaluate, `K = ℝ` for the reals), and the three
special values `+Inf`, `-Inf`, `NaN` follow the IEEE 754 rules for the operations the
program uses.  Rounding, overflow of finite values and the sign of zero are not modelled:
finite arithmetic is exact and a zero is the positive zero.

Slices are lists; `x[i]` inside `for i := range x` is the head of the remaining suffix,
and `y[i]` with `i >= len(y)` is Go's index-out-of-range run-time panic.

## The binary64 model

The statistical functions are embedded a second time over `Binary64`, the IEEE 754
binary64 format with rounding to nearest, ties to even, signed zeros, subnormals and
overflow (`linearRegression64`, `mean64`, `rSquared64`, `residualStandardError64`,
`fStatistic64`).  This model evaluates the functions on concrete inputs where rounding
decides the result.
-/

namespace GoStats

/-- A `float64` value: a finite exact number, or one of the IEEE 754 special values. -/
inductive Float64 (K : Type) where
  | fin (v : K) : Float64 K
  | posInf : Float64 K
  | negInf : Float64 K
  | nan : Float64 K
  deriving DecidableEq

/-- The run-time panics the embedded functions can raise. -/
inductive Panic where
  | indexOutOfRange : Panic
  deriving DecidableEq

namespace Float64

variable {K : Type} [LinearOrderedField K]

/-- IEEE 754 addition (exact on finite values). -/
def add : Float64 K → Float64 K → Float64 K
  | fin a, fin b => fin (a + b)
  | fin _, posInf => posInf
  | fin _, negInf => negInf
  | fin _, nan => nan
  | posInf, fin _ => posInf
  | posInf, posInf => posInf
  | posInf, negInf => nan
  | posInf, nan => nan
  | negInf, fin _ => negInf
  | negInf, posInf => nan
  | negInf, negInf => negInf
  | negInf, nan => nan
  | nan, _ => nan

/-- IEEE 754 subtraction (exact on finite values). -/
def sub : Float64 K → Float64 K → Float64 K
  | fin a, fin b => fin (a - b)
  | fin _, posInf => negInf
  | fin _, negInf => posInf
  | fin _, nan => nan
  | posInf, fin _ => posInf
  | posInf, posInf => nan
  | posInf, negInf => posInf
  | posInf, nan => nan
  | negInf, fin _ => negInf
  | negInf, posInf => negInf
  | negInf, negInf => nan
  | negInf, nan => nan
  | nan, _ => nan

/-- The infinity with the sign of `a`, and `NaN` for `a = 0`: the value of `a * (+Inf)`. -/
def infTimes (a : K) : Float64 K :=
  if a = 0 then nan else if 0 < a then posInf else negInf

/-- IEEE 754 multiplication (exact on finite values). -/
def mul : Float64 K → Float64 K → Float64 K
  | fin a, fin b => fin (a * b)
  | fin a, posInf => infTimes a
  | fin a, negInf => infTimes (-a)
  | fin _, nan => nan
  | posInf, fin b => infTimes b
  | posInf, posInf => posInf
  | posInf, negInf => negInf
  | posInf, nan => nan
  | negInf, fin b => infTimes (-b)
  | negInf, posInf => negInf
  | negInf, negInf => posInf
  | negInf, nan => nan
  | nan, _ => nan

/-- IEEE 754 division (exact on finite values): a finite non-zero value over zero is an
infinity with the sign of the numerator, zero over zero is `NaN`. -/
def div : Float64 K → Float64 K → Float64 K
  | fin a, fin b =>
      if b = 0 then (if a = 0 then nan else if 0 < a then posInf else negInf)
      else fin (a / b)
  | fin _, posInf => fin 0
  | fin _, negInf => fin 0
  | fin _, nan => nan
  | posInf, fin b => if 0 ≤ b then posInf else negInf
  | posInf, posInf => nan
  | posInf, negInf => nan
  | posInf, nan => nan
  | negInf, fin b => if 0 ≤ b then negInf else posInf
  | negInf, posInf => nan
  | negInf, negInf => nan
  | negInf, nan => nan
  | nan, _ => nan

instance : Add (Float64 K) := ⟨add⟩
instance : Sub (Float64 K) := ⟨sub⟩
instance : Mul (Float64 K) := ⟨mul⟩
instance : Div (Float64 K) := ⟨div⟩

/-- The conversion `float64(n)` of a length. -/
def ofNat (n : Nat) : Float64 K := fin (n : K)

/-- The conversion `float64(z)` of an `int`. -/
def ofInt (z : Int) : Float64 K := fin (z : K)

/-- The call `math.Pow(v, 2)`: the square, `+Inf` for both infinities, `NaN` for `NaN`. -/
def pow2 : Float64 K → Float64 K
  | fin a => fin (a ^ 2)
  | posInf => posInf
  | negInf => posInf
  | nan => nan

/-- The call `math.Sqrt(v)`.  The square root of a positive finite value is the
parameter `sqrtK` (the library function is outside the repository); the special cases are
those of the Go documentation: `Sqrt(+Inf) = +Inf`, `Sqrt(0) = 0`, `Sqrt(x < 0) = NaN`,
`Sqrt(NaN) = NaN`. -/
def sqrt (sqrtK : K → K) : Float64 K → Float64 K
  | fin a => if a < 0 then nan else if a = 0 then fin 0 else fin (sqrtK a)
  | posInf => posInf
  | negInf => nan
  | nan => nan

/-- The comparison `a < b` of `float64`: false as soon as one side is `NaN`. -/
def lt : Float64 K → Float64 K → Bool
  | fin a, fin b => decide (a < b)
  | fin _, posInf => true
  | fin _, negInf => false
  | fin _, nan => false
  | posInf, _ => false
  | negInf, fin _ => true
  | negInf, posInf => true
  | negInf, negInf => false
  | negInf, nan => false
  | nan, _ => false

end Float64

open Float64

variable {K : Type} [LinearOrderedField K]

/-- The subtraction `n - 2` on Go's 64-bit `int`, which wraps around. -/
def wrapInt64 (z : Int) : Int := (z + 2 ^ 63) % 2 ^ 64 - 2 ^ 63

/-- The four accumulators of `linearRegression`. -/
structure RegSums (K : Type) where
  sumX : Float64 K
  sumY : Float64 K
  sumXY : Float64 K
  sumX2 : Float64 K

/-- The loop `for i := range x` of `linearRegression`, on the remaining suffixes of `x`
and `y`. -/
def linearRegressionLoop :
    List (Float64 K) → List (Float64 K) → RegSums K → Except Panic (RegSums K)
  | [], _, acc => .ok acc
  | _ :: _, [], _ => .error .indexOutOfRange
  | xi :: xs, yi :: ys, acc =>
      linearRegressionLoop xs ys
        { sumX := acc.sumX + xi
          sumY := acc.sumY + yi
          sumXY := acc.sumXY + xi * yi
          sumX2 := acc.sumX2 + xi * xi }

/-- The function `linearRegression`: slope and intercept of simple linear regression. -/
def linearRegression (x y : List (Float64 K)) : Except Panic (Float64 K × Float64 K) :=
  match linearRegressionLoop x y ⟨fin 0, fin 0, fin 0, fin 0⟩ with
  | .error e => .error e
  | .ok s =>
      let n : Float64 K := ofNat x.length
      let xMean := s.sumX / n
      let yMean := s.sumY / n
      let numerator := s.sumXY - n * xMean * yMean
      let denominator := s.sumX2 - n * xMean * xMean
      let slope := numerator / denominator
      let intercept := yMean - slope * xMean
      .ok (slope, intercept)

/-- The function `mean`: the sum of the slice, accumulated from zero, over its length. -/
def mean (vals : List (Float64 K)) : Float64 K :=
  vals.foldl (fun sum v => sum + v) (fin 0) / ofNat vals.length

/-- The loop `for i := range x` of `rSquared`; the accumulator is `(ssTot, ssRes)`. -/
def rSquaredLoop (slope intercept yMean : Float64 K) :
    List (Float64 K) → List (Float64 K) → Float64 K × Float64 K →
      Except Panic (Float64 K × Float64 K)
  | [], _, acc => .ok acc
  | _ :: _, [], _ => .error .indexOutOfRange
  | xi :: xs, yi :: ys, acc =>
      let predicted := slope * xi + intercept
      rSquaredLoop slope intercept yMean xs ys
        (acc.1 + (yi - yMean) * (yi - yMean), acc.2 + (yi - predicted) * (yi - predicted))

/-- The function `rSquared`: the coefficient of determination. -/
def rSquared (x y : List (Float64 K)) (slope intercept : Float64 K) :
    Except Panic (Float64 K) :=
  let yMean := mean y
  match rSquaredLoop slope intercept yMean x y (fin 0, fin 0) with
  | .error e => .error e
  | .ok (ssTot, ssRes) => .ok (fin 1 - ssRes / ssTot)

/-- The loop `for i := range x` of `residualStandardError`; the accumulator is `ssRes`. -/
def residualStandardErrorLoop (slope intercept : Float64 K) :
    List (Float64 K) → List (Float64 K) → Float64 K → Except Panic (Float64 K)
  | [], _, acc => .ok acc
  | _ :: _, [], _ => .error .indexOutOfRange
  | xi :: xs, yi :: ys, acc =>
      let predicted := slope * xi + intercept
      residualStandardErrorLoop slope intercept xs ys (acc + pow2 (yi - predicted))

/-- The function `residualStandardError`; `sqrtK` is `math.Sqrt` on non-negative finite
values. -/
def residualStandardError (sqrtK : K → K) (x y : List (Float64 K))
    (slope intercept : Float64 K) : Except Panic (Float64 K) :=
  let n : Float64 K := ofNat x.length
  match residualStandardErrorLoop slope intercept x y (fin 0) with
  | .error e => .error e
  | .ok ssRes => .ok (Float64.sqrt sqrtK (ssRes / (n - fin 2)))

/-- The function `fStatistic`. -/
def fStatistic (r2 : Float64 K) (n : Int) : Float64 K :=
  if r2 = fin 1 then posInf
  else (r2 / (fin 1 - r2)) * ofInt (wrapInt64 (n - 2))

/-- The type `DataSet`: the x, y data and the name of the dataset. -/
structure DataSet (K : Type) where
  name : String
  x : List (Float64 K)
  y : List (Float64 K)

/-- The x values of the datasets I, II and III of `main`. -/
def anscombeX123 : List ℚ := [10, 8, 13, 9, 11, 14, 6, 4, 12, 7, 5]

/-- The y values of the dataset I of `main`. -/
def anscombeY1 : List ℚ := [8.04, 6.95, 7.58, 8.81, 8.33, 9.96, 7.24, 4.26, 10.84, 4.82, 5.68]

/-- The y values of the dataset II of `main`. -/
def anscombeY2 : List ℚ := [9.14, 8.14, 8.74, 8.77, 9.26, 8.1, 6.13, 3.1, 9.13, 7.26, 4.74]

/-- The y values of the dataset III of `main`. -/
def anscombeY3 : List ℚ := [7.46, 6.77, 12.74, 7.11, 7.81, 8.84, 6.08, 5.39, 8.15, 6.42, 5.73]

/-- The x values of the dataset IV of `main`. -/
def anscombeX4 : List ℚ := [8, 8, 8, 8, 8, 8, 8, 19, 8, 8, 8]

/-- The y values of the dataset IV of `main`. -/
def anscombeY4 : List ℚ := [6.58, 5.76, 7.71, 8.84, 8.47, 7.04, 5.25, 12.5, 5.56, 7.91, 6.89]

/-- The slice `datasets` of `main`: the Anscombe quartet, the decimal constants taken as
exact rationals. -/
def datasets : List (DataSet ℚ) :=
  [ { name := "I", x := anscombeX123.map fin, y := anscombeY1.map fin },
    { name := "II", x := anscombeX123.map fin, y := anscombeY2.map fin },
    { name := "III", x := anscombeX123.map fin, y := anscombeY3.map fin },
    { name := "IV", x := anscombeX4.map fin, y := anscombeY4.map fin } ]

/-- The five statistics `main` prints for one dataset. -/
structure Stats (K : Type) where
  slope : Float64 K
  intercept : Float64 K
  r2 : Float64 K
  rse : Float64 K
  fstat : Float64 K

/-- The four statistics calls of the loop body of `main` on one dataset `ds`. -/
def mainStats (sqrtK : K → K) (ds : DataSet K) : Except Panic (Stats K) :=
  match linearRegression ds.x ds.y with
  | .error e => .error e
  | .ok (slope, intercept) =>
      match rSquared ds.x ds.y slope intercept with
      | .error e => .error e
      | .ok r2 =>
          match residualStandardError sqrtK ds.x ds.y slope intercept with
          | .error e => .error e
          | .ok rse =>
              .ok { slope := slope, intercept := intercept, r2 := r2, rse := rse,
                    fstat := fStatistic r2 (ds.x.length : Int) }

/-- The scan `for _, val := range dataset.x` of `scatterPlotWithRegression`; the
accumulator is `(minX, maxX)`. -/
def minMaxLoop : List (Float64 K) → Float64 K × Float64 K → Float64 K × Float64 K
  | [], acc => acc
  | val :: rest, acc =>
      let minX := if Float64.lt val acc.1 then val else acc.1
      let maxX := if Float64.lt acc.2 val then val else acc.2
      minMaxLoop rest (minX, maxX)

/-- The ways `scatterPlotWithRegression` stops before the regression line is built: a
run-time panic, or `log.Fatalf` after `plotter.NewScatter` returned an error. -/
inductive PlotExit where
  | panic (p : Panic) : PlotExit
  | fatal : PlotExit
  deriving DecidableEq

/-- The loop `for i := range dataset.x` of `scatterPlotWithRegression` that fills `pts`
with `(dataset.x[i], dataset.y[i])`. -/
def scatterPoints :
    List (Float64 K) → List (Float64 K) → Except Panic (List (Float64 K × Float64 K))
  | [], _ => .ok []
  | _ :: _, [] => .error .indexOutOfRange
  | xi :: xs, yi :: ys =>
      match scatterPoints xs ys with
      | .error e => .error e
      | .ok pts => .ok ((xi, yi) :: pts)

/-- The check that `plotter.NewScatter` of the plotting library applies to the points it
copies: no coordinate is `NaN` or infinite. -/
def checkFloats (pts : List (Float64 K × Float64 K)) : Bool :=
  pts.all (fun p =>
    (match p.1 with
      | fin _ => true
      | _ => false) &&
    (match p.2 with
      | fin _ => true
      | _ => false))

/-- The function `scatterPlotWithRegression` up to the value `line`: the points are
filled, `plotter.NewScatter(pts)` is called (`newScatter pts` tells whether it returns
without error; the library is outside the repository, and on an error the program exits
through `log.Fatalf`), then `minX` and `maxX` are scanned from `dataset.x[0]` and the two
points of the line are built.  Drawing and saving the plot are not modelled. -/
def scatterPlotWithRegression (newScatter : List (Float64 K × Float64 K) → Bool)
    (dataset : DataSet K) (slope intercept : Float64 K) :
    Except PlotExit ((Float64 K × Float64 K) × (Float64 K × Float64 K)) :=
  match scatterPoints dataset.x dataset.y with
  | .error e => .error (.panic e)
  | .ok pts =>
      if newScatter pts then
        match dataset.x with
        | [] => .error (.panic .indexOutOfRange)
        | x0 :: rest =>
            let mm := minMaxLoop (x0 :: rest) (x0, x0)
            .ok ((mm.1, slope * mm.1 + intercept), (mm.2, slope * mm.2 + intercept))
      else .error .fatal

/-! ## A second number model: IEEE 754 binary64 with rounding -/

/-- The state of `bitLen`: `fuel` steps left, `n` the remaining high bits, `acc` the bits
counted so far. -/
def bitLenAux : Nat → Nat → Nat → Nat
  | 0, _, acc => acc
  | fuel + 1, n, acc => if n = 0 then acc else bitLenAux fuel (n / 2) (acc + 1)

/-- The number of binary digits of `n` (`0` for `n = 0`). -/
def bitLen (n : Nat) : Nat := bitLenAux n n 0

/-- The integer square root by bisection on the bits: `isqrtAux k n r` adds to `r` the bits
below `2^k` that keep the square at most `n`. -/
def isqrtAux : Nat → Nat → Nat → Nat
  | 0, _, r => r
  | k + 1, n, r =>
      if (r + 2 ^ k) * (r + 2 ^ k) ≤ n then isqrtAux k n (r + 2 ^ k) else isqrtAux k n r

/-- The integer square root: the largest `r` with `r * r <= n`. -/
def isqrt (n : Nat) : Nat := isqrtAux (bitLen n / 2 + 1) n 0

/-- A `float64` value with its IEEE 754 binary64 rounding.  `finite neg m e` is the number
`(-1)^neg * m * 2^e`; the values of the format are those with `m < 2^53`,
`-1074 <= e <= 971` and `2^52 <= m` unless `e = -1074`, and the two zeros are
`finite neg 0 0`.  Every operation below returns a value in this form. -/
inductive Binary64 where
  | finite (neg : Bool) (m : Nat) (e : Int) : Binary64
  | inf (neg : Bool) : Binary64
  | nan : Binary64
  deriving DecidableEq

namespace Binary64

/-- Rounding to nearest, ties to even, of the exact number `(-1)^neg * m * 2^e` (any `m`,
any `e`): `t` is the exponent of the result, `q` its 53-bit significand; a result of
`2^1024` or more overflows to the infinity, a result below half the least subnormal is a
zero. -/
def roundNE (neg : Bool) (m : Nat) (e : Int) : Binary64 :=
  if m = 0 then finite neg 0 0
  else
    let t : Int := max (e + (bitLen m : Int) - 53) (-1074)
    let q : Nat :=
      if t ≤ e then m * 2 ^ (e - t).toNat
      else
        let shift := (t - e).toNat
        let q0 := m / 2 ^ shift
        let r := m % 2 ^ shift
        let half := 2 ^ (shift - 1)
        if half < r ∨ (r = half ∧ q0 % 2 = 1) then q0 + 1 else q0
    if q = 0 then finite neg 0 0
    else if q = 2 ^ 53 then (if 971 < t + 1 then inf neg else finite neg (2 ^ 52) (t + 1))
    else if 971 < t then inf neg
    else finite neg q t

/-- IEEE 754 negation. -/
def neg : Binary64 → Binary64
  | finite s m e => finite (!s) m e
  | inf s => inf (!s)
  | nan => nan

/-- IEEE 754 addition: the exact sum of two finite values, rounded; an exact zero sum is
`-0` only when both operands are negative. -/
def add : Binary64 → Binary64 → Binary64
  | finite s m e, finite t n f =>
      let g := min e f
      let a : Int := if s then -((m * 2 ^ (e - g).toNat : Nat) : Int)
        else ((m * 2 ^ (e - g).toNat : Nat) : Int)
      let b : Int := if t then -((n * 2 ^ (f - g).toNat : Nat) : Int)
        else ((n * 2 ^ (f - g).toNat : Nat) : Int)
      let c := a + b
      if c = 0 then finite (s && t) 0 0 else roundNE (decide (c < 0)) c.natAbs g
  | finite _ _ _, inf t => inf t
  | finite _ _ _, nan => nan
  | inf s, finite _ _ _ => inf s
  | inf s, inf t => if s = t then inf s else nan
  | inf _, nan => nan
  | nan, _ => nan

/-- IEEE 754 subtraction: `a - b = a + (-b)`. -/
def sub (a b : Binary64) : Binary64 := add a (neg b)

/-- IEEE 754 multiplication: the exact product of two finite values, rounded. -/
def mul : Binary64 → Binary64 → Binary64
  | finite s m e, finite t n f => roundNE (xor s t) (m * n) (e + f)
  | finite s m _, inf t => if m = 0 then nan else inf (xor s t)
  | finite _ _ _, nan => nan
  | inf s, finite t n _ => if n = 0 then nan else inf (xor s t)
  | inf s, inf t => inf (xor s t)
  | inf _, nan => nan
  | nan, _ => nan

/-- The rounded quotient `(-1)^neg * (a / b) * 2^e` of two positive integers: the integer
quotient is taken with at least 57 bits and one more bit records a non-zero remainder, so
that the rounding of this number is the rounding of the exact quotient. -/
def divNat (neg : Bool) (a b : Nat) (e : Int) : Binary64 :=
  let k := 56 + bitLen b
  let q := a * 2 ^ k / b
  let sticky := if a * 2 ^ k % b = 0 then 0 else 1
  roundNE neg (2 * q + sticky) (e - (k : Int) - 1)

/-- IEEE 754 division: the exact quotient of two finite values, rounded; a non-zero value
over a zero is an infinity, zero over zero is `NaN`. -/
def div : Binary64 → Binary64 → Binary64
  | finite s m e, finite t n f =>
      if n = 0 then (if m = 0 then nan else inf (xor s t))
      else if m = 0 then finite (xor s t) 0 0
      else divNat (xor s t) m n (e - f)
  | finite s _ _, inf t => finite (xor s t) 0 0
  | finite _ _ _, nan => nan
  | inf s, finite t _ _ => inf (xor s t)
  | inf _, inf _ => nan
  | inf _, nan => nan
  | nan, _ => nan

/-- The call `math.Sqrt(v)`, correctly rounded: the integer square root is taken with at
least 58 bits and one more bit records an inexact root.  `Sqrt(±0) = ±0`,
`Sqrt(x < 0) = NaN`, `Sqrt(+Inf) = +Inf`, `Sqrt(NaN) = NaN`. -/
def sqrt : Binary64 → Binary64
  | finite s m e =>
      if m = 0 then finite s 0 0
      else if s then nan
      else
        let k : Nat := if e % 2 = 0 then 116 else 117
        let n := m * 2 ^ k
        let r := isqrt n
        let sticky := if r * r = n then 0 else 1
        roundNE false (2 * r + sticky) ((e - (k : Int)) / 2 - 1)
  | inf s => if s then nan else inf false
  | nan => nan

/-- The comparison `a == b` of `float64`: false as soon as one side is `NaN`, and the two
zeros are equal. -/
def eq : Binary64 → Binary64 → Bool
  | finite s m e, finite t n f =>
      decide ((m = 0 ∧ n = 0) ∨ (s = t ∧ m = n ∧ e = f))
  | inf s, inf t => decide (s = t)
  | _, _ => false

/-- The conversion `float64(n)` of a length, and a non-negative integer constant. -/
def ofNat (n : Nat) : Binary64 := roundNE false n 0

/-- The conversion `float64(z)` of an `int`. -/
def ofInt (z : Int) : Binary64 := roundNE (decide (z < 0)) z.natAbs 0

/-- The call `math.Pow(v, 2)`: the rounded square (Go scales the significand, squares it
and scales back, which is the rounded product whenever the result is not subnormal). -/
def pow2 (v : Binary64) : Binary64 := mul v v

/-- The real number a finite value stands for. -/
def toRat : Binary64 → Option ℚ
  | finite s m e =>
      some ((if s then -1 else 1) *
        (if 0 ≤ e then (m : ℚ) * 2 ^ e.toNat else (m : ℚ) / 2 ^ (-e).toNat))
  | inf _ => none
  | nan => none

instance : Add Binary64 := ⟨add⟩
instance : Sub Binary64 := ⟨sub⟩
instance : Mul Binary64 := ⟨mul⟩
instance : Div Binary64 := ⟨div⟩

end Binary64

/-- The four accumulators of `linearRegression`, in binary64. -/
structure RegSums64 where
  sumX : Binary64
  sumY : Binary64
  sumXY : Binary64
  sumX2 : Binary64

/-- The loop `for i := range x` of `linearRegression`, in binary64. -/
def linearRegressionLoop64 :
    List Binary64 → List Binary64 → RegSums64 → Except Panic RegSums64
  | [], _, acc => .ok acc
  | _ :: _, [], _ => .error .indexOutOfRange
  | xi :: xs, yi :: ys, acc =>
      linearRegressionLoop64 xs ys
        { sumX := acc.sumX + xi
          sumY := acc.sumY + yi
          sumXY := acc.sumXY + xi * yi
          sumX2 := acc.sumX2 + xi * xi }

/-- The function `linearRegression`, in binary64. -/
def linearRegression64 (x y : List Binary64) : Except Panic (Binary64 × Binary64) :=
  match linearRegressionLoop64 x y
      ⟨Binary64.ofNat 0, Binary64.ofNat 0, Binary64.ofNat 0, Binary64.ofNat 0⟩ with
  | .error e => .error e
  | .ok s =>
      let n : Binary64 := Binary64.ofNat x.length
      let xMean := s.sumX / n
      let yMean := s.sumY / n
      let numerator := s.sumXY - n * xMean * yMean
      let denominator := s.sumX2 - n * xMean * xMean
      let slope := numerator / denominator
      let intercept := yMean - slope * xMean
      .ok (slope, intercept)

/-- The function `mean`, in binary64. -/
def mean64 (vals : List Binary64) : Binary64 :=
  vals.foldl (fun sum v => sum + v) (Binary64.ofNat 0) / Binary64.ofNat vals.length

/-- The loop `for i := range x` of `rSquared`, in binary64; the accumulator is
`(ssTot, ssRes)`. -/
def rSquaredLoop64 (slope intercept yMean : Binary64) :
    List Binary64 → List Binary64 → Binary64 × Binary64 →
      Except Panic (Binary64 × Binary64)
  | [], _, acc => .ok acc
  | _ :: _, [], _ => .error .indexOutOfRange
  | xi :: xs, yi :: ys, acc =>
      let predicted := slope * xi + intercept
      rSquaredLoop64 slope intercept yMean xs ys
        (acc.1 + (yi - yMean) * (yi - yMean), acc.2 + (yi - predicted) * (yi - predicted))

/-- The function `rSquared`, in binary64. -/
def rSquared64 (x y : List Binary64) (slope intercept : Binary64) :
    Except Panic Binary64 :=
  let yMean := mean64 y
  match rSquaredLoop64 slope intercept yMean x y (Binary64.ofNat 0, Binary64.ofNat 0) with
  | .error e => .error e
  | .ok (ssTot, ssRes) => .ok (Binary64.ofNat 1 - ssRes / ssTot)

/-- The loop `for i := range x` of `residualStandardError`, in binary64. -/
def residualStandardErrorLoop64 (slope intercept : Binary64) :
    List Binary64 → List Binary64 → Binary64 → Except Panic Binary64
  | [], _, acc => .ok acc
  | _ :: _, [], _ => .error .indexOutOfRange
  | xi :: xs, yi :: ys, acc =>
      let predicted := slope * xi + intercept
      residualStandardErrorLoop64 slope intercept xs ys
        (acc + Binary64.pow2 (yi - predicted))

/-- The function `residualStandardError`, in binary64. -/
def residualStandardError64 (x y : List Binary64) (slope intercept : Binary64) :
    Except Panic Binary64 :=
  let n : Binary64 := Binary64.ofNat x.length
  match residualStandardErrorLoop64 slope intercept x y (Binary64.ofNat 0) with
  | .error e => .error e
  | .ok ssRes => .ok (Binary64.sqrt (ssRes / (n - Binary64.ofNat 2)))

/-- The function `fStatistic`, in binary64. -/
def fStatistic64 (r2 : Binary64) (n : Int) : Binary64 :=
  if Binary64.eq r2 (Binary64.ofNat 1) then Binary64.inf false
  else (r2 / (Binary64.ofNat 1 - r2)) * Binary64.ofInt (wrapInt64 (n - 2))

/-! ## Reference quantities in exact arithmetic -/

/-- The sum of `f x_i y_i` over the paired samples `(x_i, y_i)`. -/
def pairSum (f : K → K → K) (xs ys : List K) : K := (List.zipWith f xs ys).sum

/-- The total squared residual of the line `y = a*x + b` over the samples:
`sum_i (y_i - (a*x_i + b))^2`. -/
def sumSqResiduals (xs ys : List K) (a b : K) : K :=
  pairSum (fun x y => (y - (a * x + b)) ^ 2) xs ys

/-- The arithmetic mean of a sequence. -/
def meanRef (vs : List K) : K := vs.sum / (vs.length : K)

/-- The total sum of squares `sum_i (y_i - yMean)^2`. -/
def ssTotRef (ys : List K) : K := (ys.map (fun y => (y - meanRef ys) ^ 2)).sum

/-- The coefficient of determination as the spec words it: `1 - ssRes/ssTot` with
`ssTot = sum_i (y_i - yMean)^2` and `ssRes = sum_i (y_i - (slope*x_i + intercept))^2`. -/
def rSquaredRef (xs ys : List K) (slope intercept : K) : K :=
  1 - sumSqResiduals xs ys slope intercept / ssTotRef ys

/-- The slope formula of the spec, `(sumXY - n*xMean*yMean) / (sumX2 - n*xMean*xMean)`,
in exact arithmetic. -/
def slopeRef (xs ys : List K) : K :=
  (pairSum (fun x y => x * y) xs ys - (xs.length : K) * meanRef xs * meanRef ys) /
    ((xs.map (fun x => x * x)).sum - (xs.length : K) * meanRef xs * meanRef xs)

/-- The intercept formula of the spec, `yMean - slope*xMean`, in exact arithmetic. -/
def interceptRef (xs ys : List K) : K := meanRef ys - slopeRef xs ys * meanRef xs

/-- The centred cross sum `Sxy = sum_i (x_i - xMean)(y_i - yMean)`. -/
def sxyRef (xs ys : List K) : K :=
  pairSum (fun x y => (x - meanRef xs) * (y - meanRef ys)) xs ys

/-- The centred sum of squares `Sxx = sum_i (x_i - xMean)^2`. -/
def sxxRef (xs : List K) : K := (xs.map (fun x => (x - meanRef xs) ^ 2)).sum

/-! ## Arithmetic of `Float64` -/

namespace Float64

@[simp] theorem fin_add_fin (a b : K) : (fin a + fin b : Float64 K) = fin (a + b) := rfl

@[simp] theorem fin_sub_fin (a b : K) : (fin a - fin b : Float64 K) = fin (a - b) := rfl

@[simp] theorem fin_mul_fin (a b : K) : (fin a * fin b : Float64 K) = fin (a * b) := rfl

theorem fin_div_fin (a b : K) :
    (fin a / fin b : Float64 K) =
      if b = 0 then (if a = 0 then nan else if 0 < a then posInf else negInf)
      else fin (a / b) := rfl

@[simp] theorem fin_div_fin_of_ne (a : K) {b : K} (hb : b ≠ 0) :
    (fin a / fin b : Float64 K) = fin (a / b) := by
  rw [fin_div_fin, if_neg hb]

@[simp] theorem zero_div_zero : (fin 0 / fin 0 : Float64 K) = nan := by
  simp [fin_div_fin]

@[simp] theorem nan_add (v : Float64 K) : nan + v = nan := rfl

@[simp] theorem add_nan (v : Float64 K) : v + nan = nan := by cases v <;> rfl

@[simp] theorem nan_sub (v : Float64 K) : nan - v = nan := rfl

@[simp] theorem sub_nan (v : Float64 K) : v - nan = nan := by cases v <;> rfl

@[simp] theorem nan_mul (v : Float64 K) : nan * v = nan := rfl

@[simp] theorem mul_nan (v : Float64 K) : v * nan = nan := by cases v <;> rfl

@[simp] theorem nan_div (v : Float64 K) : nan / v = nan := rfl

@[simp] theorem div_nan (v : Float64 K) : v / nan = nan := by cases v <;> rfl

@[simp] theorem ofNat_eq (n : Nat) : (ofNat n : Float64 K) = fin (n : K) := rfl

@[simp] theorem ofInt_eq (z : Int) : (ofInt z : Float64 K) = fin (z : K) := rfl

@[simp] theorem pow2_fin (a : K) : pow2 (fin a) = fin (a ^ 2) := rfl

@[simp] theorem sqrt_zero (sqrtK : K → K) : Float64.sqrt sqrtK (fin 0) = fin 0 := by
  simp [Float64.sqrt]

theorem sqrt_fin_of_pos (sqrtK : K → K) {a : K} (ha : 0 < a) :
    Float64.sqrt sqrtK (fin a) = fin (sqrtK a) := by
  simp [Float64.sqrt, not_lt.mpr ha.le, ha.ne.symm]

theorem add_swap_right (a b c : Float64 K) : a + b + c = a + c + b := by
  cases a <;> cases b <;> cases c <;>
    first
      | rfl
      | (show fin _ = fin _; rw [add_right_comm])

end Float64

/-! ## Sums over paired samples -/

theorem pairSum_nil_left (f : K → K → K) (ys : List K) : pairSum f [] ys = 0 := by
  simp [pairSum]

theorem pairSum_cons (f : K → K → K) (x y : K) (xs ys : List K) :
    pairSum f (x :: xs) (y :: ys) = f x y + pairSum f xs ys := by
  simp [pairSum]

/-- A summand that ignores `y` is summed over `x` alone when `y` is long enough. -/
theorem pairSum_left (g : K → K) (xs ys : List K) (h : xs.length ≤ ys.length) :
    pairSum (fun x _ => g x) xs ys = (xs.map g).sum := by
  induction xs generalizing ys with
  | nil => simp [pairSum]
  | cons x xs ih =>
    cases ys with
    | nil => simp at h
    | cons y ys =>
      have h1 : xs.length ≤ ys.length := by simpa using h
      simp [pairSum_cons, ih ys h1]

/-- A summand that ignores `x` is summed over `y` alone when `x` is long enough. -/
theorem pairSum_right (g : K → K) (xs ys : List K) (h : ys.length ≤ xs.length) :
    pairSum (fun _ y => g y) xs ys = (ys.map g).sum := by
  induction xs generalizing ys with
  | nil =>
    cases ys with
    | nil => simp [pairSum]
    | cons y ys => simp at h
  | cons x xs ih =>
    cases ys with
    | nil => simp [pairSum]
    | cons y ys =>
      have h1 : ys.length ≤ xs.length := by simpa using h
      simp [pairSum_cons, ih ys h1]

/-- The total squared residual expanded in the five sums of the samples. -/
theorem sumSqResiduals_expand (xs ys : List K) (h : xs.length = ys.length) (a b : K) :
    sumSqResiduals xs ys a b =
      (ys.map (fun y => y * y)).sum - 2 * a * pairSum (fun x y => x * y) xs ys
        - 2 * b * ys.sum + a ^ 2 * (xs.map (fun x => x * x)).sum
        + 2 * a * b * xs.sum + (xs.length : K) * b ^ 2 := by
  induction xs generalizing ys with
  | nil =>
    cases ys with
    | nil => simp [sumSqResiduals, pairSum]
    | cons y ys => simp at h
  | cons x xs ih =>
    cases ys with
    | nil => simp at h
    | cons y ys =>
      have h1 : xs.length = ys.length := by simpa using h
      have ih1 := ih ys h1
      simp only [sumSqResiduals] at ih1 ⊢
      simp only [pairSum_cons, ih1, List.map_cons, List.sum_cons, List.length_cons]
      push_cast
      ring

/-- The sum of squared deviations from any centre `c`. -/
theorem sum_sq_dev (xs : List K) (c : K) :
    (xs.map (fun x => (x - c) ^ 2)).sum =
      (xs.map (fun x => x * x)).sum - 2 * c * xs.sum + (xs.length : K) * c ^ 2 := by
  induction xs with
  | nil => simp
  | cons x xs ih =>
    simp only [List.map_cons, List.sum_cons, List.length_cons, ih]
    push_cast
    ring

theorem sum_sq_dev_nonneg (xs : List K) (c : K) :
    0 ≤ (xs.map (fun x => (x - c) ^ 2)).sum := by
  apply List.sum_nonneg
  intro v hv
  obtain ⟨x, _, rfl⟩ := List.mem_map.mp hv
  positivity

/-- A vanishing sum of squared deviations forces every element onto the centre. -/
theorem eq_of_sum_sq_dev_eq_zero (xs : List K) (c : K)
    (h : (xs.map (fun x => (x - c) ^ 2)).sum = 0) : ∀ x ∈ xs, x = c := by
  induction xs with
  | nil => simp
  | cons x xs ih =>
    simp only [List.map_cons, List.sum_cons] at h
    have h1 : 0 ≤ (x - c) ^ 2 := by positivity
    have h2 := sum_sq_dev_nonneg xs c
    have h3 : (x - c) ^ 2 = 0 := by linarith
    have h4 : (xs.map (fun x => (x - c) ^ 2)).sum = 0 := by linarith
    intro v hv
    rcases List.mem_cons.mp hv with rfl | hv
    · have := pow_eq_zero_iff (two_ne_zero) |>.mp h3
      linarith
    · exact ih h4 v hv

/-- The denominator of the slope is the sum of squared deviations of `x` from its mean. -/
theorem denominator_eq_sum_sq_dev (xs : List K) (hn : xs ≠ []) :
    (xs.map (fun x => x * x)).sum - (xs.length : K) * meanRef xs * meanRef xs =
      (xs.map (fun x => (x - meanRef xs) ^ 2)).sum := by
  have hlen : (xs.length : K) ≠ 0 := by
    simpa using hn
  rw [sum_sq_dev]
  have hm : (xs.length : K) * meanRef xs = xs.sum := by
    unfold meanRef
    field_simp
  linear_combination (-2 * meanRef xs) * hm

/-- The denominator of the slope is positive when the `x` values are not all equal. -/
theorem denominator_pos (xs : List K) (hx : ∃ u ∈ xs, ∃ v ∈ xs, u ≠ v) :
    0 < (xs.map (fun x => x * x)).sum - (xs.length : K) * meanRef xs * meanRef xs := by
  obtain ⟨u, hu, v, hv, huv⟩ := hx
  have hn : xs ≠ [] := List.ne_nil_of_mem hu
  rw [denominator_eq_sum_sq_dev xs hn]
  rcases (sum_sq_dev_nonneg xs (meanRef xs)).lt_or_eq with h | h
  · exact h
  · exfalso
    have hall := eq_of_sum_sq_dev_eq_zero xs (meanRef xs) h.symm
    exact huv ((hall u hu).trans (hall v hv).symm)

/-! ## The loops on finite inputs -/

theorem linearRegressionLoop_fin (xs ys : List K) (h : xs.length ≤ ys.length)
    (a b c d : K) :
    linearRegressionLoop (xs.map fin) (ys.map fin) ⟨fin a, fin b, fin c, fin d⟩ =
      .ok ⟨fin (a + pairSum (fun x _ => x) xs ys), fin (b + pairSum (fun _ y => y) xs ys),
        fin (c + pairSum (fun x y => x * y) xs ys),
        fin (d + pairSum (fun x _ => x * x) xs ys)⟩ := by
  induction xs generalizing ys a b c d with
  | nil => simp [linearRegressionLoop, pairSum_nil_left]
  | cons x xs ih =>
    cases ys with
    | nil => simp at h
    | cons y ys =>
      have h1 : xs.length ≤ ys.length := by simpa using h
      simp only [List.map_cons, linearRegressionLoop, fin_add_fin, fin_mul_fin, ih ys h1,
        pairSum_cons, add_assoc]

/-- On finite samples of equal length the loop of `linearRegression` leaves the four exact
sums in the accumulators. -/
theorem linearRegressionLoop_sums (xs ys : List K) (h : xs.length = ys.length) :
    linearRegressionLoop (xs.map fin) (ys.map fin) ⟨fin 0, fin 0, fin 0, fin 0⟩ =
      .ok ⟨fin xs.sum, fin ys.sum, fin (pairSum (fun x y => x * y) xs ys),
        fin (xs.map (fun x => x * x)).sum⟩ := by
  rw [linearRegressionLoop_fin xs ys h.le]
  have e1 := pairSum_left (fun x => x) xs ys h.le
  have e2 := pairSum_right (fun y => y) xs ys h.ge
  have e3 := pairSum_left (fun x => x * x) xs ys h.le
  simp only [List.map_id_fun, id] at e1 e2
  simp [e1, e2, e3]

/-- On finite samples of equal length with a non-zero denominator, `linearRegression`
returns the exact slope and intercept formulas. -/
theorem linearRegression_fin (xs ys : List K) (h : xs.length = ys.length) (hn : xs ≠ [])
    (hD : (xs.map (fun x => x * x)).sum - (xs.length : K) * meanRef xs * meanRef xs ≠ 0) :
    linearRegression (xs.map fin) (ys.map fin) =
      .ok (fin (slopeRef xs ys), fin (interceptRef xs ys)) := by
  have hlen : (xs.length : K) ≠ 0 := by simpa using hn
  have hlen2 : (ys.length : K) ≠ 0 := by rw [← h]; exact hlen
  unfold linearRegression
  rw [linearRegressionLoop_sums xs ys h]
  simp only [List.length_map, ofNat_eq, fin_div_fin_of_ne _ hlen, fin_mul_fin, fin_sub_fin]
  have hD2 : (xs.map (fun x => x * x)).sum - (xs.length : K) * (xs.sum / (xs.length : K)) *
      (xs.sum / (xs.length : K)) ≠ 0 := hD
  rw [fin_div_fin_of_ne _ hD2]
  simp only [fin_mul_fin, fin_sub_fin, slopeRef, interceptRef, meanRef, h]

/-! ## Least squares -/

/-- The algebra behind least squares: with the normal equations `n*X = Sx`, `n*Y = Sy`,
`m*(Sxx - n*X*X) = Sxy - n*X*Y` and `c = Y - m*X`, the quadratic in `(a, b)` is minimal at
`(m, c)`. -/
theorem quadratic_min (n X Y Sx Sy Sxy Sxx Syy m c a b : K) (hn : 0 ≤ n)
    (hD : 0 ≤ Sxx - n * X * X) (hX : n * X = Sx) (hY : n * Y = Sy)
    (hm : m * (Sxx - n * X * X) = Sxy - n * X * Y) (hc : c = Y - m * X) :
    Syy - 2 * m * Sxy - 2 * c * Sy + m ^ 2 * Sxx + 2 * m * c * Sx + n * c ^ 2 ≤
      Syy - 2 * a * Sxy - 2 * b * Sy + a ^ 2 * Sxx + 2 * a * b * Sx + n * b ^ 2 := by
  have hSxy : Sxy = m * (Sxx - n * X * X) + n * X * Y := by linarith
  subst hX hY hc
  rw [hSxy]
  have key : (Syy - 2 * a * (m * (Sxx - n * X * X) + n * X * Y) - 2 * b * (n * Y)
        + a ^ 2 * Sxx + 2 * a * b * (n * X) + n * b ^ 2)
      - (Syy - 2 * m * (m * (Sxx - n * X * X) + n * X * Y) - 2 * (Y - m * X) * (n * Y)
        + m ^ 2 * Sxx + 2 * m * (Y - m * X) * (n * X) + n * (Y - m * X) ^ 2)
      = n * ((b - (Y - m * X)) + (a - m) * X) ^ 2 + (a - m) ^ 2 * (Sxx - n * X * X) := by
    ring
  have p1 : 0 ≤ n * ((b - (Y - m * X)) + (a - m) * X) ^ 2 := mul_nonneg hn (sq_nonneg _)
  have p2 : 0 ≤ (a - m) ^ 2 * (Sxx - n * X * X) := mul_nonneg (sq_nonneg _) hD
  linarith

/-- The slope and intercept formulas minimise the total squared residual. -/
theorem sumSqResiduals_ref_le (xs ys : List K) (h : xs.length = ys.length)
    (hx : ∃ u ∈ xs, ∃ v ∈ xs, u ≠ v) (a b : K) :
    sumSqResiduals xs ys (slopeRef xs ys) (interceptRef xs ys) ≤ sumSqResiduals xs ys a b := by
  have hD := denominator_pos xs hx
  obtain ⟨u, hu, -⟩ := hx
  have hn : xs ≠ [] := List.ne_nil_of_mem hu
  have hlen : (xs.length : K) ≠ 0 := by simpa using hn
  have hmx : (xs.length : K) * meanRef xs = xs.sum := by
    unfold meanRef
    field_simp
  have hmy : (xs.length : K) * meanRef ys = ys.sum := by
    unfold meanRef
    rw [← h]
    field_simp
  have hm : slopeRef xs ys *
      ((xs.map (fun x => x * x)).sum - (xs.length : K) * meanRef xs * meanRef xs) =
      pairSum (fun x y => x * y) xs ys - (xs.length : K) * meanRef xs * meanRef ys := by
    unfold slopeRef
    exact div_mul_cancel₀ _ hD.ne.symm
  rw [sumSqResiduals_expand xs ys h, sumSqResiduals_expand xs ys h]
  exact quadratic_min (xs.length : K) (meanRef xs) (meanRef ys) xs.sum ys.sum
    (pairSum (fun x y => x * y) xs ys) ((xs.map (fun x => x * x)).sum)
    ((ys.map (fun y => y * y)).sum) (slopeRef xs ys) (interceptRef xs ys) a b
    (Nat.cast_nonneg _) hD.le hmx hmy hm rfl

/-- C1 (least-squares optimality): for finite samples `x`, `y` of equal length `n >= 2`
with `x` not all equal, `linearRegression` returns a finite slope and intercept whose total
squared residual is at most that of every other line `y = a*x + b`. -/
theorem linearRegression_least_squares (xs ys : List K) (hlen : xs.length = ys.length)
    (hn : 2 ≤ xs.length) (hx : ∃ u ∈ xs, ∃ v ∈ xs, u ≠ v) :
    ∃ slope intercept : K,
      linearRegression (xs.map fin) (ys.map fin) = .ok (fin slope, fin intercept) ∧
      ∀ a b : K, sumSqResiduals xs ys slope intercept ≤ sumSqResiduals xs ys a b := by
  have hne : xs ≠ [] := by
    intro h0
    simp [h0] at hn
  exact ⟨slopeRef xs ys, interceptRef xs ys,
    linearRegression_fin xs ys hlen hne (denominator_pos xs hx).ne.symm,
    fun a b => sumSqResiduals_ref_le xs ys hlen hx a b⟩

/-- Witness of C1 on `x = [1, 2, 3]`, `y = [2, 4, 7]` over the rationals. -/
theorem linearRegression_least_squares_witness :
    ([1, 2, 3] : List ℚ).length = ([2, 4, 7] : List ℚ).length ∧
    2 ≤ ([1, 2, 3] : List ℚ).length ∧
    (∃ u ∈ ([1, 2, 3] : List ℚ), ∃ v ∈ ([1, 2, 3] : List ℚ), u ≠ v) ∧
    ∃ slope intercept : ℚ,
      linearRegression (([1, 2, 3] : List ℚ).map fin) (([2, 4, 7] : List ℚ).map fin) =
        .ok (fin slope, fin intercept) ∧
      ∀ a b : ℚ, sumSqResiduals [1, 2, 3] [2, 4, 7] slope intercept ≤
        sumSqResiduals [1, 2, 3] [2, 4, 7] a b :=
  ⟨rfl, by decide, ⟨1, by simp, 2, by simp, by norm_num⟩,
    linearRegression_least_squares [1, 2, 3] [2, 4, 7] rfl (by decide)
      ⟨1, by simp, 2, by simp, by norm_num⟩⟩

/-! ## Samples on an exact line -/

theorem sum_map_line (xs : List K) (a b : K) :
    (xs.map (fun x => a * x + b)).sum = a * xs.sum + (xs.length : K) * b := by
  induction xs with
  | nil => simp
  | cons x xs ih =>
    simp only [List.map_cons, List.sum_cons, List.length_cons, ih]
    push_cast
    ring

theorem pairSum_mul_line (xs : List K) (a b : K) :
    pairSum (fun x y => x * y) xs (xs.map (fun x => a * x + b)) =
      a * (xs.map (fun x => x * x)).sum + b * xs.sum := by
  induction xs with
  | nil => simp [pairSum]
  | cons x xs ih =>
    simp only [List.map_cons, pairSum_cons, List.sum_cons, ih]
    ring

theorem meanRef_line (xs : List K) (hn : xs ≠ []) (a b : K) :
    meanRef (xs.map (fun x => a * x + b)) = a * meanRef xs + b := by
  have hlen : (xs.length : K) ≠ 0 := by simpa using hn
  unfold meanRef
  rw [sum_map_line, List.length_map]
  field_simp
  ring

/-- On an exact line with a non-zero denominator the slope formula gives the line's slope. -/
theorem slopeRef_line (xs : List K) (hn : xs ≠ []) (a b : K)
    (hD : (xs.map (fun x => x * x)).sum - (xs.length : K) * meanRef xs * meanRef xs ≠ 0) :
    slopeRef xs (xs.map (fun x => a * x + b)) = a := by
  have hlen : (xs.length : K) ≠ 0 := by simpa using hn
  have hmx : (xs.length : K) * meanRef xs = xs.sum := by
    unfold meanRef
    field_simp
  unfold slopeRef
  rw [div_eq_iff hD, pairSum_mul_line, meanRef_line xs hn]
  linear_combination (-b) * hmx

/-- On an exact line with a non-zero denominator the intercept formula gives the line's
intercept. -/
theorem interceptRef_line (xs : List K) (hn : xs ≠ []) (a b : K)
    (hD : (xs.map (fun x => x * x)).sum - (xs.length : K) * meanRef xs * meanRef xs ≠ 0) :
    interceptRef xs (xs.map (fun x => a * x + b)) = b := by
  unfold interceptRef
  rw [slopeRef_line xs hn a b hD, meanRef_line xs hn]
  ring

/-- On an exact line over `x` values that are not all equal, `linearRegression` returns the
line. -/
theorem linearRegression_line (xs : List K) (a b : K) (hx : ∃ u ∈ xs, ∃ v ∈ xs, u ≠ v) :
    linearRegression (xs.map fin) ((xs.map (fun x => a * x + b)).map fin) =
      .ok (fin a, fin b) := by
  have hD := (denominator_pos xs hx).ne.symm
  obtain ⟨u, hu, -⟩ := hx
  have hn : xs ≠ [] := List.ne_nil_of_mem hu
  rw [linearRegression_fin xs _ (by simp) hn hD, slopeRef_line xs hn a b hD,
    interceptRef_line xs hn a b hD]

/-- Evaluation of `linearRegression` on three equal `x` values: both results are `NaN`. -/
theorem linearRegression_const_x_eval (c y0 y1 y2 : ℚ) :
    linearRegression ([c, c, c].map fin) ([y0, y1, y2].map fin) = .ok (nan, nan) := by
  have h1 : (c + c + c) / 3 = c := by ring
  have h2 : c * c + c * c + c * c - 3 * c * c = 0 := by ring
  have h3 : c * y0 + c * y1 + c * y2 - 3 * c * ((y0 + y1 + y2) / 3) = 0 := by ring
  simp [linearRegression, linearRegressionLoop, h1, h2, h3]

/-- C2, amended (exact-line recovery in exact real arithmetic): for samples of length
`n >= 3` on a line `y_i = a*x_i + b` with `a != 0` and `x` values that are not all equal,
`linearRegression` computed in exact arithmetic returns exactly `(a, b)`, hence a pair
within `1e-6` of `(a, b)`. -/
theorem linearRegression_exact_line (xs : List K) (a b : K) (_hn : 3 ≤ xs.length)
    (_ha : a ≠ 0) (hx : ∃ u ∈ xs, ∃ v ∈ xs, u ≠ v) :
    ∃ slope intercept : K,
      linearRegression (xs.map fin) ((xs.map (fun x => a * x + b)).map fin) =
        .ok (fin slope, fin intercept) ∧
      slope = a ∧ intercept = b ∧
      |slope - a| ≤ 1 / 10 ^ 6 ∧ |intercept - b| ≤ 1 / 10 ^ 6 := by
  refine ⟨a, b, linearRegression_line xs a b hx, rfl, rfl, ?_, ?_⟩ <;>
    · rw [sub_self, abs_zero]
      positivity

/-! ## `mean` and `rSquared` on finite inputs -/

theorem foldl_add_fin (vs : List K) (a : K) :
    (vs.map fin).foldl (fun sum v => sum + v) (fin a) = fin (a + vs.sum) := by
  induction vs generalizing a with
  | nil => simp
  | cons v vs ih => simp [ih, add_assoc]

/-- On a non-empty finite slice `mean` is the arithmetic mean. -/
theorem mean_fin (vs : List K) (hn : vs ≠ []) : mean (vs.map fin) = fin (meanRef vs) := by
  have hlen : (vs.length : K) ≠ 0 := by simpa using hn
  simp [mean, foldl_add_fin, meanRef, hlen]

/-- On the empty slice `mean` is `0/0 = NaN`. -/
theorem mean_nil : mean ([] : List (Float64 K)) = nan := by
  simp [mean]

theorem rSquaredLoop_fin (s i m : K) (xs ys : List K) (h : xs.length ≤ ys.length)
    (t r : K) :
    rSquaredLoop (fin s) (fin i) (fin m) (xs.map fin) (ys.map fin) (fin t, fin r) =
      .ok (fin (t + pairSum (fun _ y => (y - m) ^ 2) xs ys),
        fin (r + sumSqResiduals xs ys s i)) := by
  induction xs generalizing ys t r with
  | nil => simp [rSquaredLoop, sumSqResiduals, pairSum_nil_left]
  | cons x xs ih =>
    cases ys with
    | nil => simp at h
    | cons y ys =>
      have h1 : xs.length ≤ ys.length := by simpa using h
      simp only [List.map_cons, rSquaredLoop, fin_add_fin, fin_mul_fin, fin_sub_fin,
        ih ys h1, sumSqResiduals, pairSum_cons, add_assoc, pow_two]

/-- On finite samples of equal length `rSquared` is `1 - ssRes/ssTot`, the division and
the subtraction being those of `float64`. -/
theorem rSquared_fin (xs ys : List K) (h : xs.length = ys.length) (s i : K) :
    rSquared (xs.map fin) (ys.map fin) (fin s) (fin i) =
      .ok (fin 1 - fin (sumSqResiduals xs ys s i) / fin (ssTotRef ys)) := by
  by_cases hn : ys = []
  · subst hn
    have hx : xs = [] := List.length_eq_zero.mp (by simpa using h)
    subst hx
    simp [rSquared, rSquaredLoop, sumSqResiduals, pairSum, ssTotRef]
  · unfold rSquared
    simp only [mean_fin ys hn, rSquaredLoop_fin s i (meanRef ys) xs ys h.le, zero_add]
    rw [pairSum_right (fun y => (y - meanRef ys) ^ 2) xs ys h.ge]
    rfl

theorem sumSqResiduals_line (xs : List K) (a b : K) :
    sumSqResiduals xs (xs.map (fun x => a * x + b)) a b = 0 := by
  induction xs with
  | nil => simp [sumSqResiduals, pairSum]
  | cons x xs ih =>
    simp only [sumSqResiduals] at ih ⊢
    simp [pairSum_cons, ih]

/-- The total sum of squares is positive when the `y` values are not all equal. -/
theorem ssTotRef_pos (ys : List K) (hy : ∃ u ∈ ys, ∃ v ∈ ys, u ≠ v) : 0 < ssTotRef ys := by
  have h := denominator_pos ys hy
  obtain ⟨u, hu, -⟩ := hy
  rw [denominator_eq_sum_sq_dev ys (List.ne_nil_of_mem hu)] at h
  exact h

/-- On an exact line `rSquared` of the line itself is `1`, when `x` is not constant and
the slope is not zero. -/
theorem rSquared_line (xs : List K) (a b : K) (ha : a ≠ 0)
    (hx : ∃ u ∈ xs, ∃ v ∈ xs, u ≠ v) :
    rSquared (xs.map fin) ((xs.map (fun x => a * x + b)).map fin) (fin a) (fin b) =
      .ok (fin 1) := by
  have hy : ∃ u ∈ xs.map (fun x => a * x + b), ∃ v ∈ xs.map (fun x => a * x + b), u ≠ v := by
    obtain ⟨u, hu, v, hv, huv⟩ := hx
    refine ⟨a * u + b, List.mem_map.mpr ⟨u, hu, rfl⟩, a * v + b,
      List.mem_map.mpr ⟨v, hv, rfl⟩, ?_⟩
    intro he
    apply huv
    have : a * u = a * v := by linarith
    exact mul_left_cancel₀ ha this
  have hT := (ssTotRef_pos _ hy).ne.symm
  rw [rSquared_fin xs _ (by simp), sumSqResiduals_line, fin_div_fin_of_ne _ hT]
  simp

/-- Evaluation of `rSquared` at a `NaN` slope and intercept on three samples with equal
`y`. -/
theorem rSquared_nan_eval (x0 x1 x2 c : ℚ) :
    rSquared ([x0, x1, x2].map fin) ([c, c, c].map fin) nan nan = .ok nan := by
  simp [rSquared, rSquaredLoop, mean]

/-- C3, amended (perfect fit gives `R² = 1` in exact real arithmetic): for samples of
length `n >= 3` on a line `y_i = a*x_i + b` with `a != 0` and `x` values that are not all
equal, `rSquared` of the fit returned by `linearRegression`, both computed in exact
arithmetic, is exactly `1`, hence within `1e-6` of `1`. -/
theorem rSquared_perfect_fit (xs : List K) (a b : K) (_hn : 3 ≤ xs.length) (ha : a ≠ 0)
    (hx : ∃ u ∈ xs, ∃ v ∈ xs, u ≠ v) :
    ∃ (slope intercept : Float64 K) (r2 : K),
      linearRegression (xs.map fin) ((xs.map (fun x => a * x + b)).map fin) =
        .ok (slope, intercept) ∧
      rSquared (xs.map fin) ((xs.map (fun x => a * x + b)).map fin) slope intercept =
        .ok (fin r2) ∧
      r2 = 1 ∧ |r2 - 1| ≤ 1 / 10 ^ 6 := by
  refine ⟨fin a, fin b, 1, linearRegression_line xs a b hx, rSquared_line xs a b ha hx,
    rfl, ?_⟩
  rw [sub_self, abs_zero]
  positivity

/-! ## `residualStandardError` on finite inputs -/

theorem residualStandardErrorLoop_fin (s i : K) (xs ys : List K)
    (h : xs.length ≤ ys.length) (r : K) :
    residualStandardErrorLoop (fin s) (fin i) (xs.map fin) (ys.map fin) (fin r) =
      .ok (fin (r + sumSqResiduals xs ys s i)) := by
  induction xs generalizing ys r with
  | nil => simp [residualStandardErrorLoop, sumSqResiduals, pairSum_nil_left]
  | cons x xs ih =>
    cases ys with
    | nil => simp at h
    | cons y ys =>
      have h1 : xs.length ≤ ys.length := by simpa using h
      simp only [List.map_cons, residualStandardErrorLoop, fin_add_fin, fin_mul_fin,
        fin_sub_fin, pow2_fin, ih ys h1, sumSqResiduals, pairSum_cons, add_assoc]

/-- On finite samples of equal length `n != 2`, `residualStandardError` is `math.Sqrt` of
the exact quotient `ssRes / (n - 2)`. -/
theorem residualStandardError_fin (sqrtK : K → K) (xs ys : List K)
    (h : xs.length = ys.length) (hn : xs.length ≠ 2) (s i : K) :
    residualStandardError sqrtK (xs.map fin) (ys.map fin) (fin s) (fin i) =
      .ok (Float64.sqrt sqrtK (fin (sumSqResiduals xs ys s i / ((xs.length : K) - 2)))) := by
  have h2 : (xs.length : K) - 2 ≠ 0 := by
    intro h0
    apply hn
    have h3 : (xs.length : K) = ((2 : ℕ) : K) := by
      push_cast
      linarith
    exact Nat.cast_injective h3
  unfold residualStandardError
  simp only [residualStandardErrorLoop_fin s i xs ys h.le, zero_add, List.length_map,
    ofNat_eq, fin_sub_fin, fin_div_fin_of_ne _ h2]

theorem sumSqResiduals_nonneg (xs ys : List K) (a b : K) : 0 ≤ sumSqResiduals xs ys a b := by
  induction xs generalizing ys with
  | nil => simp [sumSqResiduals, pairSum]
  | cons x xs ih =>
    cases ys with
    | nil => simp [sumSqResiduals, pairSum]
    | cons y ys =>
      have h1 := ih ys
      simp only [sumSqResiduals] at h1 ⊢
      rw [pairSum_cons]
      positivity

theorem wrapInt64_of_range (z : Int) (h1 : -2 ^ 63 ≤ z) (h2 : z < 2 ^ 63) :
    wrapInt64 z = z := by
  unfold wrapInt64
  rw [Int.emod_eq_of_lt (by linarith) (by linarith)]
  ring

/-- C5: `fStatistic(r2, n)` is `+Inf` when `r2` is exactly `1`; for every other `r2` it
is `(r2 / (1 - r2)) * float64(n - 2)` in `float64` arithmetic, which for a finite
`r2 = r` and an `int` `n` whose `n - 2` does not wrap around is the number
`(r / (1 - r)) * (n - 2)`. -/
theorem fStatistic_spec (r2 : Float64 K) (n : Int) :
    (r2 = fin 1 → fStatistic r2 n = posInf) ∧
    (r2 ≠ fin 1 → fStatistic r2 n = (r2 / (fin 1 - r2)) * ofInt (wrapInt64 (n - 2))) ∧
    (∀ r : K, r2 = fin r → r ≠ 1 → -2 ^ 63 + 2 ≤ n → n < 2 ^ 63 →
      fStatistic r2 n = fin ((r / (1 - r)) * ((n : K) - 2))) := by
  refine ⟨fun h => by simp [fStatistic, h], fun h => by simp [fStatistic, h], ?_⟩
  intro r hr hr1 hlo hhi
  subst hr
  have hne : (fin r : Float64 K) ≠ fin 1 := by
    intro h
    exact hr1 (Float64.fin.inj h)
  have hsub : (1 : K) - r ≠ 0 := sub_ne_zero.mpr (Ne.symm hr1)
  have hw : wrapInt64 (n - 2) = n - 2 := wrapInt64_of_range _ (by linarith) (by linarith)
  simp [fStatistic, hne, hw, fin_div_fin_of_ne _ hsub]

/-- Witness of C5: `fStatistic(1, 11) = +Inf` and `fStatistic(2/3, 11) = 18`. -/
theorem fStatistic_spec_witness :
    fStatistic (fin (1 : ℚ)) 11 = posInf ∧ fStatistic (fin (2 / 3 : ℚ)) 11 = fin 18 :=
  ⟨(fStatistic_spec (fin (1 : ℚ)) 11).1 rfl,
    ((fStatistic_spec (fin (2 / 3 : ℚ)) 11).2.2 (2 / 3) rfl (by norm_num) (by norm_num)
      (by norm_num)).trans (by norm_num)⟩

/-! ## Order-invariance -/

theorem linearRegressionLoop_perm {ps qs : List (Float64 K × Float64 K)} (h : ps.Perm qs) :
    ∀ acc : RegSums K,
      linearRegressionLoop (ps.map Prod.fst) (ps.map Prod.snd) acc =
        linearRegressionLoop (qs.map Prod.fst) (qs.map Prod.snd) acc := by
  induction h with
  | nil => intro acc; rfl
  | cons p _ ih =>
    intro acc
    simp only [List.map_cons, linearRegressionLoop]
    exact ih _
  | swap p q l =>
    intro acc
    simp only [List.map_cons, linearRegressionLoop]
    congr 1
    simp only [RegSums.mk.injEq]
    exact ⟨add_swap_right _ _ _, add_swap_right _ _ _, add_swap_right _ _ _,
      add_swap_right _ _ _⟩
  | trans _ _ ih1 ih2 =>
    intro acc
    exact (ih1 acc).trans (ih2 acc)

theorem rSquaredLoop_perm (s i m : Float64 K) {ps qs : List (Float64 K × Float64 K)}
    (h : ps.Perm qs) :
    ∀ acc : Float64 K × Float64 K,
      rSquaredLoop s i m (ps.map Prod.fst) (ps.map Prod.snd) acc =
        rSquaredLoop s i m (qs.map Prod.fst) (qs.map Prod.snd) acc := by
  induction h with
  | nil => intro acc; rfl
  | cons p _ ih =>
    intro acc
    simp only [List.map_cons, rSquaredLoop]
    exact ih _
  | swap p q l =>
    intro acc
    simp only [List.map_cons, rSquaredLoop]
    congr 1
    simp only [Prod.mk.injEq]
    exact ⟨add_swap_right _ _ _, add_swap_right _ _ _⟩
  | trans _ _ ih1 ih2 =>
    intro acc
    exact (ih1 acc).trans (ih2 acc)

theorem residualStandardErrorLoop_perm (s i : Float64 K)
    {ps qs : List (Float64 K × Float64 K)} (h : ps.Perm qs) :
    ∀ acc : Float64 K,
      residualStandardErrorLoop s i (ps.map Prod.fst) (ps.map Prod.snd) acc =
        residualStandardErrorLoop s i (qs.map Prod.fst) (qs.map Prod.snd) acc := by
  induction h with
  | nil => intro acc; rfl
  | cons p _ ih =>
    intro acc
    simp only [List.map_cons, residualStandardErrorLoop]
    exact ih _
  | swap p q l =>
    intro acc
    simp only [List.map_cons, residualStandardErrorLoop]
    congr 1
    exact add_swap_right _ _ _
  | trans _ _ ih1 ih2 =>
    intro acc
    exact (ih1 acc).trans (ih2 acc)

theorem foldl_add_perm {l1 l2 : List (Float64 K)} (h : l1.Perm l2) :
    ∀ a : Float64 K,
      l1.foldl (fun sum v => sum + v) a = l2.foldl (fun sum v => sum + v) a := by
  induction h with
  | nil => intro a; rfl
  | cons v _ ih =>
    intro a
    simp only [List.foldl_cons]
    exact ih _
  | swap u v l =>
    intro a
    simp only [List.foldl_cons]
    rw [add_swap_right]
  | trans _ _ ih1 ih2 =>
    intro a
    exact (ih1 a).trans (ih2 a)

theorem mean_perm {l1 l2 : List (Float64 K)} (h : l1.Perm l2) : mean l1 = mean l2 := by
  unfold mean
  rw [foldl_add_perm h, h.length_eq]

/-- The three statistics of a list of sample pairs do not depend on the order of the
pairs. -/
theorem stats_perm_pairs (sqrtK : K → K) {ps qs : List (Float64 K × Float64 K)}
    (h : ps.Perm qs) (slope intercept : Float64 K) :
    linearRegression (ps.map Prod.fst) (ps.map Prod.snd) =
        linearRegression (qs.map Prod.fst) (qs.map Prod.snd) ∧
    rSquared (ps.map Prod.fst) (ps.map Prod.snd) slope intercept =
        rSquared (qs.map Prod.fst) (qs.map Prod.snd) slope intercept ∧
    residualStandardError sqrtK (ps.map Prod.fst) (ps.map Prod.snd) slope intercept =
        residualStandardError sqrtK (qs.map Prod.fst) (qs.map Prod.snd) slope intercept := by
  refine ⟨?_, ?_, ?_⟩
  · unfold linearRegression
    rw [linearRegressionLoop_perm h, List.length_map, List.length_map, h.length_eq]
  · unfold rSquared
    simp only [mean_perm (h.map Prod.snd), rSquaredLoop_perm _ _ _ h]
  · unfold residualStandardError
    rw [residualStandardErrorLoop_perm _ _ h, List.length_map, List.length_map, h.length_eq]

/-- C6 (order-invariance): for samples `x`, `y` of equal length, applying one permutation
to both (the list of pairs of `x2`, `y2` is a permutation of the list of pairs of `x`,
`y`) leaves `linearRegression`, `rSquared` and `residualStandardError` unchanged, for
every slope and intercept. -/
theorem order_invariance (sqrtK : K → K) (x y x2 y2 : List (Float64 K))
    (hlen : x.length = y.length) (hlen2 : x2.length = y2.length)
    (hp : (x2.zip y2).Perm (x.zip y)) (slope intercept : Float64 K) :
    linearRegression x2 y2 = linearRegression x y ∧
    rSquared x2 y2 slope intercept = rSquared x y slope intercept ∧
    residualStandardError sqrtK x2 y2 slope intercept =
      residualStandardError sqrtK x y slope intercept := by
  have h := stats_perm_pairs sqrtK hp slope intercept
  rw [List.map_fst_zip _ _ hlen2.le, List.map_snd_zip _ _ hlen2.ge,
    List.map_fst_zip _ _ hlen.le, List.map_snd_zip _ _ hlen.ge] at h
  exact h

/-- Witness of C6: swapping the first two samples of `x = [1, 2, 3]`, `y = [2, 4, 7]`. -/
theorem order_invariance_witness :
    linearRegression [fin 2, fin 1, fin 3] [fin 4, fin 2, fin 7] =
      linearRegression [fin (1 : ℚ), fin 2, fin 3] [fin 2, fin 4, fin 7] ∧
    rSquared [fin 2, fin 1, fin 3] [fin 4, fin 2, fin 7] (fin 1) (fin 0) =
      rSquared [fin (1 : ℚ), fin 2, fin 3] [fin 2, fin 4, fin 7] (fin 1) (fin 0) ∧
    residualStandardError (fun v : ℚ => v) [fin 2, fin 1, fin 3] [fin 4, fin 2, fin 7]
        (fin 1) (fin 0) =
      residualStandardError (fun v : ℚ => v) [fin (1 : ℚ), fin 2, fin 3]
        [fin 2, fin 4, fin 7] (fin 1) (fin 0) :=
  order_invariance (fun v : ℚ => v) [fin 1, fin 2, fin 3] [fin 2, fin 4, fin 7]
    [fin 2, fin 1, fin 3] [fin 4, fin 2, fin 7] rfl rfl (List.Perm.swap _ _ _) (fin 1) (fin 0)

/-! ## Reference definitions of `rSquared` and `residualStandardError` -/

theorem sum_const (xs : List K) (c : K) (hc : ∀ x ∈ xs, x = c) :
    xs.sum = (xs.length : K) * c := by
  induction xs with
  | nil => simp
  | cons x xs ih =>
    have hx : x = c := hc x (List.mem_cons_self _ _)
    have ih1 := ih (fun v hv => hc v (List.mem_cons_of_mem _ hv))
    simp only [List.sum_cons, List.length_cons, ih1, hx]
    push_cast
    ring

theorem sum_sq_const (xs : List K) (c : K) (hc : ∀ x ∈ xs, x = c) :
    (xs.map (fun x => x * x)).sum = (xs.length : K) * c * c := by
  induction xs with
  | nil => simp
  | cons x xs ih =>
    have hx : x = c := hc x (List.mem_cons_self _ _)
    have ih1 := ih (fun v hv => hc v (List.mem_cons_of_mem _ hv))
    simp only [List.map_cons, List.sum_cons, List.length_cons, ih1, hx]
    push_cast
    ring

theorem pairSum_mul_const (xs ys : List K) (h : xs.length = ys.length) (c : K)
    (hc : ∀ x ∈ xs, x = c) :
    pairSum (fun x y => x * y) xs ys = c * ys.sum := by
  induction xs generalizing ys with
  | nil =>
    cases ys with
    | nil => simp [pairSum]
    | cons y ys => simp at h
  | cons x xs ih =>
    cases ys with
    | nil => simp at h
    | cons y ys =>
      have hx : x = c := hc x (List.mem_cons_self _ _)
      have h1 : xs.length = ys.length := by simpa using h
      have ih1 := ih ys h1 (fun v hv => hc v (List.mem_cons_of_mem _ hv))
      simp only [pairSum_cons, List.sum_cons, ih1, hx]
      ring

/-- On finite samples of equal length whose `x` values are all `c`, the slope is `0/0`:
`linearRegression` returns `(NaN, NaN)`. -/
theorem linearRegression_const_x (xs ys : List K) (h : xs.length = ys.length) (c : K)
    (hc : ∀ x ∈ xs, x = c) :
    linearRegression (xs.map fin) (ys.map fin) = .ok (nan, nan) := by
  by_cases hn : xs = []
  · subst hn
    simp [linearRegression, linearRegressionLoop]
  · have hlen : (xs.length : K) ≠ 0 := by simpa using hn
    have hD : (xs.map (fun x => x * x)).sum -
        (xs.length : K) * (xs.sum / (xs.length : K)) * (xs.sum / (xs.length : K)) = 0 := by
      rw [sum_sq_const xs c hc, sum_const xs c hc]
      field_simp
    have hN : pairSum (fun x y => x * y) xs ys -
        (xs.length : K) * (xs.sum / (xs.length : K)) * (ys.sum / (xs.length : K)) = 0 := by
      rw [pairSum_mul_const xs ys h c hc, sum_const xs c hc]
      field_simp
      ring
    unfold linearRegression
    rw [linearRegressionLoop_sums xs ys h]
    simp only [List.length_map, ofNat_eq, fin_div_fin_of_ne _ hlen, fin_mul_fin, fin_sub_fin,
      hD, hN, zero_div_zero, nan_mul, sub_nan]

/-- C9, counterexample: on `x = [5, 5, 5]`, `y = [1, 2, 3]` the function
`linearRegression` does not fail; it returns `(NaN, NaN)`. -/
theorem linearRegression_zero_variance_counterexample :
    linearRegression (([5, 5, 5] : List ℚ).map fin) (([1, 2, 3] : List ℚ).map fin) =
      .ok (nan, nan) ∧
    ∀ e : Panic,
      linearRegression (([5, 5, 5] : List ℚ).map fin) (([1, 2, 3] : List ℚ).map fin) ≠
        .error e := by
  refine ⟨linearRegression_const_x_eval 5 1 2 3, fun e h => ?_⟩
  rw [linearRegression_const_x_eval 5 1 2 3] at h
  simp at h

/-- The loop of `linearRegression` in binary64 never stops on an error when `y` is at least
as long as `x`. -/
theorem linearRegressionLoop64_ok (x y : List Binary64) (h : x.length ≤ y.length) :
    ∀ acc : RegSums64, ∃ s : RegSums64, linearRegressionLoop64 x y acc = .ok s := by
  induction x generalizing y with
  | nil => intro acc; exact ⟨acc, rfl⟩
  | cons xi xs ih =>
    intro acc
    cases y with
    | nil => simp at h
    | cons yi ys =>
      have h1 : xs.length ≤ ys.length := by simpa using h
      simp only [linearRegressionLoop64]
      exact ih ys h1 _

theorem linearRegressionLoop_short_y (x y : List (Float64 K)) (h : y.length < x.length) :
    ∀ acc : RegSums K, linearRegressionLoop x y acc = .error .indexOutOfRange := by
  induction x generalizing y with
  | nil => simp at h
  | cons xi xs ih =>
    intro acc
    cases y with
    | nil => rfl
    | cons yi ys =>
      have h1 : ys.length < xs.length := by simpa using h
      simp only [linearRegressionLoop]
      exact ih ys h1 _

/-- The loop of `linearRegression` reads only the first `len(x)` values of `y`. -/
theorem linearRegressionLoop_take (x y : List (Float64 K)) :
    ∀ acc : RegSums K,
      linearRegressionLoop x (y.take x.length) acc = linearRegressionLoop x y acc := by
  induction x generalizing y with
  | nil => intro acc; simp [linearRegressionLoop]
  | cons xi xs ih =>
    intro acc
    cases y with
    | nil => rfl
    | cons yi ys =>
      simp only [List.length_cons, List.take_succ_cons, linearRegressionLoop]
      exact ih ys _

theorem linearRegressionLoop_ok (x y : List (Float64 K)) (h : x.length ≤ y.length) :
    ∀ acc : RegSums K, ∃ s : RegSums K, linearRegressionLoop x y acc = .ok s := by
  induction x generalizing y with
  | nil => intro acc; exact ⟨acc, rfl⟩
  | cons xi xs ih =>
    intro acc
    cases y with
    | nil => simp at h
    | cons yi ys =>
      have h1 : xs.length ≤ ys.length := by simpa using h
      simp only [linearRegressionLoop]
      exact ih ys h1 _

/-- C9, amended: for every input of equal lengths in which all `x` values are identical
(every input with `n = 1` included), `linearRegression` raises no error: it returns the
`(slope, intercept)` pair that the unguarded arithmetic produces, in the exact model and in
binary64. -/
theorem linearRegression_zero_variance (x y : List (Float64 K)) (x64 y64 : List Binary64)
    (hlen : x.length = y.length) (_hx : ∀ u ∈ x, ∀ v ∈ x, u = v)
    (hlen64 : x64.length = y64.length) (_hx64 : ∀ u ∈ x64, ∀ v ∈ x64, u = v) :
    (∃ slope intercept : Float64 K, linearRegression x y = .ok (slope, intercept)) ∧
    (∀ e : Panic, linearRegression x y ≠ .error e) ∧
    (∃ slope intercept : Binary64, linearRegression64 x64 y64 = .ok (slope, intercept)) ∧
    (∀ e : Panic, linearRegression64 x64 y64 ≠ .error e) := by
  obtain ⟨s, hs⟩ := linearRegressionLoop_ok x y hlen.le ⟨fin 0, fin 0, fin 0, fin 0⟩
  obtain ⟨t, ht⟩ := linearRegressionLoop64_ok x64 y64 hlen64.le
    ⟨Binary64.ofNat 0, Binary64.ofNat 0, Binary64.ofNat 0, Binary64.ofNat 0⟩
  have h1 : ∃ slope intercept : Float64 K, linearRegression x y = .ok (slope, intercept) := by
    unfold linearRegression
    rw [hs]
    exact ⟨_, _, rfl⟩
  have h2 : ∃ slope intercept : Binary64,
      linearRegression64 x64 y64 = .ok (slope, intercept) := by
    unfold linearRegression64
    rw [ht]
    exact ⟨_, _, rfl⟩
  refine ⟨h1, ?_, h2, ?_⟩
  · obtain ⟨a, b, hab⟩ := h1
    intro e he
    rw [hab] at he
    cases he
  · obtain ⟨a, b, hab⟩ := h2
    intro e he
    rw [hab] at he
    cases he

/-- Witness of C9, amended, on `x = [5, 5, 5]`, `y = [1, 2, 3]`, in both models. -/
theorem linearRegression_zero_variance_witness :
    (∃ slope intercept : Float64 ℚ,
      linearRegression [fin (5 : ℚ), fin 5, fin 5] [fin 1, fin 2, fin 3] =
        .ok (slope, intercept)) ∧
    (∃ slope intercept : Binary64,
      linearRegression64 [Binary64.ofNat 5, Binary64.ofNat 5, Binary64.ofNat 5]
        [Binary64.ofNat 1, Binary64.ofNat 2, Binary64.ofNat 3] = .ok (slope, intercept)) := by
  have h := linearRegression_zero_variance [fin (5 : ℚ), fin 5, fin 5] [fin 1, fin 2, fin 3]
    [Binary64.ofNat 5, Binary64.ofNat 5, Binary64.ofNat 5]
    [Binary64.ofNat 1, Binary64.ofNat 2, Binary64.ofNat 3] rfl
    (by
      intro u hu v hv
      simp at hu hv
      rw [hu, hv]) rfl
    (by
      intro u hu v hv
      simp at hu hv
      rw [hu, hv])
  exact ⟨h.1, h.2.2.1⟩

/-- C10, counterexample: on `x = [1, 2, 3]` and `y = [2, 4, 6, 100]` (`len(x) = 3`,
`len(y) = 4`) the function `linearRegression` does not fail; it returns slope `2` and
intercept `0`. -/
theorem linearRegression_shape_mismatch_counterexample :
    ([1, 2, 3] : List ℚ).length ≠ ([2, 4, 6, 100] : List ℚ).length ∧
    linearRegression (([1, 2, 3] : List ℚ).map fin) (([2, 4, 6, 100] : List ℚ).map fin) =
      .ok (fin 2, fin 0) := by
  refine ⟨by decide, ?_⟩
  simp [linearRegression, linearRegressionLoop]
  norm_num

/-- C10, amended: for inputs with `len(x) != len(y)`, `linearRegression` stops with Go's
index-out-of-range panic when `y` is the shorter slice, and when `y` is the longer slice
it raises no error and returns the slope and intercept it returns for `x` and the first
`len(x)` values of `y`. -/
theorem linearRegression_shape_mismatch (x y : List (Float64 K))
    (hne : x.length ≠ y.length) :
    (y.length < x.length ∧ linearRegression x y = .error .indexOutOfRange) ∨
    (x.length < y.length ∧
      ∃ slope intercept : Float64 K,
        linearRegression x y = .ok (slope, intercept) ∧
        linearRegression x (y.take x.length) = .ok (slope, intercept)) := by
  rcases Nat.lt_or_gt_of_ne hne with h | h
  · right
    refine ⟨h, ?_⟩
    obtain ⟨s, hs⟩ := linearRegressionLoop_ok x y h.le ⟨fin 0, fin 0, fin 0, fin 0⟩
    unfold linearRegression
    rw [linearRegressionLoop_take, hs]
    exact ⟨_, _, rfl, rfl⟩
  · left
    refine ⟨h, ?_⟩
    unfold linearRegression
    rw [linearRegressionLoop_short_y x y h]

/-- Witness of C10, amended, on `x = [1, 2, 3]` and the shorter `y = [2, 4]`: the call
panics. -/
theorem linearRegression_shape_mismatch_witness :
    linearRegression [fin (1 : ℚ), fin 2, fin 3] [fin 2, fin 4] = .error .indexOutOfRange := by
  rcases linearRegression_shape_mismatch [fin (1 : ℚ), fin 2, fin 3] [fin 2, fin 4]
    (by decide) with h | h
  · exact h.2
  · exact absurd h.1 (by decide)

/-! ## Small samples of `residualStandardError` and constant `y` in `rSquared` -/

/-- On finite samples of equal length `2` the quotient `ssRes / (n - 2)` is a division by
zero: `residualStandardError` returns `NaN` when `ssRes = 0` and `+Inf` otherwise. -/
theorem residualStandardError_two (sqrtK : K → K) (xs ys : List K)
    (h : xs.length = ys.length) (h2 : xs.length = 2) (s i : K) :
    residualStandardError sqrtK (xs.map fin) (ys.map fin) (fin s) (fin i) =
      .ok (if sumSqResiduals xs ys s i = 0 then nan else posInf) := by
  have hS := sumSqResiduals_nonneg xs ys s i
  have hz : ((2 : ℕ) : K) - 2 = 0 := by
    push_cast
    ring
  unfold residualStandardError
  simp only [residualStandardErrorLoop_fin s i xs ys h.le, zero_add, List.length_map,
    ofNat_eq, fin_sub_fin, h2, hz, fin_div_fin, if_true]
  by_cases h0 : sumSqResiduals xs ys s i = 0
  · simp [h0, Float64.sqrt]
  · have hpos : 0 < sumSqResiduals xs ys s i := lt_of_le_of_ne hS (Ne.symm h0)
    simp [h0, hpos, Float64.sqrt]

/-- On finite samples of equal length `n < 2` the divisor `n - 2` is negative:
`residualStandardError` returns `0` when `ssRes = 0` and `NaN` otherwise. -/
theorem residualStandardError_lt_two (sqrtK : K → K) (xs ys : List K)
    (h : xs.length = ys.length) (h2 : xs.length < 2) (s i : K) :
    residualStandardError sqrtK (xs.map fin) (ys.map fin) (fin s) (fin i) =
      .ok (if sumSqResiduals xs ys s i = 0 then fin 0 else nan) := by
  have hS := sumSqResiduals_nonneg xs ys s i
  have hneg : (xs.length : K) - 2 < 0 := by
    have h3 : (xs.length : K) < ((2 : ℕ) : K) := Nat.cast_lt.mpr h2
    push_cast at h3
    linarith
  rw [residualStandardError_fin sqrtK xs ys h (by omega) s i]
  by_cases h0 : sumSqResiduals xs ys s i = 0
  · simp [h0]
  · have hpos : 0 < sumSqResiduals xs ys s i := lt_of_le_of_ne hS (Ne.symm h0)
    have hq : sumSqResiduals xs ys s i / ((xs.length : K) - 2) < 0 :=
      div_neg_of_pos_of_neg hpos hneg
    simp [h0, Float64.sqrt, hq]

/-- C11, counterexample: on the `n = 2` input `x = [1, 2]`, `y = [2, 5]`, slope `2`,
intercept `0` the function `residualStandardError` does not fail; it returns `+Inf`, the
square root of `1/0`. -/
theorem residualStandardError_small_n_counterexample :
    ([1, 2] : List ℝ).length ≤ 2 ∧
    residualStandardError Real.sqrt (([1, 2] : List ℝ).map fin) (([2, 5] : List ℝ).map fin)
      (fin 2) (fin 0) = .ok posInf := by
  refine ⟨by decide, ?_⟩
  rw [residualStandardError_two Real.sqrt [1, 2] [2, 5] rfl rfl 2 0]
  norm_num [sumSqResiduals, pairSum]

/-- C11, amended: for finite samples of equal length `n <= 2` and every finite slope and
intercept, `residualStandardError` raises no error and returns the value computed by
dividing by `n - 2`: for `n = 2` it is `NaN` when `ssRes = 0` and `+Inf` otherwise, for
`n < 2` it is `0` when `ssRes = 0` and `NaN` otherwise. -/
theorem residualStandardError_small_n (sqrtK : K → K) (xs ys : List K)
    (hlen : xs.length = ys.length) (hn : xs.length ≤ 2) (slope intercept : K) :
    (xs.length = 2 ∧
      residualStandardError sqrtK (xs.map fin) (ys.map fin) (fin slope) (fin intercept) =
        .ok (if sumSqResiduals xs ys slope intercept = 0 then nan else posInf)) ∨
    (xs.length < 2 ∧
      residualStandardError sqrtK (xs.map fin) (ys.map fin) (fin slope) (fin intercept) =
        .ok (if sumSqResiduals xs ys slope intercept = 0 then fin 0 else nan)) := by
  rcases Nat.lt_or_eq_of_le hn with h | h
  · exact Or.inr ⟨h, residualStandardError_lt_two sqrtK xs ys hlen h slope intercept⟩
  · exact Or.inl ⟨h, residualStandardError_two sqrtK xs ys hlen h slope intercept⟩

/-- Witness of C11, amended, on `x = [1, 2]`, `y = [2, 4]`, slope `2`, intercept `0`
(`n = 2`, zero residuals): the result is `NaN`. -/
theorem residualStandardError_small_n_witness :
    residualStandardError Real.sqrt (([1, 2] : List ℝ).map fin) (([2, 4] : List ℝ).map fin)
      (fin 2) (fin 0) = .ok nan := by
  rcases residualStandardError_small_n Real.sqrt ([1, 2] : List ℝ) [2, 4] rfl (by decide)
    2 0 with h | h
  · rw [h.2]
    norm_num [sumSqResiduals, pairSum]
  · exact absurd h.1 (by decide)

/-- The total sum of squares of a constant sequence is zero. -/
theorem ssTotRef_const (ys : List K) (hy : ∀ u ∈ ys, ∀ v ∈ ys, u = v) : ssTotRef ys = 0 := by
  cases ys with
  | nil => simp [ssTotRef]
  | cons y ys =>
    have hc : ∀ v ∈ y :: ys, v = y := fun v hv => hy v hv y (List.mem_cons_self _ _)
    have hlen : (((y :: ys).length : ℕ) : K) ≠ 0 := by
      simp only [List.length_cons]
      exact Nat.cast_ne_zero.mpr (Nat.succ_ne_zero _)
    have hm : meanRef (y :: ys) = y := by
      unfold meanRef
      rw [sum_const (y :: ys) y hc]
      field_simp
    unfold ssTotRef
    rw [hm]
    apply List.sum_eq_zero
    intro v hv
    obtain ⟨u, hu, rfl⟩ := List.mem_map.mp hv
    rw [hc u hu]
    ring

/-- On finite samples of equal length with constant `y`, `ssTot = 0`: `rSquared` returns
`NaN` when `ssRes = 0` and `-Inf` otherwise. -/
theorem rSquared_const_y (xs ys : List K) (h : xs.length = ys.length)
    (hy : ∀ u ∈ ys, ∀ v ∈ ys, u = v) (s i : K) :
    rSquared (xs.map fin) (ys.map fin) (fin s) (fin i) =
      .ok (if sumSqResiduals xs ys s i = 0 then nan else negInf) := by
  have hS := sumSqResiduals_nonneg xs ys s i
  rw [rSquared_fin xs ys h s i, ssTotRef_const ys hy, fin_div_fin]
  by_cases h0 : sumSqResiduals xs ys s i = 0
  · simp [h0]
  · have hpos : 0 < sumSqResiduals xs ys s i := lt_of_le_of_ne hS (Ne.symm h0)
    simp only [if_true, h0, if_false, hpos]
    rfl

/-- C12, counterexample: on `x = [1, 2, 3]` and the constant `y = [3, 3, 3]`, with slope
`1` and intercept `3`, the function `rSquared` does not fail; it returns `-Inf`, the value
of `1 - 14/0`. -/
theorem rSquared_zero_variance_y_counterexample :
    (∀ u ∈ ([3, 3, 3] : List ℚ), ∀ v ∈ ([3, 3, 3] : List ℚ), u = v) ∧
    rSquared (([1, 2, 3] : List ℚ).map fin) (([3, 3, 3] : List ℚ).map fin) (fin 1) (fin 3) =
      .ok negInf := by
  have hy : ∀ u ∈ ([3, 3, 3] : List ℚ), ∀ v ∈ ([3, 3, 3] : List ℚ), u = v := by
    intro u hu v hv
    simp at hu hv
    rw [hu, hv]
  refine ⟨hy, ?_⟩
  rw [rSquared_const_y [1, 2, 3] [3, 3, 3] rfl hy 1 3]
  norm_num [sumSqResiduals, pairSum]

theorem rSquaredLoop_ok (s i m : Float64 K) (x y : List (Float64 K))
    (h : x.length ≤ y.length) :
    ∀ acc : Float64 K × Float64 K,
      ∃ r : Float64 K × Float64 K, rSquaredLoop s i m x y acc = .ok r := by
  induction x generalizing y with
  | nil => intro acc; exact ⟨acc, rfl⟩
  | cons xi xs ih =>
    intro acc
    cases y with
    | nil => simp at h
    | cons yi ys =>
      have h1 : xs.length ≤ ys.length := by simpa using h
      simp only [rSquaredLoop]
      exact ih ys h1 _

theorem rSquaredLoop64_ok (s i m : Binary64) (x y : List Binary64)
    (h : x.length ≤ y.length) :
    ∀ acc : Binary64 × Binary64,
      ∃ r : Binary64 × Binary64, rSquaredLoop64 s i m x y acc = .ok r := by
  induction x generalizing y with
  | nil => intro acc; exact ⟨acc, rfl⟩
  | cons xi xs ih =>
    intro acc
    cases y with
    | nil => simp at h
    | cons yi ys =>
      have h1 : xs.length ≤ ys.length := by simpa using h
      simp only [rSquaredLoop64]
      exact ih ys h1 _

/-- C12, amended: for every input of equal lengths in which all `y` values are identical
and every slope and intercept, `rSquared` raises no error: it returns `1 - ssRes/ssTot`
for the two sums `ssTot`, `ssRes` its loop leaves, divided without a guard on `ssTot`, in
the exact model and in binary64. -/
theorem rSquared_zero_variance_y (x y : List (Float64 K)) (slope intercept : Float64 K)
    (x64 y64 : List Binary64) (slope64 intercept64 : Binary64)
    (hlen : x.length = y.length) (_hy : ∀ u ∈ y, ∀ v ∈ y, u = v)
    (hlen64 : x64.length = y64.length) (_hy64 : ∀ u ∈ y64, ∀ v ∈ y64, u = v) :
    (∃ ssTot ssRes : Float64 K,
      rSquaredLoop slope intercept (mean y) x y (fin 0, fin 0) = .ok (ssTot, ssRes) ∧
      rSquared x y slope intercept = .ok (fin 1 - ssRes / ssTot)) ∧
    (∃ ssTot ssRes : Binary64,
      rSquaredLoop64 slope64 intercept64 (mean64 y64) x64 y64
        (Binary64.ofNat 0, Binary64.ofNat 0) = .ok (ssTot, ssRes) ∧
      rSquared64 x64 y64 slope64 intercept64 = .ok (Binary64.ofNat 1 - ssRes / ssTot)) := by
  obtain ⟨⟨t, r⟩, h1⟩ := rSquaredLoop_ok slope intercept (mean y) x y hlen.le (fin 0, fin 0)
  obtain ⟨⟨t64, r64⟩, h2⟩ := rSquaredLoop64_ok slope64 intercept64 (mean64 y64) x64 y64
    hlen64.le (Binary64.ofNat 0, Binary64.ofNat 0)
  refine ⟨⟨t, r, h1, ?_⟩, ⟨t64, r64, h2, ?_⟩⟩
  · simp only [rSquared, h1]
  · simp only [rSquared64, h2]

/-- Witness of C12, amended, on `x = [1, 2, 3]`, `y = [3, 3, 3]`, slope `1`, intercept
`3`, in both models. -/
theorem rSquared_zero_variance_y_witness :
    (∃ ssTot ssRes : Float64 ℚ,
      rSquaredLoop (fin 1) (fin 3) (mean [fin (3 : ℚ), fin 3, fin 3])
        [fin (1 : ℚ), fin 2, fin 3] [fin 3, fin 3, fin 3] (fin 0, fin 0) =
        .ok (ssTot, ssRes) ∧
      rSquared [fin (1 : ℚ), fin 2, fin 3] [fin 3, fin 3, fin 3] (fin 1) (fin 3) =
        .ok (fin 1 - ssRes / ssTot)) ∧
    (∃ ssTot ssRes : Binary64,
      rSquaredLoop64 (Binary64.ofNat 1) (Binary64.ofNat 3)
        (mean64 [Binary64.ofNat 3, Binary64.ofNat 3, Binary64.ofNat 3])
        [Binary64.ofNat 1, Binary64.ofNat 2, Binary64.ofNat 3]
        [Binary64.ofNat 3, Binary64.ofNat 3, Binary64.ofNat 3]
        (Binary64.ofNat 0, Binary64.ofNat 0) = .ok (ssTot, ssRes) ∧
      rSquared64 [Binary64.ofNat 1, Binary64.ofNat 2, Binary64.ofNat 3]
        [Binary64.ofNat 3, Binary64.ofNat 3, Binary64.ofNat 3] (Binary64.ofNat 1)
        (Binary64.ofNat 3) = .ok (Binary64.ofNat 1 - ssRes / ssTot)) :=
  rSquared_zero_variance_y [fin (1 : ℚ), fin 2, fin 3] [fin 3, fin 3, fin 3] (fin 1) (fin 3)
    [Binary64.ofNat 1, Binary64.ofNat 2, Binary64.ofNat 3]
    [Binary64.ofNat 3, Binary64.ofNat 3, Binary64.ofNat 3] (Binary64.ofNat 1)
    (Binary64.ofNat 3) rfl
    (by
      intro u hu v hv
      simp at hu hv
      rw [hu, hv]) rfl
    (by
      intro u hu v hv
      simp at hu hv
      rw [hu, hv])

/-! ## The fitted line: centroid, residual sum and squared correlation -/

/-- The plain sum of the residuals of a line, expanded in the sums of the samples. -/
theorem pairSum_residual (xs ys : List K) (h : xs.length = ys.length) (a b : K) :
    pairSum (fun x y => y - (a * x + b)) xs ys =
      ys.sum - a * xs.sum - (xs.length : K) * b := by
  induction xs generalizing ys with
  | nil =>
    cases ys with
    | nil => simp [pairSum]
    | cons y ys => simp at h
  | cons x xs ih =>
    cases ys with
    | nil => simp at h
    | cons y ys =>
      have h1 : xs.length = ys.length := by simpa using h
      simp only [pairSum_cons, ih ys h1, List.sum_cons, List.length_cons]
      push_cast
      ring

/-- The centred cross sum about any two centres, expanded in the sums of the samples. -/
theorem pairSum_centred (xs ys : List K) (h : xs.length = ys.length) (a b : K) :
    pairSum (fun x y => (x - a) * (y - b)) xs ys =
      pairSum (fun x y => x * y) xs ys - a * ys.sum - b * xs.sum
        + (xs.length : K) * a * b := by
  induction xs generalizing ys with
  | nil =>
    cases ys with
    | nil => simp [pairSum]
    | cons y ys => simp at h
  | cons x xs ih =>
    cases ys with
    | nil => simp at h
    | cons y ys =>
      have h1 : xs.length = ys.length := by simpa using h
      simp only [pairSum_cons, ih ys h1, List.sum_cons, List.length_cons]
      push_cast
      ring

theorem length_mul_meanRef (vs : List K) (hn : vs ≠ []) :
    (vs.length : K) * meanRef vs = vs.sum := by
  have hlen : (vs.length : K) ≠ 0 := by simpa using hn
  unfold meanRef
  field_simp

/-- The numerator of the slope is the centred cross sum `Sxy`. -/
theorem sxyRef_eq (xs ys : List K) (h : xs.length = ys.length) (hn : xs ≠ []) :
    sxyRef xs ys =
      pairSum (fun x y => x * y) xs ys - (xs.length : K) * meanRef xs * meanRef ys := by
  have hny : ys ≠ [] := by
    intro h0
    rw [h0] at h
    exact hn (List.length_eq_zero.mp h)
  have hmx := length_mul_meanRef xs hn
  have hmy := length_mul_meanRef ys hny
  rw [← h] at hmy
  unfold sxyRef
  rw [pairSum_centred xs ys h]
  linear_combination (meanRef xs) * hmy + (meanRef ys) * hmx

/-- The slope formula is `Sxy / Sxx`. -/
theorem slopeRef_eq (xs ys : List K) (h : xs.length = ys.length) (hn : xs ≠ []) :
    slopeRef xs ys = sxyRef xs ys / sxxRef xs := by
  unfold slopeRef
  rw [sxyRef_eq xs ys h hn, denominator_eq_sum_sq_dev xs hn]
  rfl

/-- The fitted line passes through the centroid and its residuals sum to zero, for any
slope `s` with the intercept `yMean - s*xMean`. -/
theorem centroid_and_residual_sum (xs ys : List K) (h : xs.length = ys.length)
    (hn : xs ≠ []) (s : K) :
    s * meanRef xs + (meanRef ys - s * meanRef xs) = meanRef ys ∧
    pairSum (fun x y => y - (s * x + (meanRef ys - s * meanRef xs))) xs ys = 0 := by
  have hny : ys ≠ [] := by
    intro h0
    rw [h0] at h
    exact hn (List.length_eq_zero.mp h)
  have hmx := length_mul_meanRef xs hn
  have hmy := length_mul_meanRef ys hny
  rw [← h] at hmy
  refine ⟨by ring, ?_⟩
  rw [pairSum_residual xs ys h]
  linear_combination (-1 : K) * hmy + s * hmx

/-- The residual sum of squares of the fitted line is `Syy - Sxy^2 / Sxx`. -/
theorem sumSqResiduals_fit (xs ys : List K) (h : xs.length = ys.length)
    (hx : ∃ u ∈ xs, ∃ v ∈ xs, u ≠ v) :
    sumSqResiduals xs ys (slopeRef xs ys) (interceptRef xs ys) =
      ssTotRef ys - sxyRef xs ys ^ 2 / sxxRef xs := by
  have hD := denominator_pos xs hx
  obtain ⟨u, hu, -⟩ := hx
  have hn : xs ≠ [] := List.ne_nil_of_mem hu
  have hny : ys ≠ [] := by
    intro h0
    rw [h0] at h
    exact hn (List.length_eq_zero.mp h)
  have hmx := length_mul_meanRef xs hn
  have hmy := length_mul_meanRef ys hny
  rw [← h] at hmy
  have hxx := denominator_eq_sum_sq_dev xs hn
  have hyy := denominator_eq_sum_sq_dev ys hny
  rw [← h] at hyy
  have hxy := sxyRef_eq xs ys h hn
  have hsxx : sxxRef xs ≠ 0 := by
    unfold sxxRef
    rw [← hxx]
    exact hD.ne.symm
  have hm : slopeRef xs ys * sxxRef xs = sxyRef xs ys := by
    rw [slopeRef_eq xs ys h hn]
    exact div_mul_cancel₀ _ hsxx
  have hq : sxyRef xs ys ^ 2 / sxxRef xs = slopeRef xs ys ^ 2 * sxxRef xs := by
    rw [← hm]
    field_simp
    ring
  have hc : interceptRef xs ys = meanRef ys - slopeRef xs ys * meanRef xs := rfl
  have hT : ssTotRef ys =
      (ys.map (fun y => y * y)).sum - (xs.length : K) * meanRef ys * meanRef ys := hyy.symm
  have hX : sxxRef xs =
      (xs.map (fun x => x * x)).sum - (xs.length : K) * meanRef xs * meanRef xs := hxx.symm
  rw [sumSqResiduals_expand xs ys h, hq, hT, hc]
  rw [hxy, hX] at hm
  rw [hX, ← hmx, ← hmy]
  linear_combination (2 * slopeRef xs ys) * hm

/-- The coefficient of determination of the fitted line is the squared correlation, and it
lies in `[0, 1]`. -/
theorem rSquaredRef_fit (xs ys : List K) (h : xs.length = ys.length)
    (hx : ∃ u ∈ xs, ∃ v ∈ xs, u ≠ v) (hy : ∃ u ∈ ys, ∃ v ∈ ys, u ≠ v) :
    rSquaredRef xs ys (slopeRef xs ys) (interceptRef xs ys) =
      sxyRef xs ys ^ 2 / (sxxRef xs * ssTotRef ys) ∧
    0 ≤ rSquaredRef xs ys (slopeRef xs ys) (interceptRef xs ys) ∧
    rSquaredRef xs ys (slopeRef xs ys) (interceptRef xs ys) ≤ 1 := by
  have hT := ssTotRef_pos ys hy
  have hD := denominator_pos xs hx
  have hn : xs ≠ [] := by
    obtain ⟨u, hu, -⟩ := hx
    exact List.ne_nil_of_mem hu
  have hX : 0 < sxxRef xs := by
    unfold sxxRef
    rw [← denominator_eq_sum_sq_dev xs hn]
    exact hD
  have hS := sumSqResiduals_nonneg xs ys (slopeRef xs ys) (interceptRef xs ys)
  have e : rSquaredRef xs ys (slopeRef xs ys) (interceptRef xs ys) =
      sxyRef xs ys ^ 2 / (sxxRef xs * ssTotRef ys) := by
    unfold rSquaredRef
    rw [sumSqResiduals_fit xs ys h hx]
    field_simp
    ring
  refine ⟨e, ?_, ?_⟩
  · rw [e]
    exact div_nonneg (sq_nonneg _) (mul_pos hX hT).le
  · unfold rSquaredRef
    have : 0 ≤ sumSqResiduals xs ys (slopeRef xs ys) (interceptRef xs ys) / ssTotRef ys :=
      div_nonneg hS hT.le
    linarith

/-- C17, counterexample: on the `n = 1` input `x = [7]`, `y = [2]` the function
`linearRegression` returns `(NaN, NaN)`, and `slope*xMean + intercept` is `NaN`, not the
mean `2` of `y`. -/
theorem centroid_counterexample :
    1 ≤ ([7] : List ℚ).length ∧
    linearRegression (([7] : List ℚ).map fin) (([2] : List ℚ).map fin) = .ok (nan, nan) ∧
    mean (([2] : List ℚ).map fin) = fin 2 ∧
    (nan : Float64 ℚ) * mean (([7] : List ℚ).map fin) + nan ≠ mean (([2] : List ℚ).map fin) := by
  refine ⟨by decide, linearRegression_const_x [7] [2] rfl 7 (by simp), ?_, ?_⟩
  · rw [mean_fin [2] (by simp)]
    norm_num [meanRef]
  · rw [mean_fin [2] (by simp), nan_mul, nan_add]
    simp

/-- C17, amended (residuals of the fit sum to zero): for finite samples of equal length
with `x` not all equal and `(slope, intercept) = linearRegression(x, y)`, both finite, the
fitted line passes through the centroid, `slope*xMean + intercept = yMean`, and
`sum_i (y_i - (slope*x_i + intercept)) = 0`. -/
theorem fit_through_centroid (xs ys : List K) (hlen : xs.length = ys.length)
    (hx : ∃ u ∈ xs, ∃ v ∈ xs, u ≠ v) :
    ∃ slope intercept : K,
      linearRegression (xs.map fin) (ys.map fin) = .ok (fin slope, fin intercept) ∧
      slope * meanRef xs + intercept = meanRef ys ∧
      pairSum (fun x y => y - (slope * x + intercept)) xs ys = 0 := by
  have hD := (denominator_pos xs hx).ne.symm
  have hn : xs ≠ [] := by
    obtain ⟨u, hu, -⟩ := hx
    exact List.ne_nil_of_mem hu
  have hc := centroid_and_residual_sum xs ys hlen hn (slopeRef xs ys)
  exact ⟨slopeRef xs ys, interceptRef xs ys, linearRegression_fin xs ys hlen hn hD, hc.1, hc.2⟩

/-- Witness of C17, amended, on `x = [1, 2, 3]`, `y = [2, 4, 7]`. -/
theorem fit_through_centroid_witness :
    ∃ slope intercept : ℚ,
      linearRegression (([1, 2, 3] : List ℚ).map fin) (([2, 4, 7] : List ℚ).map fin) =
        .ok (fin slope, fin intercept) ∧
      slope * meanRef [1, 2, 3] + intercept = meanRef [2, 4, 7] ∧
      pairSum (fun x y => y - (slope * x + intercept)) [1, 2, 3] [2, 4, 7] = 0 :=
  fit_through_centroid [1, 2, 3] [2, 4, 7] rfl ⟨1, by simp, 2, by simp, by norm_num⟩

/-- C18, amended (R² of the fitted line is the squared correlation, in exact real
arithmetic): for samples of equal length with `x` not all equal and `y` not all equal,
`rSquared` of the fit returned by `linearRegression`, both computed in exact arithmetic,
is the number `Sxy^2 / (Sxx * Syy)`, which lies in `[0, 1]`. -/
theorem rSquared_fit_eq_correlation_sq (xs ys : List K) (hlen : xs.length = ys.length)
    (hx : ∃ u ∈ xs, ∃ v ∈ xs, u ≠ v) (hy : ∃ u ∈ ys, ∃ v ∈ ys, u ≠ v) :
    ∃ (slope intercept : Float64 K) (r2 : K),
      linearRegression (xs.map fin) (ys.map fin) = .ok (slope, intercept) ∧
      rSquared (xs.map fin) (ys.map fin) slope intercept = .ok (fin r2) ∧
      r2 = sxyRef xs ys ^ 2 / (sxxRef xs * ssTotRef ys) ∧ 0 ≤ r2 ∧ r2 ≤ 1 := by
  have hD := (denominator_pos xs hx).ne.symm
  have hn : xs ≠ [] := by
    obtain ⟨u, hu, -⟩ := hx
    exact List.ne_nil_of_mem hu
  have hT := (ssTotRef_pos ys hy).ne.symm
  have hr := rSquaredRef_fit xs ys hlen hx hy
  refine ⟨fin (slopeRef xs ys), fin (interceptRef xs ys),
    rSquaredRef xs ys (slopeRef xs ys) (interceptRef xs ys),
    linearRegression_fin xs ys hlen hn hD, ?_, hr.1, hr.2.1, hr.2.2⟩
  rw [rSquared_fin xs ys hlen, fin_div_fin_of_ne _ hT]
  rfl

/-- Witness of C18, amended, on `x = [1, 2, 3]`, `y = [2, 4, 7]`. -/
theorem rSquared_fit_eq_correlation_sq_witness :
    ∃ (slope intercept : Float64 ℚ) (r2 : ℚ),
      linearRegression (([1, 2, 3] : List ℚ).map fin) (([2, 4, 7] : List ℚ).map fin) =
        .ok (slope, intercept) ∧
      rSquared (([1, 2, 3] : List ℚ).map fin) (([2, 4, 7] : List ℚ).map fin) slope
        intercept = .ok (fin r2) ∧
      r2 = sxyRef [1, 2, 3] [2, 4, 7] ^ 2 / (sxxRef [1, 2, 3] * ssTotRef [2, 4, 7]) ∧
      0 ≤ r2 ∧ r2 ≤ 1 :=
  rSquared_fit_eq_correlation_sq [1, 2, 3] [2, 4, 7] rfl
    ⟨1, by simp, 2, by simp, by norm_num⟩ ⟨2, by simp, 4, by simp, by norm_num⟩

/-! ## The F-statistic of the fit -/

/-- For a finite `r2 = r` other than `1` and an `int` `n` whose `n - 2` does not wrap
around, `fStatistic` is the number `(r / (1 - r)) * (n - 2)`. -/
theorem fStatistic_fin (r : K) (n : Int) (hr : r ≠ 1) (hlo : -2 ^ 63 + 2 ≤ n)
    (hhi : n < 2 ^ 63) :
    fStatistic (fin r) n = fin ((r / (1 - r)) * ((n : K) - 2)) := by
  have hne : (fin r : Float64 K) ≠ fin 1 := by
    intro h
    exact hr (Float64.fin.inj h)
  have hsub : (1 : K) - r ≠ 0 := sub_ne_zero.mpr (Ne.symm hr)
  have hw : wrapInt64 (n - 2) = n - 2 := wrapInt64_of_range _ (by linarith) (by linarith)
  simp [fStatistic, hne, hw, fin_div_fin_of_ne _ hsub]

/-- The statistics of `main` on finite samples of equal length `n > 2` with `x` and `y`
not all equal: all four calls return, with the reference values. -/
theorem mainStats_fin (sqrtK : K → K) (name : String) (xs ys : List K)
    (hlen : xs.length = ys.length) (hn : 2 < xs.length)
    (hx : ∃ u ∈ xs, ∃ v ∈ xs, u ≠ v) (hy : ∃ u ∈ ys, ∃ v ∈ ys, u ≠ v) :
    mainStats sqrtK { name := name, x := xs.map fin, y := ys.map fin } =
      .ok { slope := fin (slopeRef xs ys)
            intercept := fin (interceptRef xs ys)
            r2 := fin (rSquaredRef xs ys (slopeRef xs ys) (interceptRef xs ys))
            rse := Float64.sqrt sqrtK (fin (sumSqResiduals xs ys (slopeRef xs ys)
              (interceptRef xs ys) / ((xs.length : K) - 2)))
            fstat := fStatistic
              (fin (rSquaredRef xs ys (slopeRef xs ys) (interceptRef xs ys)))
              (xs.length : Int) } := by
  have hD := (denominator_pos xs hx).ne.symm
  have hne : xs ≠ [] := by
    obtain ⟨u, hu, -⟩ := hx
    exact List.ne_nil_of_mem hu
  have hT := (ssTotRef_pos ys hy).ne.symm
  have h1 := linearRegression_fin xs ys hlen hne hD
  have h2 : rSquared (xs.map fin) (ys.map fin) (fin (slopeRef xs ys))
      (fin (interceptRef xs ys)) =
      .ok (fin (rSquaredRef xs ys (slopeRef xs ys) (interceptRef xs ys))) := by
    rw [rSquared_fin xs ys hlen, fin_div_fin_of_ne _ hT]
    rfl
  have h3 := residualStandardError_fin sqrtK xs ys hlen (by omega) (slopeRef xs ys)
    (interceptRef xs ys)
  simp only [mainStats, h1, h2, h3, List.length_map]

/-- C13 (F-statistic range): for finite samples of equal length `n > 2` (a slice length,
below `2^63`) with `x` not all equal and `y` not all equal, the statistics calls of `main`
all return, and the F-statistic `fStatistic(rSquared(x, y, slope, intercept), n)` with
`(slope, intercept) = linearRegression(x, y)` is `+Inf` or a non-negative number. -/
theorem fStatistic_range (sqrtK : K → K) (name : String) (xs ys : List K)
    (hlen : xs.length = ys.length) (hn : 2 < xs.length) (hbound : xs.length < 2 ^ 63)
    (hx : ∃ u ∈ xs, ∃ v ∈ xs, u ≠ v) (hy : ∃ u ∈ ys, ∃ v ∈ ys, u ≠ v) :
    ∃ st : Stats K,
      mainStats sqrtK { name := name, x := xs.map fin, y := ys.map fin } = .ok st ∧
      linearRegression (xs.map fin) (ys.map fin) = .ok (st.slope, st.intercept) ∧
      rSquared (xs.map fin) (ys.map fin) st.slope st.intercept = .ok st.r2 ∧
      st.fstat = fStatistic st.r2 (xs.length : Int) ∧
      (st.fstat = posInf ∨ ∃ f : K, st.fstat = fin f ∧ 0 ≤ f) := by
  have hD := (denominator_pos xs hx).ne.symm
  have hne : xs ≠ [] := by
    obtain ⟨u, hu, -⟩ := hx
    exact List.ne_nil_of_mem hu
  have hT := (ssTotRef_pos ys hy).ne.symm
  have hr := rSquaredRef_fit xs ys hlen hx hy
  refine ⟨_, mainStats_fin sqrtK name xs ys hlen hn hx hy,
    linearRegression_fin xs ys hlen hne hD, ?_, rfl, ?_⟩
  · rw [rSquared_fin xs ys hlen, fin_div_fin_of_ne _ hT]
    rfl
  · by_cases h1 : rSquaredRef xs ys (slopeRef xs ys) (interceptRef xs ys) = 1
    · left
      simp [fStatistic, h1]
    · right
      have hlo : (-2 ^ 63 + 2 : Int) ≤ (xs.length : Int) := by
        have : (0 : Int) ≤ (xs.length : Int) := Int.natCast_nonneg _
        linarith
      have hhi : (xs.length : Int) < 2 ^ 63 := by exact_mod_cast hbound
      refine ⟨_, fStatistic_fin _ _ h1 hlo hhi, ?_⟩
      have hlt : rSquaredRef xs ys (slopeRef xs ys) (interceptRef xs ys) < 1 :=
        lt_of_le_of_ne hr.2.2 h1
      have hpos : (0 : K) ≤ (((xs.length : Int) : K)) - 2 := by
        have h3 : ((2 : ℕ) : K) < (xs.length : K) := Nat.cast_lt.mpr hn
        push_cast at h3 ⊢
        linarith
      exact mul_nonneg (div_nonneg hr.2.1 (by linarith)) hpos

/-- Witness of C13 on `x = [1, 2, 3]`, `y = [2, 4, 7]` over the reals with `Real.sqrt`. -/
theorem fStatistic_range_witness :
    ∃ st : Stats ℝ,
      mainStats Real.sqrt
        { name := "w", x := ([1, 2, 3] : List ℝ).map fin, y := ([2, 4, 7] : List ℝ).map fin } =
        .ok st ∧
      linearRegression (([1, 2, 3] : List ℝ).map fin) (([2, 4, 7] : List ℝ).map fin) =
        .ok (st.slope, st.intercept) ∧
      rSquared (([1, 2, 3] : List ℝ).map fin) (([2, 4, 7] : List ℝ).map fin) st.slope
        st.intercept = .ok st.r2 ∧
      st.fstat = fStatistic st.r2 (([1, 2, 3] : List ℝ).length : Int) ∧
      (st.fstat = posInf ∨ ∃ f : ℝ, st.fstat = fin f ∧ 0 ≤ f) :=
  fStatistic_range Real.sqrt "w" [1, 2, 3] [2, 4, 7] rfl (by decide) (by norm_num)
    ⟨1, by simp, 2, by simp, by norm_num⟩ ⟨2, by simp, 4, by simp, by norm_num⟩

/-- C19, amended (the F-statistic agrees with the mean-square ratio, in exact real
arithmetic): for samples of equal length `n > 2` (a slice length, below `2^63`) with `y`
not all equal and every slope and intercept with `ssRes != 0`, when the arithmetic is
exact and `math.Sqrt` squares back to its positive argument,
`fStatistic(rSquared(x, y, slope, intercept), n)` is the number
`(ssTot - ssRes) / residualStandardError(x, y, slope, intercept)^2`; the `ssRes` that
`residualStandardError` sums with `math.Pow` and the one `rSquared` sums by multiplication
are the same `sumSqResiduals`. -/
theorem fStatistic_eq_mean_square_ratio (sqrtK : K → K) (xs ys : List K)
    (hlen : xs.length = ys.length) (hn : 2 < xs.length) (hbound : xs.length < 2 ^ 63)
    (hy : ∃ u ∈ ys, ∃ v ∈ ys, u ≠ v) (slope intercept : K)
    (hres : sumSqResiduals xs ys slope intercept ≠ 0)
    (hsqrt : ∀ v : K, 0 < v → sqrtK v * sqrtK v = v) :
    ∃ r2 rse : K,
      rSquared (xs.map fin) (ys.map fin) (fin slope) (fin intercept) = .ok (fin r2) ∧
      residualStandardError sqrtK (xs.map fin) (ys.map fin) (fin slope) (fin intercept) =
        .ok (fin rse) ∧
      fStatistic (fin r2) (xs.length : Int) =
        fin ((ssTotRef ys - sumSqResiduals xs ys slope intercept) / rse ^ 2) := by
  have hT := (ssTotRef_pos ys hy).ne.symm
  have hS := sumSqResiduals_nonneg xs ys slope intercept
  have hSpos : 0 < sumSqResiduals xs ys slope intercept := lt_of_le_of_ne hS (Ne.symm hres)
  have hpos : (0 : K) < (xs.length : K) - 2 := by
    have h3 : ((2 : ℕ) : K) < (xs.length : K) := Nat.cast_lt.mpr hn
    push_cast at h3
    linarith
  have hq : 0 < sumSqResiduals xs ys slope intercept / ((xs.length : K) - 2) :=
    div_pos hSpos hpos
  have hr1 : rSquaredRef xs ys slope intercept ≠ 1 := by
    unfold rSquaredRef
    intro h1
    have h2 : sumSqResiduals xs ys slope intercept / ssTotRef ys = 0 := by linarith
    rcases div_eq_zero_iff.mp h2 with h3 | h3
    · exact hres h3
    · exact hT h3
  have hlo : (-2 ^ 63 + 2 : Int) ≤ (xs.length : Int) := by
    have : (0 : Int) ≤ (xs.length : Int) := Int.natCast_nonneg _
    linarith
  have hhi : (xs.length : Int) < 2 ^ 63 := by exact_mod_cast hbound
  refine ⟨rSquaredRef xs ys slope intercept,
    sqrtK (sumSqResiduals xs ys slope intercept / ((xs.length : K) - 2)), ?_, ?_, ?_⟩
  · rw [rSquared_fin xs ys hlen, fin_div_fin_of_ne _ hT]
    rfl
  · rw [residualStandardError_fin sqrtK xs ys hlen (by omega), sqrt_fin_of_pos sqrtK hq]
  · rw [fStatistic_fin _ _ hr1 hlo hhi, pow_two, hsqrt _ hq]
    congr 1
    unfold rSquaredRef
    push_cast
    field_simp

/-- Witness of C19, amended, over the reals with `Real.sqrt`, on `x = [1, 2, 3]`,
`y = [2, 4, 7]`,
slope `2`, intercept `0` (`ssRes = 1`). -/
theorem fStatistic_eq_mean_square_ratio_witness :
    ∃ r2 rse : ℝ,
      rSquared (([1, 2, 3] : List ℝ).map fin) (([2, 4, 7] : List ℝ).map fin) (fin 2)
        (fin 0) = .ok (fin r2) ∧
      residualStandardError Real.sqrt (([1, 2, 3] : List ℝ).map fin)
        (([2, 4, 7] : List ℝ).map fin) (fin 2) (fin 0) = .ok (fin rse) ∧
      fStatistic (fin r2) (([1, 2, 3] : List ℝ).length : Int) =
        fin ((ssTotRef [2, 4, 7] - sumSqResiduals [1, 2, 3] [2, 4, 7] 2 0) / rse ^ 2) :=
  fStatistic_eq_mean_square_ratio Real.sqrt [1, 2, 3] [2, 4, 7] rfl (by decide)
    (by norm_num) ⟨2, by simp, 4, by simp, by norm_num⟩ 2 0
    (by norm_num [sumSqResiduals, pairSum])
    (fun v hv => Real.mul_self_sqrt hv.le)

/-! ## Over-long `y` -/

/-- Evaluation of `rSquared` at slope `0` and intercept `0` on `x = [0, 1]` with the
over-long `y = [0, 1, 5]`, and with `y` cut to `[0, 1]`. -/
theorem rSquared_long_y_eval :
    rSquared [fin (0 : K), fin 1] [fin 0, fin 1, fin 5] (fin 0) (fin 0) = .ok (fin (4 / 5)) ∧
    rSquared [fin (0 : K), fin 1] [fin 0, fin 1] (fin 0) (fin 0) = .ok (fin (-1)) := by
  have h3 : ((3 : ℕ) : K) ≠ 0 := Nat.cast_ne_zero.mpr (by decide)
  have h2 : ((2 : ℕ) : K) ≠ 0 := Nat.cast_ne_zero.mpr (by decide)
  constructor
  · simp only [rSquared, rSquaredLoop, mean, List.foldl_cons, List.foldl_nil,
      List.length_cons, List.length_nil, ofNat_eq, fin_add_fin, fin_sub_fin, fin_mul_fin,
      fin_div_fin_of_ne _ h3]
    have hne : (0 : K) + (0 - (0 + 0 + 1 + 5) / ((0 + 1 + 1 + 1 : ℕ) : K)) *
        (0 - (0 + 0 + 1 + 5) / ((0 + 1 + 1 + 1 : ℕ) : K)) +
        (1 - (0 + 0 + 1 + 5) / ((0 + 1 + 1 + 1 : ℕ) : K)) *
        (1 - (0 + 0 + 1 + 5) / ((0 + 1 + 1 + 1 : ℕ) : K)) ≠ 0 := by
      norm_num
    rw [fin_div_fin_of_ne _ hne, fin_sub_fin]
    congr 2
    norm_num
  · simp only [rSquared, rSquaredLoop, mean, List.foldl_cons, List.foldl_nil,
      List.length_cons, List.length_nil, ofNat_eq, fin_add_fin, fin_sub_fin, fin_mul_fin,
      fin_div_fin_of_ne _ h2]
    have hne : (0 : K) + (0 - (0 + 0 + 1) / ((0 + 1 + 1 : ℕ) : K)) *
        (0 - (0 + 0 + 1) / ((0 + 1 + 1 : ℕ) : K)) +
        (1 - (0 + 0 + 1) / ((0 + 1 + 1 : ℕ) : K)) *
        (1 - (0 + 0 + 1) / ((0 + 1 + 1 : ℕ) : K)) ≠ 0 := by
      norm_num
    rw [fin_div_fin_of_ne _ hne, fin_sub_fin]
    congr 2
    norm_num

/-- C20 (silent, inconsistent truncation on over-long `y`): when `len(y) > len(x)`,
`linearRegression(x, y)` raises no error and equals `linearRegression(x, y[:len(x)])`; but
`rSquared` takes `yMean` over all of `y`, and for some such `x`, `y`, slope and intercept
`rSquared(x, y, slope, intercept)` differs from `rSquared(x, y[:len(x)], slope,
intercept)`. -/
theorem silent_truncation (x y : List (Float64 K)) (h : x.length < y.length) :
    linearRegression x y = linearRegression x (y.take x.length) ∧
    (∃ slope intercept : Float64 K, linearRegression x y = .ok (slope, intercept)) ∧
    ∃ (x2 y2 : List (Float64 K)) (slope intercept : Float64 K),
      x2.length < y2.length ∧
      rSquared x2 y2 slope intercept ≠ rSquared x2 (y2.take x2.length) slope intercept := by
  refine ⟨?_, ?_, ?_⟩
  · unfold linearRegression
    rw [linearRegressionLoop_take]
  · obtain ⟨s, hs⟩ := linearRegressionLoop_ok x y h.le ⟨fin 0, fin 0, fin 0, fin 0⟩
    unfold linearRegression
    rw [hs]
    exact ⟨_, _, rfl⟩
  · refine ⟨[fin 0, fin 1], [fin 0, fin 1, fin 5], fin 0, fin 0, by simp, ?_⟩
    have e := @rSquared_long_y_eval K _
    have ht : ([fin 0, fin 1, fin 5] : List (Float64 K)).take
        ([fin 0, fin 1] : List (Float64 K)).length = [fin 0, fin 1] := rfl
    rw [ht, e.1, e.2]
    intro hEq
    have h1 : (4 / 5 : K) = -1 := Float64.fin.inj (Except.ok.inj hEq)
    norm_num at h1

/-- Witness of C20 on `x = [1, 2, 3]` and the over-long `y = [2, 4, 6, 100]`. -/
theorem silent_truncation_witness :
    linearRegression [fin (1 : ℚ), fin 2, fin 3] [fin 2, fin 4, fin 6, fin 100] =
      linearRegression [fin (1 : ℚ), fin 2, fin 3]
        (([fin 2, fin 4, fin 6, fin 100] : List (Float64 ℚ)).take
          ([fin (1 : ℚ), fin 2, fin 3] : List (Float64 ℚ)).length) :=
  (silent_truncation [fin (1 : ℚ), fin 2, fin 3] [fin 2, fin 4, fin 6, fin 100]
    (by decide)).1

/-! ## The regression line of the plot -/

/-- The scan over finite values keeps a finite pair `(lo, hi)`: each bound comes from the
start value or from the slice, and they enclose the start values and every element. -/
theorem minMaxLoop_fin (xs : List K) :
    ∀ a b : K, ∃ lo hi : K,
      minMaxLoop (xs.map fin) (fin a, fin b) = (fin lo, fin hi) ∧
      (lo = a ∨ lo ∈ xs) ∧ (hi = b ∨ hi ∈ xs) ∧ lo ≤ a ∧ b ≤ hi ∧
      ∀ v ∈ xs, lo ≤ v ∧ v ≤ hi := by
  induction xs with
  | nil =>
    intro a b
    exact ⟨a, b, rfl, Or.inl rfl, Or.inl rfl, le_refl a, le_refl b, by simp⟩
  | cons v xs ih =>
    intro a b
    obtain ⟨lo, hi, hrun, hlo, hhi, hla, hbh, hall⟩ :=
      ih (if v < a then v else a) (if b < v then v else b)
    have e1 : (if Float64.lt (fin v) (fin a) then fin v else fin a : Float64 K) =
        fin (if v < a then v else a) := by
      by_cases hv : v < a <;> simp [Float64.lt, hv]
    have e2 : (if Float64.lt (fin b) (fin v) then fin v else fin b : Float64 K) =
        fin (if b < v then v else b) := by
      by_cases hv : b < v <;> simp [Float64.lt, hv]
    have hmin1 : (if v < a then v else a) ≤ a := by
      by_cases hv : v < a
      · simp [hv, hv.le]
      · simp [hv]
    have hmin2 : (if v < a then v else a) ≤ v := by
      by_cases hv : v < a
      · simp [hv]
      · simp [hv, not_lt.mp hv]
    have hmax1 : b ≤ (if b < v then v else b) := by
      by_cases hv : b < v
      · simp [hv, hv.le]
      · simp [hv]
    have hmax2 : v ≤ (if b < v then v else b) := by
      by_cases hv : b < v
      · simp [hv]
      · simp [hv, not_lt.mp hv]
    refine ⟨lo, hi, ?_, ?_, ?_, hla.trans hmin1, hmax1.trans hbh, ?_⟩
    · simp only [List.map_cons, minMaxLoop, e1, e2]
      exact hrun
    · rcases hlo with h | h
      · by_cases hv : v < a
        · right
          rw [h, if_pos hv]
          exact List.mem_cons_self _ _
        · left
          rw [h, if_neg hv]
      · exact Or.inr (List.mem_cons_of_mem _ h)
    · rcases hhi with h | h
      · by_cases hv : b < v
        · right
          rw [h, if_pos hv]
          exact List.mem_cons_self _ _
        · left
          rw [h, if_neg hv]
      · exact Or.inr (List.mem_cons_of_mem _ h)
    · intro u hu
      rcases List.mem_cons.mp hu with rfl | hu
      · exact ⟨hla.trans hmin2, hmax2.trans hbh⟩
      · exact hall u hu

omit [LinearOrderedField K] in
theorem scatterPoints_of_le (x y : List (Float64 K)) (h : x.length ≤ y.length) :
    scatterPoints x y = .ok (x.zip y) := by
  induction x generalizing y with
  | nil => simp [scatterPoints]
  | cons xi xs ih =>
    cases y with
    | nil => simp at h
    | cons yi ys =>
      have h1 : xs.length ≤ ys.length := by simpa using h
      simp [scatterPoints, ih ys h1]

omit [LinearOrderedField K] in
theorem scatterPoints_of_lt (x y : List (Float64 K)) (h : y.length < x.length) :
    scatterPoints x y = .error .indexOutOfRange := by
  induction x generalizing y with
  | nil => simp at h
  | cons xi xs ih =>
    cases y with
    | nil => rfl
    | cons yi ys =>
      have h1 : ys.length < xs.length := by simpa using h
      simp [scatterPoints, ih ys h1]

omit [LinearOrderedField K] in
/-- A slice of finite values is the image of a list of numbers. -/
theorem exists_map_fin (x : List (Float64 K)) (h : ∀ v ∈ x, ∃ u : K, v = fin u) :
    ∃ xs : List K, x = xs.map fin := by
  induction x with
  | nil => exact ⟨[], rfl⟩
  | cons v x ih =>
    obtain ⟨u, hu⟩ := h v (List.mem_cons_self _ _)
    obtain ⟨xs, hxs⟩ := ih (fun w hw => h w (List.mem_cons_of_mem _ hw))
    exact ⟨u :: xs, by rw [hu, hxs, List.map_cons]⟩

omit [LinearOrderedField K] in
/-- The points accepted by `checkFloats` have finite coordinates. -/
theorem checkFloats_finite (pts : List (Float64 K × Float64 K)) (h : checkFloats pts = true) :
    ∀ p ∈ pts, ∃ u : K, p.1 = fin u := by
  intro p hp
  have h1 := List.all_eq_true.mp h p hp
  cases hp1 : p.1 with
  | fin u => exact ⟨u, rfl⟩
  | posInf => simp [hp1] at h1
  | negInf => simp [hp1] at h1
  | nan => simp [hp1] at h1

/-- C16 (the regression line is clipped to the data range): for every dataset with
non-empty `x`, when `plotter.NewScatter` accepts only points without `NaN` or infinite
coordinates, `scatterPlotWithRegression` either panics on `dataset.y[i]` (`y` shorter than
`x`), or exits because `NewScatter` refused the points, or builds the line; the two points
of the line it builds are `(minX, slope*minX + intercept)` and
`(maxX, slope*maxX + intercept)`, where `minX` and `maxX` both occur in `x` and
`minX <= x_i <= maxX` for every `i`. -/
theorem scatterPlotWithRegression_clipped
    (newScatter : List (Float64 K × Float64 K) → Bool) (dataset : DataSet K)
    (slope intercept : Float64 K) (hne : dataset.x ≠ [])
    (hcheck : ∀ pts, newScatter pts = true → ∀ p ∈ pts, ∃ u : K, p.1 = fin u) :
    (dataset.y.length < dataset.x.length ∧
      scatterPlotWithRegression newScatter dataset slope intercept =
        .error (.panic .indexOutOfRange)) ∨
    (dataset.x.length ≤ dataset.y.length ∧
      newScatter (dataset.x.zip dataset.y) = false ∧
      scatterPlotWithRegression newScatter dataset slope intercept = .error .fatal) ∨
    (dataset.x.length ≤ dataset.y.length ∧
      newScatter (dataset.x.zip dataset.y) = true ∧
      ∃ minX maxX : K,
        scatterPlotWithRegression newScatter dataset slope intercept =
          .ok ((fin minX, slope * fin minX + intercept),
            (fin maxX, slope * fin maxX + intercept)) ∧
        fin minX ∈ dataset.x ∧ fin maxX ∈ dataset.x ∧
        ∀ v ∈ dataset.x, ∃ u : K, v = fin u ∧ minX ≤ u ∧ u ≤ maxX) := by
  rcases Nat.lt_or_ge dataset.y.length dataset.x.length with hlt | hle
  · left
    refine ⟨hlt, ?_⟩
    simp only [scatterPlotWithRegression, scatterPoints_of_lt _ _ hlt]
  · right
    have hpts := scatterPoints_of_le _ _ hle
    cases hns : newScatter (dataset.x.zip dataset.y) with
    | false =>
      left
      refine ⟨hle, rfl, ?_⟩
      simp [scatterPlotWithRegression, hpts, hns]
    | true =>
      right
      refine ⟨hle, rfl, ?_⟩
      have hfin : ∀ v ∈ dataset.x, ∃ u : K, v = fin u := by
        intro v hv
        have hmap : (dataset.x.zip dataset.y).map Prod.fst = dataset.x :=
          List.map_fst_zip _ _ hle
        rw [← hmap] at hv
        obtain ⟨p, hp, rfl⟩ := List.mem_map.mp hv
        exact hcheck _ hns p hp
      obtain ⟨xs, hxs⟩ := exists_map_fin dataset.x hfin
      cases xs with
      | nil => exact absurd (by rw [hxs]; rfl) hne
      | cons x0 rest =>
        obtain ⟨lo, hi, hrun, hlo, hhi, -, -, hall⟩ := minMaxLoop_fin (x0 :: rest) x0 x0
        have hlo2 : lo ∈ x0 :: rest := by
          rcases hlo with h | h
          · rw [h]
            exact List.mem_cons_self _ _
          · exact h
        have hhi2 : hi ∈ x0 :: rest := by
          rcases hhi with h | h
          · rw [h]
            exact List.mem_cons_self _ _
          · exact h
        refine ⟨lo, hi, ?_, ?_, ?_, ?_⟩
        · simp only [scatterPlotWithRegression, hpts, hns, if_true]
          rw [hxs]
          simp only [List.map_cons]
          rw [← List.map_cons, hrun]
        · rw [hxs]
          exact List.mem_map.mpr ⟨lo, hlo2, rfl⟩
        · rw [hxs]
          exact List.mem_map.mpr ⟨hi, hhi2, rfl⟩
        · intro v hv
          rw [hxs] at hv
          obtain ⟨u, hu, rfl⟩ := List.mem_map.mp hv
          exact ⟨u, rfl, hall u hu⟩

/-- Witness of C16 on dataset IV with the line `y = x/2 + 3` and the check of the plotting
library: the line is built. -/
theorem scatterPlotWithRegression_clipped_witness :
    ∃ minX maxX : ℚ,
      scatterPlotWithRegression checkFloats
          { name := "IV", x := anscombeX4.map fin, y := anscombeY4.map fin }
          (fin (1 / 2)) (fin 3) =
        .ok ((fin minX, fin (1 / 2) * fin minX + fin 3),
          (fin maxX, fin (1 / 2) * fin maxX + fin 3)) ∧
      fin minX ∈ anscombeX4.map fin ∧ fin maxX ∈ anscombeX4.map fin ∧
      ∀ v ∈ anscombeX4.map fin, ∃ u : ℚ, v = fin u ∧ minX ≤ u ∧ u ≤ maxX := by
  rcases scatterPlotWithRegression_clipped checkFloats
    { name := "IV", x := anscombeX4.map fin, y := anscombeY4.map fin }
    (fin (1 / 2)) (fin 3) (by simp [anscombeX4]) checkFloats_finite with h | h | h
  · exact absurd h.1 (by simp [anscombeX4, anscombeY4])
  · exact absurd h.2.1 (by simp [checkFloats, anscombeX4, anscombeY4])
  · exact h.2.2

/-! ## The four datasets of `main` -/

/-- Samples of length `11` with `x` and `y` not all equal keep the three denominators away
from zero. -/
theorem denominators_ne_zero (xs ys : List K) (hx : ∃ u ∈ xs, ∃ v ∈ xs, u ≠ v)
    (hy : ∃ u ∈ ys, ∃ v ∈ ys, u ≠ v) (h11 : xs.length = 11) :
    (xs.map (fun x => x * x)).sum - (xs.length : K) * meanRef xs * meanRef xs ≠ 0 ∧
    ssTotRef ys ≠ 0 ∧ (xs.length : K) - 2 ≠ 0 := by
  refine ⟨(denominator_pos xs hx).ne.symm, (ssTotRef_pos ys hy).ne.symm, ?_⟩
  rw [h11]
  norm_num

theorem anscombeX123_not_const : ∃ u ∈ anscombeX123, ∃ v ∈ anscombeX123, u ≠ v :=
  ⟨10, by simp [anscombeX123], 8, by simp [anscombeX123], by norm_num⟩

theorem anscombeX4_not_const : ∃ u ∈ anscombeX4, ∃ v ∈ anscombeX4, u ≠ v :=
  ⟨8, by simp [anscombeX4], 19, by simp [anscombeX4], by norm_num⟩

theorem anscombeY1_not_const : ∃ u ∈ anscombeY1, ∃ v ∈ anscombeY1, u ≠ v :=
  ⟨8.04, by simp [anscombeY1], 6.95, by simp [anscombeY1], by norm_num⟩

theorem anscombeY2_not_const : ∃ u ∈ anscombeY2, ∃ v ∈ anscombeY2, u ≠ v :=
  ⟨9.14, by simp [anscombeY2], 8.14, by simp [anscombeY2], by norm_num⟩

theorem anscombeY3_not_const : ∃ u ∈ anscombeY3, ∃ v ∈ anscombeY3, u ≠ v :=
  ⟨7.46, by simp [anscombeY3], 6.77, by simp [anscombeY3], by norm_num⟩

theorem anscombeY4_not_const : ∃ u ∈ anscombeY4, ∃ v ∈ anscombeY4, u ≠ v :=
  ⟨6.58, by simp [anscombeY4], 5.76, by simp [anscombeY4], by norm_num⟩

/-- C14 (the degenerate cases are unreachable in `main`): each of the four hard-coded
datasets has `len(x) = len(y) = 11 > 2`, `x` values that are not all equal and `y` values
that are not all equal, so the denominators `sumX2 - n*xMean*xMean` of `linearRegression`,
`ssTot` of `rSquared` and `n - 2` of `residualStandardError` are non-zero. -/
theorem datasets_nondegenerate :
    ∀ ds ∈ datasets, ∃ xs ys : List ℚ,
      ds.x = xs.map fin ∧ ds.y = ys.map fin ∧
      xs.length = 11 ∧ ys.length = 11 ∧ 2 < xs.length ∧
      (∃ u ∈ xs, ∃ v ∈ xs, u ≠ v) ∧ (∃ u ∈ ys, ∃ v ∈ ys, u ≠ v) ∧
      (xs.map (fun x => x * x)).sum - (xs.length : ℚ) * meanRef xs * meanRef xs ≠ 0 ∧
      ssTotRef ys ≠ 0 ∧ (xs.length : ℚ) - 2 ≠ 0 := by
  intro ds hds
  simp only [datasets, List.mem_cons, List.mem_singleton, List.not_mem_nil, or_false] at hds
  rcases hds with rfl | rfl | rfl | rfl
  · exact ⟨anscombeX123, anscombeY1, rfl, rfl, rfl, rfl, by decide, anscombeX123_not_const,
      anscombeY1_not_const,
      denominators_ne_zero _ _ anscombeX123_not_const anscombeY1_not_const rfl⟩
  · exact ⟨anscombeX123, anscombeY2, rfl, rfl, rfl, rfl, by decide, anscombeX123_not_const,
      anscombeY2_not_const,
      denominators_ne_zero _ _ anscombeX123_not_const anscombeY2_not_const rfl⟩
  · exact ⟨anscombeX123, anscombeY3, rfl, rfl, rfl, rfl, by decide, anscombeX123_not_const,
      anscombeY3_not_const,
      denominators_ne_zero _ _ anscombeX123_not_const anscombeY3_not_const rfl⟩
  · exact ⟨anscombeX4, anscombeY4, rfl, rfl, rfl, rfl, by decide, anscombeX4_not_const,
      anscombeY4_not_const,
      denominators_ne_zero _ _ anscombeX4_not_const anscombeY4_not_const rfl⟩

/-- Witness of C14 on dataset IV, whose `x` is `8` ten times and `19` once. -/
theorem datasets_nondegenerate_witness :
    ∃ xs ys : List ℚ,
      anscombeX4.map fin = xs.map fin ∧ anscombeY4.map fin = ys.map fin ∧
      xs.length = 11 ∧ ys.length = 11 ∧ 2 < xs.length ∧
      (∃ u ∈ xs, ∃ v ∈ xs, u ≠ v) ∧ (∃ u ∈ ys, ∃ v ∈ ys, u ≠ v) ∧
      (xs.map (fun x => x * x)).sum - (xs.length : ℚ) * meanRef xs * meanRef xs ≠ 0 ∧
      ssTotRef ys ≠ 0 ∧ (xs.length : ℚ) - 2 ≠ 0 :=
  datasets_nondegenerate
    { name := "IV", x := anscombeX4.map fin, y := anscombeY4.map fin }
    (by simp [datasets])

/-- The exact fit and `R²` of dataset I. -/
theorem anscombe1_fit :
    slopeRef anscombeX123 anscombeY1 = 5501 / 11000 ∧
    interceptRef anscombeX123 anscombeY1 = 33001 / 11000 ∧
    rSquaredRef anscombeX123 anscombeY1 (5501 / 11000) (33001 / 11000) =
      30261001 / 45399960 := by
  have h1 : slopeRef anscombeX123 anscombeY1 = 5501 / 11000 := by
    norm_num [slopeRef, pairSum, meanRef, anscombeX123, anscombeY1]
  refine ⟨h1, ?_, ?_⟩
  · rw [interceptRef, h1]
    norm_num [meanRef, anscombeX123, anscombeY1]
  · norm_num [rSquaredRef, sumSqResiduals, ssTotRef, pairSum, meanRef, anscombeX123,
      anscombeY1]

/-- The exact fit and `R²` of dataset II. -/
theorem anscombe2_fit :
    slopeRef anscombeX123 anscombeY2 = 1 / 2 ∧
    interceptRef anscombeX123 anscombeY2 = 3301 / 1100 ∧
    rSquaredRef anscombeX123 anscombeY2 (1 / 2) (3301 / 1100) = 378125 / 567549 := by
  have h1 : slopeRef anscombeX123 anscombeY2 = 1 / 2 := by
    norm_num [slopeRef, pairSum, meanRef, anscombeX123, anscombeY2]
  refine ⟨h1, ?_, ?_⟩
  · rw [interceptRef, h1]
    norm_num [meanRef, anscombeX123, anscombeY2]
  · norm_num [rSquaredRef, sumSqResiduals, ssTotRef, pairSum, meanRef, anscombeX123,
      anscombeY2]

/-- The exact fit and `R²` of dataset III. -/
theorem anscombe3_fit :
    slopeRef anscombeX123 anscombeY3 = 5497 / 11000 ∧
    interceptRef anscombeX123 anscombeY3 = 33027 / 11000 ∧
    rSquaredRef anscombeX123 anscombeY3 (5497 / 11000) (33027 / 11000) =
      30217009 / 45348820 := by
  have h1 : slopeRef anscombeX123 anscombeY3 = 5497 / 11000 := by
    norm_num [slopeRef, pairSum, meanRef, anscombeX123, anscombeY3]
  refine ⟨h1, ?_, ?_⟩
  · rw [interceptRef, h1]
    norm_num [meanRef, anscombeX123, anscombeY3]
  · norm_num [rSquaredRef, sumSqResiduals, ssTotRef, pairSum, meanRef, anscombeX123,
      anscombeY3]

/-- The exact fit and `R²` of dataset IV. -/
theorem anscombe4_fit :
    slopeRef anscombeX4 anscombeY4 = 5499 / 11000 ∧
    interceptRef anscombeX4 anscombeY4 = 33019 / 11000 ∧
    rSquaredRef anscombeX4 anscombeY4 (5499 / 11000) (33019 / 11000) =
      10079667 / 15118580 := by
  have h1 : slopeRef anscombeX4 anscombeY4 = 5499 / 11000 := by
    norm_num [slopeRef, pairSum, meanRef, anscombeX4, anscombeY4]
  refine ⟨h1, ?_, ?_⟩
  · rw [interceptRef, h1]
    norm_num [meanRef, anscombeX4, anscombeY4]
  · norm_num [rSquaredRef, sumSqResiduals, ssTotRef, pairSum, meanRef, anscombeX4,
      anscombeY4]

/-- On non-degenerate finite samples, `linearRegression` and `rSquared` of its fit return
the reference values. -/
theorem fit_and_rSquared_fin (xs ys : List K) (hlen : xs.length = ys.length)
    (hx : ∃ u ∈ xs, ∃ v ∈ xs, u ≠ v) (hy : ∃ u ∈ ys, ∃ v ∈ ys, u ≠ v) (m c r : K)
    (hm : slopeRef xs ys = m) (hc : interceptRef xs ys = c)
    (hr : rSquaredRef xs ys m c = r) :
    linearRegression (xs.map fin) (ys.map fin) = .ok (fin m, fin c) ∧
    rSquared (xs.map fin) (ys.map fin) (fin m) (fin c) = .ok (fin r) := by
  have hD := (denominator_pos xs hx).ne.symm
  have hn : xs ≠ [] := by
    obtain ⟨u, hu, -⟩ := hx
    exact List.ne_nil_of_mem hu
  have hT := (ssTotRef_pos ys hy).ne.symm
  refine ⟨?_, ?_⟩
  · rw [linearRegression_fin xs ys hlen hn hD, hm, hc]
  · rw [rSquared_fin xs ys hlen, fin_div_fin_of_ne _ hT, ← hr]
    rfl

/-- C15 (near-identical summary statistics of the quartet): for each of the four
hard-coded datasets, in exact rational arithmetic on the decimal constants,
`linearRegression` returns a slope within `0.001` of `0.5` and an intercept within `0.01`
of `3.0`, and `rSquared` of that fit is within `0.01` of `0.67`. -/
theorem datasets_near_identical :
    ∀ ds ∈ datasets, ∃ slope intercept r2 : ℚ,
      linearRegression ds.x ds.y = .ok (fin slope, fin intercept) ∧
      rSquared ds.x ds.y (fin slope) (fin intercept) = .ok (fin r2) ∧
      |slope - 0.5| ≤ 0.001 ∧ |intercept - 3.0| ≤ 0.01 ∧ |r2 - 0.67| ≤ 0.01 := by
  intro ds hds
  simp only [datasets, List.mem_cons, List.mem_singleton, List.not_mem_nil, or_false] at hds
  rcases hds with rfl | rfl | rfl | rfl
  · obtain ⟨h1, h2, h3⟩ := anscombe1_fit
    obtain ⟨e1, e2⟩ := fit_and_rSquared_fin anscombeX123 anscombeY1 rfl
      anscombeX123_not_const anscombeY1_not_const _ _ _ h1 h2 h3
    exact ⟨_, _, _, e1, e2, abs_le.mpr ⟨by norm_num, by norm_num⟩,
      abs_le.mpr ⟨by norm_num, by norm_num⟩, abs_le.mpr ⟨by norm_num, by norm_num⟩⟩
  · obtain ⟨h1, h2, h3⟩ := anscombe2_fit
    obtain ⟨e1, e2⟩ := fit_and_rSquared_fin anscombeX123 anscombeY2 rfl
      anscombeX123_not_const anscombeY2_not_const _ _ _ h1 h2 h3
    exact ⟨_, _, _, e1, e2, abs_le.mpr ⟨by norm_num, by norm_num⟩,
      abs_le.mpr ⟨by norm_num, by norm_num⟩, abs_le.mpr ⟨by norm_num, by norm_num⟩⟩
  · obtain ⟨h1, h2, h3⟩ := anscombe3_fit
    obtain ⟨e1, e2⟩ := fit_and_rSquared_fin anscombeX123 anscombeY3 rfl
      anscombeX123_not_const anscombeY3_not_const _ _ _ h1 h2 h3
    exact ⟨_, _, _, e1, e2, abs_le.mpr ⟨by norm_num, by norm_num⟩,
      abs_le.mpr ⟨by norm_num, by norm_num⟩, abs_le.mpr ⟨by norm_num, by norm_num⟩⟩
  · obtain ⟨h1, h2, h3⟩ := anscombe4_fit
    obtain ⟨e1, e2⟩ := fit_and_rSquared_fin anscombeX4 anscombeY4 rfl
      anscombeX4_not_const anscombeY4_not_const _ _ _ h1 h2 h3
    exact ⟨_, _, _, e1, e2, abs_le.mpr ⟨by norm_num, by norm_num⟩,
      abs_le.mpr ⟨by norm_num, by norm_num⟩, abs_le.mpr ⟨by norm_num, by norm_num⟩⟩

/-- Witness of C15 on dataset I. -/
theorem datasets_near_identical_witness :
    ∃ slope intercept r2 : ℚ,
      linearRegression (anscombeX123.map fin) (anscombeY1.map fin) =
        .ok (fin slope, fin intercept) ∧
      rSquared (anscombeX123.map fin) (anscombeY1.map fin) (fin slope) (fin intercept) =
        .ok (fin r2) ∧
      |slope - 0.5| ≤ 0.001 ∧ |intercept - 3.0| ≤ 0.01 ∧ |r2 - 0.67| ≤ 0.01 :=
  datasets_near_identical
    { name := "I", x := anscombeX123.map fin, y := anscombeY1.map fin }
    (by simp [datasets])

/-! ## Evaluations in binary64 -/

set_option maxRecDepth 10000 in
/-- Evaluation of `linearRegression` in binary64 on `x = [50000001, 50000002, 50000003]`,
`y = 2*x + 1`: the result is slope `1` and intercept `50000003`. -/
theorem linearRegression64_large_x :
    linearRegression64 [Binary64.ofNat 50000001, Binary64.ofNat 50000002, Binary64.ofNat 50000003]
      [Binary64.ofNat 100000003, Binary64.ofNat 100000005, Binary64.ofNat 100000007] =
      .ok (Binary64.ofNat 1, Binary64.ofNat 50000003) := by
  have e0 : Binary64.ofNat 50000001 = (Binary64.finite false 6710886534217728 (-27)) := by decide
  have e1 : Binary64.ofNat 50000002 = (Binary64.finite false 6710886668435456 (-27)) := by decide
  have e2 : Binary64.ofNat 50000003 = (Binary64.finite false 6710886802653184 (-27)) := by decide
  have e3 : Binary64.ofNat 100000003 = (Binary64.finite false 6710886601326592 (-26)) := by decide
  have e4 : Binary64.ofNat 100000005 = (Binary64.finite false 6710886735544320 (-26)) := by decide
  have e5 : Binary64.ofNat 100000007 = (Binary64.finite false 6710886869762048 (-26)) := by decide
  have e6 : Binary64.ofNat 3 = (Binary64.finite false 6755399441055744 (-51)) := by decide
  have e7 : Binary64.ofNat 0 = (Binary64.finite false 0 0) := by decide
  have e8 : ((Binary64.finite false 0 0) + (Binary64.finite false 6710886534217728 (-27)) : Binary64) =
      (Binary64.finite false 6710886534217728 (-27)) := by decide
  have e9 : ((Binary64.finite false 0 0) + (Binary64.finite false 6710886601326592 (-26)) : Binary64) =
      (Binary64.finite false 6710886601326592 (-26)) := by decide
  have e10 : ((Binary64.finite false 6710886534217728 (-27)) * (Binary64.finite false 6710886601326592 (-26)) : Binary64) =
      (Binary64.finite false 5000000250000003 0) := by decide
  have e11 : ((Binary64.finite false 0 0) + (Binary64.finite false 5000000250000003 0) : Binary64) =
      (Binary64.finite false 5000000250000003 0) := by decide
  have e12 : ((Binary64.finite false 6710886534217728 (-27)) * (Binary64.finite false 6710886534217728 (-27)) : Binary64) =
      (Binary64.finite false 5000000200000002 (-1)) := by decide
  have e13 : ((Binary64.finite false 0 0) + (Binary64.finite false 5000000200000002 (-1)) : Binary64) =
      (Binary64.finite false 5000000200000002 (-1)) := by decide
  have e14 : ((Binary64.finite false 6710886534217728 (-27)) + (Binary64.finite false 6710886668435456 (-27)) : Binary64) =
      (Binary64.finite false 6710886601326592 (-26)) := by decide
  have e15 : ((Binary64.finite false 6710886601326592 (-26)) + (Binary64.finite false 6710886735544320 (-26)) : Binary64) =
      (Binary64.finite false 6710886668435456 (-25)) := by decide
  have e16 : ((Binary64.finite false 6710886668435456 (-27)) * (Binary64.finite false 6710886735544320 (-26)) : Binary64) =
      (Binary64.finite false 5000000450000010 0) := by decide
  have e17 : ((Binary64.finite false 5000000250000003 0) + (Binary64.finite false 5000000450000010 0) : Binary64) =
      (Binary64.finite false 5000000350000006 1) := by decide
  have e18 : ((Binary64.finite false 6710886668435456 (-27)) * (Binary64.finite false 6710886668435456 (-27)) : Binary64) =
      (Binary64.finite false 5000000400000008 (-1)) := by decide
  have e19 : ((Binary64.finite false 5000000200000002 (-1)) + (Binary64.finite false 5000000400000008 (-1)) : Binary64) =
      (Binary64.finite false 5000000300000005 0) := by decide
  have e20 : ((Binary64.finite false 6710886601326592 (-26)) + (Binary64.finite false 6710886802653184 (-27)) : Binary64) =
      (Binary64.finite false 5033165001326592 (-25)) := by decide
  have e21 : ((Binary64.finite false 6710886668435456 (-25)) + (Binary64.finite false 6710886869762048 (-26)) : Binary64) =
      (Binary64.finite false 5033165051658240 (-24)) := by decide
  have e22 : ((Binary64.finite false 6710886802653184 (-27)) * (Binary64.finite false 6710886869762048 (-26)) : Binary64) =
      (Binary64.finite false 5000000650000021 0) := by decide
  have e23 : ((Binary64.finite false 5000000350000006 1) + (Binary64.finite false 5000000650000021 0) : Binary64) =
      (Binary64.finite false 7500000675000016 1) := by decide
  have e24 : ((Binary64.finite false 6710886802653184 (-27)) * (Binary64.finite false 6710886802653184 (-27)) : Binary64) =
      (Binary64.finite false 5000000600000018 (-1)) := by decide
  have e25 : ((Binary64.finite false 5000000300000005 0) + (Binary64.finite false 5000000600000018 (-1)) : Binary64) =
      (Binary64.finite false 7500000600000014 0) := by decide
  have e26 : ((Binary64.finite false 5033165001326592 (-25)) / (Binary64.finite false 6755399441055744 (-51)) : Binary64) =
      (Binary64.finite false 6710886668435456 (-27)) := by decide
  have e27 : ((Binary64.finite false 5033165051658240 (-24)) / (Binary64.finite false 6755399441055744 (-51)) : Binary64) =
      (Binary64.finite false 6710886735544320 (-26)) := by decide
  have e28 : ((Binary64.finite false 6755399441055744 (-51)) * (Binary64.finite false 6710886668435456 (-27)) : Binary64) =
      (Binary64.finite false 5033165001326592 (-25)) := by decide
  have e29 : ((Binary64.finite false 5033165001326592 (-25)) * (Binary64.finite false 6710886735544320 (-26)) : Binary64) =
      (Binary64.finite false 7500000675000015 1) := by decide
  have e30 : ((Binary64.finite false 7500000675000016 1) - (Binary64.finite false 7500000675000015 1) : Binary64) =
      (Binary64.finite false 4503599627370496 (-51)) := by decide
  have e31 : ((Binary64.finite false 5033165001326592 (-25)) * (Binary64.finite false 6710886668435456 (-27)) : Binary64) =
      (Binary64.finite false 7500000600000012 0) := by decide
  have e32 : ((Binary64.finite false 7500000600000014 0) - (Binary64.finite false 7500000600000012 0) : Binary64) =
      (Binary64.finite false 4503599627370496 (-51)) := by decide
  have e33 : ((Binary64.finite false 4503599627370496 (-51)) / (Binary64.finite false 4503599627370496 (-51)) : Binary64) =
      (Binary64.finite false 4503599627370496 (-52)) := by decide
  have e34 : ((Binary64.finite false 4503599627370496 (-52)) * (Binary64.finite false 6710886668435456 (-27)) : Binary64) =
      (Binary64.finite false 6710886668435456 (-27)) := by decide
  have e35 : ((Binary64.finite false 6710886735544320 (-26)) - (Binary64.finite false 6710886668435456 (-27)) : Binary64) =
      (Binary64.finite false 6710886802653184 (-27)) := by decide
  have e36 : Binary64.ofNat 1 = (Binary64.finite false 4503599627370496 (-52)) := by decide
  simp only [linearRegression64, linearRegressionLoop64, List.length_cons, List.length_nil,
    e0, e1, e2, e3, e4, e5, e6, e7, e8, e9, e10, e11, e12, e13, e14, e15, e16, e17, e18,
    e19, e20, e21, e22, e23, e24, e25, e26, e27, e28, e29, e30, e31, e32, e33, e34, e35,
    e36]

set_option maxRecDepth 10000 in
/-- Evaluation of `rSquared` in binary64 on the same samples with the fit `(1, 50000003)`:
the result is `3/4`. -/
theorem rSquared64_large_x :
    rSquared64 [Binary64.ofNat 50000001, Binary64.ofNat 50000002, Binary64.ofNat 50000003]
      [Binary64.ofNat 100000003, Binary64.ofNat 100000005, Binary64.ofNat 100000007]
      (Binary64.ofNat 1) (Binary64.ofNat 50000003) =
      .ok (Binary64.finite false 6755399441055744 (-53)) := by
  have e0 : Binary64.ofNat 50000001 = (Binary64.finite false 6710886534217728 (-27)) := by decide
  have e1 : Binary64.ofNat 50000002 = (Binary64.finite false 6710886668435456 (-27)) := by decide
  have e2 : Binary64.ofNat 50000003 = (Binary64.finite false 6710886802653184 (-27)) := by decide
  have e3 : Binary64.ofNat 100000003 = (Binary64.finite false 6710886601326592 (-26)) := by decide
  have e4 : Binary64.ofNat 100000005 = (Binary64.finite false 6710886735544320 (-26)) := by decide
  have e5 : Binary64.ofNat 100000007 = (Binary64.finite false 6710886869762048 (-26)) := by decide
  have e6 : Binary64.ofNat 1 = (Binary64.finite false 4503599627370496 (-52)) := by decide
  have e7 : Binary64.ofNat 0 = (Binary64.finite false 0 0) := by decide
  have e8 : ((Binary64.finite false 0 0) + (Binary64.finite false 6710886601326592 (-26)) : Binary64) =
      (Binary64.finite false 6710886601326592 (-26)) := by decide
  have e9 : ((Binary64.finite false 6710886601326592 (-26)) + (Binary64.finite false 6710886735544320 (-26)) : Binary64) =
      (Binary64.finite false 6710886668435456 (-25)) := by decide
  have e10 : ((Binary64.finite false 6710886668435456 (-25)) + (Binary64.finite false 6710886869762048 (-26)) : Binary64) =
      (Binary64.finite false 5033165051658240 (-24)) := by decide
  have e11 : Binary64.ofNat 3 = (Binary64.finite false 6755399441055744 (-51)) := by decide
  have e12 : ((Binary64.finite false 5033165051658240 (-24)) / (Binary64.finite false 6755399441055744 (-51)) : Binary64) =
      (Binary64.finite false 6710886735544320 (-26)) := by decide
  have e13 : ((Binary64.finite false 4503599627370496 (-52)) * (Binary64.finite false 6710886534217728 (-27)) : Binary64) =
      (Binary64.finite false 6710886534217728 (-27)) := by decide
  have e14 : ((Binary64.finite false 6710886534217728 (-27)) + (Binary64.finite false 6710886802653184 (-27)) : Binary64) =
      (Binary64.finite false 6710886668435456 (-26)) := by decide
  have e15 : ((Binary64.finite false 6710886601326592 (-26)) - (Binary64.finite false 6710886735544320 (-26)) : Binary64) =
      (Binary64.finite true 4503599627370496 (-51)) := by decide
  have e16 : ((Binary64.finite true 4503599627370496 (-51)) * (Binary64.finite true 4503599627370496 (-51)) : Binary64) =
      (Binary64.finite false 4503599627370496 (-50)) := by decide
  have e17 : ((Binary64.finite false 0 0) + (Binary64.finite false 4503599627370496 (-50)) : Binary64) =
      (Binary64.finite false 4503599627370496 (-50)) := by decide
  have e18 : ((Binary64.finite false 6710886601326592 (-26)) - (Binary64.finite false 6710886668435456 (-26)) : Binary64) =
      (Binary64.finite true 4503599627370496 (-52)) := by decide
  have e19 : ((Binary64.finite true 4503599627370496 (-52)) * (Binary64.finite true 4503599627370496 (-52)) : Binary64) =
      (Binary64.finite false 4503599627370496 (-52)) := by decide
  have e20 : ((Binary64.finite false 0 0) + (Binary64.finite false 4503599627370496 (-52)) : Binary64) =
      (Binary64.finite false 4503599627370496 (-52)) := by decide
  have e21 : ((Binary64.finite false 4503599627370496 (-52)) * (Binary64.finite false 6710886668435456 (-27)) : Binary64) =
      (Binary64.finite false 6710886668435456 (-27)) := by decide
  have e22 : ((Binary64.finite false 6710886668435456 (-27)) + (Binary64.finite false 6710886802653184 (-27)) : Binary64) =
      (Binary64.finite false 6710886735544320 (-26)) := by decide
  have e23 : ((Binary64.finite false 6710886735544320 (-26)) - (Binary64.finite false 6710886735544320 (-26)) : Binary64) =
      (Binary64.finite false 0 0) := by decide
  have e24 : ((Binary64.finite false 0 0) * (Binary64.finite false 0 0) : Binary64) =
      (Binary64.finite false 0 0) := by decide
  have e25 : ((Binary64.finite false 4503599627370496 (-50)) + (Binary64.finite false 0 0) : Binary64) =
      (Binary64.finite false 4503599627370496 (-50)) := by decide
  have e26 : ((Binary64.finite false 4503599627370496 (-52)) + (Binary64.finite false 0 0) : Binary64) =
      (Binary64.finite false 4503599627370496 (-52)) := by decide
  have e27 : ((Binary64.finite false 4503599627370496 (-52)) * (Binary64.finite false 6710886802653184 (-27)) : Binary64) =
      (Binary64.finite false 6710886802653184 (-27)) := by decide
  have e28 : ((Binary64.finite false 6710886802653184 (-27)) + (Binary64.finite false 6710886802653184 (-27)) : Binary64) =
      (Binary64.finite false 6710886802653184 (-26)) := by decide
  have e29 : ((Binary64.finite false 6710886869762048 (-26)) - (Binary64.finite false 6710886735544320 (-26)) : Binary64) =
      (Binary64.finite false 4503599627370496 (-51)) := by decide
  have e30 : ((Binary64.finite false 4503599627370496 (-51)) * (Binary64.finite false 4503599627370496 (-51)) : Binary64) =
      (Binary64.finite false 4503599627370496 (-50)) := by decide
  have e31 : ((Binary64.finite false 4503599627370496 (-50)) + (Binary64.finite false 4503599627370496 (-50)) : Binary64) =
      (Binary64.finite false 4503599627370496 (-49)) := by decide
  have e32 : ((Binary64.finite false 6710886869762048 (-26)) - (Binary64.finite false 6710886802653184 (-26)) : Binary64) =
      (Binary64.finite false 4503599627370496 (-52)) := by decide
  have e33 : ((Binary64.finite false 4503599627370496 (-52)) * (Binary64.finite false 4503599627370496 (-52)) : Binary64) =
      (Binary64.finite false 4503599627370496 (-52)) := by decide
  have e34 : ((Binary64.finite false 4503599627370496 (-52)) + (Binary64.finite false 4503599627370496 (-52)) : Binary64) =
      (Binary64.finite false 4503599627370496 (-51)) := by decide
  have e35 : ((Binary64.finite false 4503599627370496 (-51)) / (Binary64.finite false 4503599627370496 (-49)) : Binary64) =
      (Binary64.finite false 4503599627370496 (-54)) := by decide
  have e36 : ((Binary64.finite false 4503599627370496 (-52)) - (Binary64.finite false 4503599627370496 (-54)) : Binary64) =
      (Binary64.finite false 6755399441055744 (-53)) := by decide
  simp only [rSquared64, rSquaredLoop64, mean64, List.foldl_cons, List.foldl_nil, List.length_cons,
    List.length_nil,
    e0, e1, e2, e3, e4, e5, e6, e7, e8, e9, e10, e11, e12, e13, e14, e15, e16, e17, e18,
    e19, e20, e21, e22, e23, e24, e25, e26, e27, e28, e29, e30, e31, e32, e33, e34, e35,
    e36]

set_option maxRecDepth 10000 in
/-- Evaluation of `linearRegression` in binary64 on `x = [8, 2, 5]`, `y = [9, 9, 7]`. -/
theorem linearRegression64_small_r2 :
    linearRegression64 [Binary64.ofNat 8, Binary64.ofNat 2, Binary64.ofNat 5] [Binary64.ofNat 9,
      Binary64.ofNat 9, Binary64.ofNat 7] =
      .ok ((Binary64.finite true 8006399337547548 (-103)),
        (Binary64.finite false 4691249611844269 (-49))) := by
  have e0 : Binary64.ofNat 8 = (Binary64.finite false 4503599627370496 (-49)) := by decide
  have e1 : Binary64.ofNat 2 = (Binary64.finite false 4503599627370496 (-51)) := by decide
  have e2 : Binary64.ofNat 5 = (Binary64.finite false 5629499534213120 (-50)) := by decide
  have e3 : Binary64.ofNat 9 = (Binary64.finite false 5066549580791808 (-49)) := by decide
  have e4 : Binary64.ofNat 7 = (Binary64.finite false 7881299347898368 (-50)) := by decide
  have e5 : Binary64.ofNat 3 = (Binary64.finite false 6755399441055744 (-51)) := by decide
  have e6 : Binary64.ofNat 0 = (Binary64.finite false 0 0) := by decide
  have e7 : ((Binary64.finite false 0 0) + (Binary64.finite false 4503599627370496 (-49)) : Binary64) =
      (Binary64.finite false 4503599627370496 (-49)) := by decide
  have e8 : ((Binary64.finite false 0 0) + (Binary64.finite false 5066549580791808 (-49)) : Binary64) =
      (Binary64.finite false 5066549580791808 (-49)) := by decide
  have e9 : ((Binary64.finite false 4503599627370496 (-49)) * (Binary64.finite false 5066549580791808 (-49)) : Binary64) =
      (Binary64.finite false 5066549580791808 (-46)) := by decide
  have e10 : ((Binary64.finite false 0 0) + (Binary64.finite false 5066549580791808 (-46)) : Binary64) =
      (Binary64.finite false 5066549580791808 (-46)) := by decide
  have e11 : ((Binary64.finite false 4503599627370496 (-49)) * (Binary64.finite false 4503599627370496 (-49)) : Binary64) =
      (Binary64.finite false 4503599627370496 (-46)) := by decide
  have e12 : ((Binary64.finite false 0 0) + (Binary64.finite false 4503599627370496 (-46)) : Binary64) =
      (Binary64.finite false 4503599627370496 (-46)) := by decide
  have e13 : ((Binary64.finite false 4503599627370496 (-49)) + (Binary64.finite false 4503599627370496 (-51)) : Binary64) =
      (Binary64.finite false 5629499534213120 (-49)) := by decide
  have e14 : ((Binary64.finite false 5066549580791808 (-49)) + (Binary64.finite false 5066549580791808 (-49)) : Binary64) =
      (Binary64.finite false 5066549580791808 (-48)) := by decide
  have e15 : ((Binary64.finite false 4503599627370496 (-51)) * (Binary64.finite false 5066549580791808 (-49)) : Binary64) =
      (Binary64.finite false 5066549580791808 (-48)) := by decide
  have e16 : ((Binary64.finite false 5066549580791808 (-46)) + (Binary64.finite false 5066549580791808 (-48)) : Binary64) =
      (Binary64.finite false 6333186975989760 (-46)) := by decide
  have e17 : ((Binary64.finite false 4503599627370496 (-51)) * (Binary64.finite false 4503599627370496 (-51)) : Binary64) =
      (Binary64.finite false 4503599627370496 (-50)) := by decide
  have e18 : ((Binary64.finite false 4503599627370496 (-46)) + (Binary64.finite false 4503599627370496 (-50)) : Binary64) =
      (Binary64.finite false 4785074604081152 (-46)) := by decide
  have e19 : ((Binary64.finite false 5629499534213120 (-49)) + (Binary64.finite false 5629499534213120 (-50)) : Binary64) =
      (Binary64.finite false 8444249301319680 (-49)) := by decide
  have e20 : ((Binary64.finite false 5066549580791808 (-48)) + (Binary64.finite false 7881299347898368 (-50)) : Binary64) =
      (Binary64.finite false 7036874417766400 (-48)) := by decide
  have e21 : ((Binary64.finite false 5629499534213120 (-50)) * (Binary64.finite false 7881299347898368 (-50)) : Binary64) =
      (Binary64.finite false 4925812092436480 (-47)) := by decide
  have e22 : ((Binary64.finite false 6333186975989760 (-46)) + (Binary64.finite false 4925812092436480 (-47)) : Binary64) =
      (Binary64.finite false 8796093022208000 (-46)) := by decide
  have e23 : ((Binary64.finite false 5629499534213120 (-50)) * (Binary64.finite false 5629499534213120 (-50)) : Binary64) =
      (Binary64.finite false 7036874417766400 (-48)) := by decide
  have e24 : ((Binary64.finite false 4785074604081152 (-46)) + (Binary64.finite false 7036874417766400 (-48)) : Binary64) =
      (Binary64.finite false 6544293208522752 (-46)) := by decide
  have e25 : ((Binary64.finite false 8444249301319680 (-49)) / (Binary64.finite false 6755399441055744 (-51)) : Binary64) =
      (Binary64.finite false 5629499534213120 (-50)) := by decide
  have e26 : ((Binary64.finite false 7036874417766400 (-48)) / (Binary64.finite false 6755399441055744 (-51)) : Binary64) =
      (Binary64.finite false 4691249611844267 (-49)) := by decide
  have e27 : ((Binary64.finite false 6755399441055744 (-51)) * (Binary64.finite false 5629499534213120 (-50)) : Binary64) =
      (Binary64.finite false 8444249301319680 (-49)) := by decide
  have e28 : ((Binary64.finite false 8444249301319680 (-49)) * (Binary64.finite false 4691249611844267 (-49)) : Binary64) =
      (Binary64.finite false 8796093022208001 (-46)) := by decide
  have e29 : ((Binary64.finite false 8796093022208000 (-46)) - (Binary64.finite false 8796093022208001 (-46)) : Binary64) =
      (Binary64.finite true 4503599627370496 (-98)) := by decide
  have e30 : ((Binary64.finite false 8444249301319680 (-49)) * (Binary64.finite false 5629499534213120 (-50)) : Binary64) =
      (Binary64.finite false 5277655813324800 (-46)) := by decide
  have e31 : ((Binary64.finite false 6544293208522752 (-46)) - (Binary64.finite false 5277655813324800 (-46)) : Binary64) =
      (Binary64.finite false 5066549580791808 (-48)) := by decide
  have e32 : ((Binary64.finite true 4503599627370496 (-98)) / (Binary64.finite false 5066549580791808 (-48)) : Binary64) =
      (Binary64.finite true 8006399337547548 (-103)) := by decide
  have e33 : ((Binary64.finite true 8006399337547548 (-103)) * (Binary64.finite false 5629499534213120 (-50)) : Binary64) =
      (Binary64.finite true 5003999585967218 (-100)) := by decide
  have e34 : ((Binary64.finite false 4691249611844267 (-49)) - (Binary64.finite true 5003999585967218 (-100)) : Binary64) =
      (Binary64.finite false 4691249611844269 (-49)) := by decide
  simp only [linearRegression64, linearRegressionLoop64, List.length_cons, List.length_nil,
    e0, e1, e2, e3, e4, e5, e6, e7, e8, e9, e10, e11, e12, e13, e14, e15, e16, e17, e18,
    e19, e20, e21, e22, e23, e24, e25, e26, e27, e28, e29, e30, e31, e32, e33, e34]

set_option maxRecDepth 10000 in
/-- Evaluation of `rSquared` in binary64 on `x = [8, 2, 5]`, `y = [9, 9, 7]` with the fit
returned by `linearRegression`: the result is `-2^-50`. -/
theorem rSquared64_small_r2 :
    rSquared64 [Binary64.ofNat 8, Binary64.ofNat 2, Binary64.ofNat 5] [Binary64.ofNat 9,
      Binary64.ofNat 9, Binary64.ofNat 7]
      (Binary64.finite true 8006399337547548 (-103))
      (Binary64.finite false 4691249611844269 (-49)) =
      .ok (Binary64.finite true 4503599627370496 (-102)) := by
  have e0 : Binary64.ofNat 8 = (Binary64.finite false 4503599627370496 (-49)) := by decide
  have e1 : Binary64.ofNat 2 = (Binary64.finite false 4503599627370496 (-51)) := by decide
  have e2 : Binary64.ofNat 5 = (Binary64.finite false 5629499534213120 (-50)) := by decide
  have e3 : Binary64.ofNat 9 = (Binary64.finite false 5066549580791808 (-49)) := by decide
  have e4 : Binary64.ofNat 7 = (Binary64.finite false 7881299347898368 (-50)) := by decide
  have e5 : Binary64.ofNat 0 = (Binary64.finite false 0 0) := by decide
  have e6 : ((Binary64.finite false 0 0) + (Binary64.finite false 5066549580791808 (-49)) : Binary64) =
      (Binary64.finite false 5066549580791808 (-49)) := by decide
  have e7 : ((Binary64.finite false 5066549580791808 (-49)) + (Binary64.finite false 5066549580791808 (-49)) : Binary64) =
      (Binary64.finite false 5066549580791808 (-48)) := by decide
  have e8 : ((Binary64.finite false 5066549580791808 (-48)) + (Binary64.finite false 7881299347898368 (-50)) : Binary64) =
      (Binary64.finite false 7036874417766400 (-48)) := by decide
  have e9 : Binary64.ofNat 3 = (Binary64.finite false 6755399441055744 (-51)) := by decide
  have e10 : ((Binary64.finite false 7036874417766400 (-48)) / (Binary64.finite false 6755399441055744 (-51)) : Binary64) =
      (Binary64.finite false 4691249611844267 (-49)) := by decide
  have e11 : ((Binary64.finite true 8006399337547548 (-103)) * (Binary64.finite false 4503599627370496 (-49)) : Binary64) =
      (Binary64.finite true 8006399337547548 (-100)) := by decide
  have e12 : ((Binary64.finite true 8006399337547548 (-100)) + (Binary64.finite false 4691249611844269 (-49)) : Binary64) =
      (Binary64.finite false 4691249611844265 (-49)) := by decide
  have e13 : ((Binary64.finite false 5066549580791808 (-49)) - (Binary64.finite false 4691249611844267 (-49)) : Binary64) =
      (Binary64.finite false 6004799503160656 (-53)) := by decide
  have e14 : ((Binary64.finite false 6004799503160656 (-53)) * (Binary64.finite false 6004799503160656 (-53)) : Binary64) =
      (Binary64.finite false 8006399337547534 (-54)) := by decide
  have e15 : ((Binary64.finite false 0 0) + (Binary64.finite false 8006399337547534 (-54)) : Binary64) =
      (Binary64.finite false 8006399337547534 (-54)) := by decide
  have e16 : ((Binary64.finite false 5066549580791808 (-49)) - (Binary64.finite false 4691249611844265 (-49)) : Binary64) =
      (Binary64.finite false 6004799503160688 (-53)) := by decide
  have e17 : ((Binary64.finite false 6004799503160688 (-53)) * (Binary64.finite false 6004799503160688 (-53)) : Binary64) =
      (Binary64.finite false 8006399337547620 (-54)) := by decide
  have e18 : ((Binary64.finite false 0 0) + (Binary64.finite false 8006399337547620 (-54)) : Binary64) =
      (Binary64.finite false 8006399337547620 (-54)) := by decide
  have e19 : ((Binary64.finite true 8006399337547548 (-103)) * (Binary64.finite false 4503599627370496 (-51)) : Binary64) =
      (Binary64.finite true 8006399337547548 (-102)) := by decide
  have e20 : ((Binary64.finite true 8006399337547548 (-102)) + (Binary64.finite false 4691249611844269 (-49)) : Binary64) =
      (Binary64.finite false 4691249611844268 (-49)) := by decide
  have e21 : ((Binary64.finite false 8006399337547534 (-54)) + (Binary64.finite false 8006399337547534 (-54)) : Binary64) =
      (Binary64.finite false 8006399337547534 (-53)) := by decide
  have e22 : ((Binary64.finite false 5066549580791808 (-49)) - (Binary64.finite false 4691249611844268 (-49)) : Binary64) =
      (Binary64.finite false 6004799503160640 (-53)) := by decide
  have e23 : ((Binary64.finite false 6004799503160640 (-53)) * (Binary64.finite false 6004799503160640 (-53)) : Binary64) =
      (Binary64.finite false 8006399337547492 (-54)) := by decide
  have e24 : ((Binary64.finite false 8006399337547620 (-54)) + (Binary64.finite false 8006399337547492 (-54)) : Binary64) =
      (Binary64.finite false 8006399337547556 (-53)) := by decide
  have e25 : ((Binary64.finite true 8006399337547548 (-103)) * (Binary64.finite false 5629499534213120 (-50)) : Binary64) =
      (Binary64.finite true 5003999585967218 (-100)) := by decide
  have e26 : ((Binary64.finite true 5003999585967218 (-100)) + (Binary64.finite false 4691249611844269 (-49)) : Binary64) =
      (Binary64.finite false 4691249611844267 (-49)) := by decide
  have e27 : ((Binary64.finite false 7881299347898368 (-50)) - (Binary64.finite false 4691249611844267 (-49)) : Binary64) =
      (Binary64.finite true 6004799503160664 (-52)) := by decide
  have e28 : ((Binary64.finite true 6004799503160664 (-52)) * (Binary64.finite true 6004799503160664 (-52)) : Binary64) =
      (Binary64.finite false 8006399337547556 (-52)) := by decide
  have e29 : ((Binary64.finite false 8006399337547534 (-53)) + (Binary64.finite false 8006399337547556 (-52)) : Binary64) =
      (Binary64.finite false 6004799503160662 (-51)) := by decide
  have e30 : ((Binary64.finite false 8006399337547556 (-53)) + (Binary64.finite false 8006399337547556 (-52)) : Binary64) =
      (Binary64.finite false 6004799503160667 (-51)) := by decide
  have e31 : Binary64.ofNat 1 = (Binary64.finite false 4503599627370496 (-52)) := by decide
  have e32 : ((Binary64.finite false 6004799503160667 (-51)) / (Binary64.finite false 6004799503160662 (-51)) : Binary64) =
      (Binary64.finite false 4503599627370500 (-52)) := by decide
  have e33 : ((Binary64.finite false 4503599627370496 (-52)) - (Binary64.finite false 4503599627370500 (-52)) : Binary64) =
      (Binary64.finite true 4503599627370496 (-102)) := by decide
  simp only [rSquared64, rSquaredLoop64, mean64, List.foldl_cons, List.foldl_nil, List.length_cons,
    List.length_nil,
    e0, e1, e2, e3, e4, e5, e6, e7, e8, e9, e10, e11, e12, e13, e14, e15, e16, e17, e18,
    e19, e20, e21, e22, e23, e24, e25, e26, e27, e28, e29, e30, e31, e32, e33]

set_option maxRecDepth 10000 in
/-- Evaluation of `rSquared` in binary64 on `x = [1, 2, 3]`,
`y = [1e9, 2e9, 3e9 + 2^-10]`, slope `1e9`, intercept `0`: the result is exactly `1`. -/
theorem rSquared64_rounds_to_one :
    rSquared64 [Binary64.ofNat 1, Binary64.ofNat 2, Binary64.ofNat 3]
      [Binary64.ofNat 1000000000, Binary64.ofNat 2000000000,
        (Binary64.finite false 6291456000002048 (-21))]
      (Binary64.ofNat 1000000000) (Binary64.ofNat 0) = .ok (Binary64.ofNat 1) := by
  have e0 : Binary64.ofNat 1 = (Binary64.finite false 4503599627370496 (-52)) := by decide
  have e1 : Binary64.ofNat 2 = (Binary64.finite false 4503599627370496 (-51)) := by decide
  have e2 : Binary64.ofNat 3 = (Binary64.finite false 6755399441055744 (-51)) := by decide
  have e3 : Binary64.ofNat 1000000000 =
      (Binary64.finite false 8388608000000000 (-23)) := by decide
  have e4 : Binary64.ofNat 2000000000 =
      (Binary64.finite false 8388608000000000 (-22)) := by decide
  have e5 : Binary64.ofNat 0 = (Binary64.finite false 0 0) := by decide
  have e6 : ((Binary64.finite false 0 0) + (Binary64.finite false 8388608000000000 (-23)) : Binary64) =
      (Binary64.finite false 8388608000000000 (-23)) := by decide
  have e7 : ((Binary64.finite false 8388608000000000 (-23)) + (Binary64.finite false 8388608000000000 (-22)) : Binary64) =
      (Binary64.finite false 6291456000000000 (-21)) := by decide
  have e8 : ((Binary64.finite false 6291456000000000 (-21)) + (Binary64.finite false 6291456000002048 (-21)) : Binary64) =
      (Binary64.finite false 6291456000001024 (-20)) := by decide
  have e9 : ((Binary64.finite false 6291456000001024 (-20)) / (Binary64.finite false 6755399441055744 (-51)) : Binary64) =
      (Binary64.finite false 8388608000001365 (-22)) := by decide
  have e10 : ((Binary64.finite false 8388608000000000 (-23)) * (Binary64.finite false 4503599627370496 (-52)) : Binary64) =
      (Binary64.finite false 8388608000000000 (-23)) := by decide
  have e11 : ((Binary64.finite false 8388608000000000 (-23)) + (Binary64.finite false 0 0) : Binary64) =
      (Binary64.finite false 8388608000000000 (-23)) := by decide
  have e12 : ((Binary64.finite false 8388608000000000 (-23)) - (Binary64.finite false 8388608000001365 (-22)) : Binary64) =
      (Binary64.finite true 8388608000002730 (-23)) := by decide
  have e13 : ((Binary64.finite true 8388608000002730 (-23)) * (Binary64.finite true 8388608000002730 (-23)) : Binary64) =
      (Binary64.finite false 7812500000005085 7) := by decide
  have e14 : ((Binary64.finite false 0 0) + (Binary64.finite false 7812500000005085 7) : Binary64) =
      (Binary64.finite false 7812500000005085 7) := by decide
  have e15 : ((Binary64.finite false 8388608000000000 (-23)) - (Binary64.finite false 8388608000000000 (-23)) : Binary64) =
      (Binary64.finite false 0 0) := by decide
  have e16 : ((Binary64.finite false 0 0) * (Binary64.finite false 0 0) : Binary64) =
      (Binary64.finite false 0 0) := by decide
  have e17 : ((Binary64.finite false 0 0) + (Binary64.finite false 0 0) : Binary64) =
      (Binary64.finite false 0 0) := by decide
  have e18 : ((Binary64.finite false 8388608000000000 (-23)) * (Binary64.finite false 4503599627370496 (-51)) : Binary64) =
      (Binary64.finite false 8388608000000000 (-22)) := by decide
  have e19 : ((Binary64.finite false 8388608000000000 (-22)) + (Binary64.finite false 0 0) : Binary64) =
      (Binary64.finite false 8388608000000000 (-22)) := by decide
  have e20 : ((Binary64.finite false 8388608000000000 (-22)) - (Binary64.finite false 8388608000001365 (-22)) : Binary64) =
      (Binary64.finite true 6003333487656960 (-64)) := by decide
  have e21 : ((Binary64.finite true 6003333487656960 (-64)) * (Binary64.finite true 6003333487656960 (-64)) : Binary64) =
      (Binary64.finite false 8002490440089600 (-76)) := by decide
  have e22 : ((Binary64.finite false 7812500000005085 7) + (Binary64.finite false 8002490440089600 (-76)) : Binary64) =
      (Binary64.finite false 7812500000005085 7) := by decide
  have e23 : ((Binary64.finite false 8388608000000000 (-22)) - (Binary64.finite false 8388608000000000 (-22)) : Binary64) =
      (Binary64.finite false 0 0) := by decide
  have e24 : ((Binary64.finite false 8388608000000000 (-23)) * (Binary64.finite false 6755399441055744 (-51)) : Binary64) =
      (Binary64.finite false 6291456000000000 (-21)) := by decide
  have e25 : ((Binary64.finite false 6291456000000000 (-21)) + (Binary64.finite false 0 0) : Binary64) =
      (Binary64.finite false 6291456000000000 (-21)) := by decide
  have e26 : ((Binary64.finite false 6291456000002048 (-21)) - (Binary64.finite false 8388608000001365 (-22)) : Binary64) =
      (Binary64.finite false 8388608000005462 (-23)) := by decide
  have e27 : ((Binary64.finite false 8388608000005462 (-23)) * (Binary64.finite false 8388608000005462 (-23)) : Binary64) =
      (Binary64.finite false 7812500000010174 7) := by decide
  have e28 : ((Binary64.finite false 7812500000005085 7) + (Binary64.finite false 7812500000010174 7) : Binary64) =
      (Binary64.finite false 7812500000007630 8) := by decide
  have e29 : ((Binary64.finite false 6291456000002048 (-21)) - (Binary64.finite false 6291456000000000 (-21)) : Binary64) =
      (Binary64.finite false 4503599627370496 (-62)) := by decide
  have e30 : ((Binary64.finite false 4503599627370496 (-62)) * (Binary64.finite false 4503599627370496 (-62)) : Binary64) =
      (Binary64.finite false 4503599627370496 (-72)) := by decide
  have e31 : ((Binary64.finite false 0 0) + (Binary64.finite false 4503599627370496 (-72)) : Binary64) =
      (Binary64.finite false 4503599627370496 (-72)) := by decide
  have e32 : ((Binary64.finite false 4503599627370496 (-72)) / (Binary64.finite false 7812500000007630 8) : Binary64) =
      (Binary64.finite false 5192296858529757 (-133)) := by decide
  have e33 : ((Binary64.finite false 4503599627370496 (-52)) - (Binary64.finite false 5192296858529757 (-133)) : Binary64) =
      (Binary64.finite false 4503599627370496 (-52)) := by decide
  simp only [rSquared64, rSquaredLoop64, mean64, List.foldl_cons, List.foldl_nil, List.length_cons,
    List.length_nil,
    e0, e1, e2, e3, e4, e5, e6, e7, e8, e9, e10, e11, e12, e13, e14, e15, e16, e17, e18,
    e19, e20, e21, e22, e23, e24, e25, e26, e27, e28, e29, e30, e31, e32, e33]

set_option maxRecDepth 10000 in
/-- Evaluation of `residualStandardError` in binary64 on the same input: the residuals are
`0`, `0`, `2^-10`, `ssRes = 2^-20` and the result is `2^-10`. -/
theorem residualStandardError64_rounds_to_one :
    residualStandardError64 [Binary64.ofNat 1, Binary64.ofNat 2, Binary64.ofNat 3]
      [Binary64.ofNat 1000000000, Binary64.ofNat 2000000000,
        (Binary64.finite false 6291456000002048 (-21))]
      (Binary64.ofNat 1000000000) (Binary64.ofNat 0) =
      .ok (Binary64.finite false 4503599627370496 (-62)) := by
  have e0 : Binary64.ofNat 1 = (Binary64.finite false 4503599627370496 (-52)) := by decide
  have e1 : Binary64.ofNat 2 = (Binary64.finite false 4503599627370496 (-51)) := by decide
  have e2 : Binary64.ofNat 3 = (Binary64.finite false 6755399441055744 (-51)) := by decide
  have e3 : Binary64.ofNat 1000000000 =
      (Binary64.finite false 8388608000000000 (-23)) := by decide
  have e4 : Binary64.ofNat 2000000000 =
      (Binary64.finite false 8388608000000000 (-22)) := by decide
  have e5 : Binary64.ofNat 0 = (Binary64.finite false 0 0) := by decide
  have e6 : ((Binary64.finite false 8388608000000000 (-23)) * (Binary64.finite false 4503599627370496 (-52)) : Binary64) =
      (Binary64.finite false 8388608000000000 (-23)) := by decide
  have e7 : ((Binary64.finite false 8388608000000000 (-23)) + (Binary64.finite false 0 0) : Binary64) =
      (Binary64.finite false 8388608000000000 (-23)) := by decide
  have e8 : ((Binary64.finite false 8388608000000000 (-23)) - (Binary64.finite false 8388608000000000 (-23)) : Binary64) =
      (Binary64.finite false 0 0) := by decide
  have e9 : Binary64.pow2 (Binary64.finite false 0 0) = (Binary64.finite false 0 0) := by decide
  have e10 : ((Binary64.finite false 0 0) + (Binary64.finite false 0 0) : Binary64) =
      (Binary64.finite false 0 0) := by decide
  have e11 : ((Binary64.finite false 8388608000000000 (-23)) * (Binary64.finite false 4503599627370496 (-51)) : Binary64) =
      (Binary64.finite false 8388608000000000 (-22)) := by decide
  have e12 : ((Binary64.finite false 8388608000000000 (-22)) + (Binary64.finite false 0 0) : Binary64) =
      (Binary64.finite false 8388608000000000 (-22)) := by decide
  have e13 : ((Binary64.finite false 8388608000000000 (-22)) - (Binary64.finite false 8388608000000000 (-22)) : Binary64) =
      (Binary64.finite false 0 0) := by decide
  have e14 : ((Binary64.finite false 8388608000000000 (-23)) * (Binary64.finite false 6755399441055744 (-51)) : Binary64) =
      (Binary64.finite false 6291456000000000 (-21)) := by decide
  have e15 : ((Binary64.finite false 6291456000000000 (-21)) + (Binary64.finite false 0 0) : Binary64) =
      (Binary64.finite false 6291456000000000 (-21)) := by decide
  have e16 : ((Binary64.finite false 6291456000002048 (-21)) - (Binary64.finite false 6291456000000000 (-21)) : Binary64) =
      (Binary64.finite false 4503599627370496 (-62)) := by decide
  have e17 : Binary64.pow2 (Binary64.finite false 4503599627370496 (-62)) =
      (Binary64.finite false 4503599627370496 (-72)) := by decide
  have e18 : ((Binary64.finite false 0 0) + (Binary64.finite false 4503599627370496 (-72)) : Binary64) =
      (Binary64.finite false 4503599627370496 (-72)) := by decide
  have e19 : ((Binary64.finite false 6755399441055744 (-51)) - (Binary64.finite false 4503599627370496 (-51)) : Binary64) =
      (Binary64.finite false 4503599627370496 (-52)) := by decide
  have e20 : ((Binary64.finite false 4503599627370496 (-72)) / (Binary64.finite false 4503599627370496 (-52)) : Binary64) =
      (Binary64.finite false 4503599627370496 (-72)) := by decide
  have e21 : Binary64.sqrt (Binary64.finite false 4503599627370496 (-72)) =
      (Binary64.finite false 4503599627370496 (-62)) := by decide
  simp only [residualStandardError64, residualStandardErrorLoop64, List.length_cons,
    List.length_nil,
    e0, e1, e2, e3, e4, e5, e6, e7, e8, e9, e10, e11, e12, e13, e14, e15, e16, e17, e18,
    e19, e20, e21]

set_option maxRecDepth 10000 in
/-- Evaluation of `linearRegression` in binary64 on the test data `x = [1, 2, 3, 4, 5]`,
`y = [3, 5, 7, 9, 11]`: the result is exactly slope `2` and intercept `1`. -/
theorem linearRegression64_test_line :
    linearRegression64 [Binary64.ofNat 1, Binary64.ofNat 2, Binary64.ofNat 3, Binary64.ofNat 4,
      Binary64.ofNat 5]
      [Binary64.ofNat 3, Binary64.ofNat 5, Binary64.ofNat 7, Binary64.ofNat 9, Binary64.ofNat 11] =
      .ok (Binary64.ofNat 2, Binary64.ofNat 1) := by
  have e0 : Binary64.ofNat 1 = (Binary64.finite false 4503599627370496 (-52)) := by decide
  have e1 : Binary64.ofNat 2 = (Binary64.finite false 4503599627370496 (-51)) := by decide
  have e2 : Binary64.ofNat 3 = (Binary64.finite false 6755399441055744 (-51)) := by decide
  have e3 : Binary64.ofNat 4 = (Binary64.finite false 4503599627370496 (-50)) := by decide
  have e4 : Binary64.ofNat 5 = (Binary64.finite false 5629499534213120 (-50)) := by decide
  have e5 : Binary64.ofNat 7 = (Binary64.finite false 7881299347898368 (-50)) := by decide
  have e6 : Binary64.ofNat 9 = (Binary64.finite false 5066549580791808 (-49)) := by decide
  have e7 : Binary64.ofNat 11 = (Binary64.finite false 6192449487634432 (-49)) := by decide
  have e8 : Binary64.ofNat 0 = (Binary64.finite false 0 0) := by decide
  have e9 : ((Binary64.finite false 0 0) + (Binary64.finite false 4503599627370496 (-52)) : Binary64) =
      (Binary64.finite false 4503599627370496 (-52)) := by decide
  have e10 : ((Binary64.finite false 0 0) + (Binary64.finite false 6755399441055744 (-51)) : Binary64) =
      (Binary64.finite false 6755399441055744 (-51)) := by decide
  have e11 : ((Binary64.finite false 4503599627370496 (-52)) * (Binary64.finite false 6755399441055744 (-51)) : Binary64) =
      (Binary64.finite false 6755399441055744 (-51)) := by decide
  have e12 : ((Binary64.finite false 4503599627370496 (-52)) * (Binary64.finite false 4503599627370496 (-52)) : Binary64) =
      (Binary64.finite false 4503599627370496 (-52)) := by decide
  have e13 : ((Binary64.finite false 4503599627370496 (-52)) + (Binary64.finite false 4503599627370496 (-51)) : Binary64) =
      (Binary64.finite false 6755399441055744 (-51)) := by decide
  have e14 : ((Binary64.finite false 6755399441055744 (-51)) + (Binary64.finite false 5629499534213120 (-50)) : Binary64) =
      (Binary64.finite false 4503599627370496 (-49)) := by decide
  have e15 : ((Binary64.finite false 4503599627370496 (-51)) * (Binary64.finite false 5629499534213120 (-50)) : Binary64) =
      (Binary64.finite false 5629499534213120 (-49)) := by decide
  have e16 : ((Binary64.finite false 6755399441055744 (-51)) + (Binary64.finite false 5629499534213120 (-49)) : Binary64) =
      (Binary64.finite false 7318349394477056 (-49)) := by decide
  have e17 : ((Binary64.finite false 4503599627370496 (-51)) * (Binary64.finite false 4503599627370496 (-51)) : Binary64) =
      (Binary64.finite false 4503599627370496 (-50)) := by decide
  have e18 : ((Binary64.finite false 4503599627370496 (-52)) + (Binary64.finite false 4503599627370496 (-50)) : Binary64) =
      (Binary64.finite false 5629499534213120 (-50)) := by decide
  have e19 : ((Binary64.finite false 6755399441055744 (-51)) + (Binary64.finite false 6755399441055744 (-51)) : Binary64) =
      (Binary64.finite false 6755399441055744 (-50)) := by decide
  have e20 : ((Binary64.finite false 4503599627370496 (-49)) + (Binary64.finite false 7881299347898368 (-50)) : Binary64) =
      (Binary64.finite false 8444249301319680 (-49)) := by decide
  have e21 : ((Binary64.finite false 6755399441055744 (-51)) * (Binary64.finite false 7881299347898368 (-50)) : Binary64) =
      (Binary64.finite false 5910974510923776 (-48)) := by decide
  have e22 : ((Binary64.finite false 7318349394477056 (-49)) + (Binary64.finite false 5910974510923776 (-48)) : Binary64) =
      (Binary64.finite false 4785074604081152 (-47)) := by decide
  have e23 : ((Binary64.finite false 6755399441055744 (-51)) * (Binary64.finite false 6755399441055744 (-51)) : Binary64) =
      (Binary64.finite false 5066549580791808 (-49)) := by decide
  have e24 : ((Binary64.finite false 5629499534213120 (-50)) + (Binary64.finite false 5066549580791808 (-49)) : Binary64) =
      (Binary64.finite false 7881299347898368 (-49)) := by decide
  have e25 : ((Binary64.finite false 6755399441055744 (-50)) + (Binary64.finite false 4503599627370496 (-50)) : Binary64) =
      (Binary64.finite false 5629499534213120 (-49)) := by decide
  have e26 : ((Binary64.finite false 8444249301319680 (-49)) + (Binary64.finite false 5066549580791808 (-49)) : Binary64) =
      (Binary64.finite false 6755399441055744 (-48)) := by decide
  have e27 : ((Binary64.finite false 4503599627370496 (-50)) * (Binary64.finite false 5066549580791808 (-49)) : Binary64) =
      (Binary64.finite false 5066549580791808 (-47)) := by decide
  have e28 : ((Binary64.finite false 4785074604081152 (-47)) + (Binary64.finite false 5066549580791808 (-47)) : Binary64) =
      (Binary64.finite false 4925812092436480 (-46)) := by decide
  have e29 : ((Binary64.finite false 4503599627370496 (-50)) * (Binary64.finite false 4503599627370496 (-50)) : Binary64) =
      (Binary64.finite false 4503599627370496 (-48)) := by decide
  have e30 : ((Binary64.finite false 7881299347898368 (-49)) + (Binary64.finite false 4503599627370496 (-48)) : Binary64) =
      (Binary64.finite false 8444249301319680 (-48)) := by decide
  have e31 : ((Binary64.finite false 5629499534213120 (-49)) + (Binary64.finite false 5629499534213120 (-50)) : Binary64) =
      (Binary64.finite false 8444249301319680 (-49)) := by decide
  have e32 : ((Binary64.finite false 6755399441055744 (-48)) + (Binary64.finite false 6192449487634432 (-49)) : Binary64) =
      (Binary64.finite false 4925812092436480 (-47)) := by decide
  have e33 : ((Binary64.finite false 5629499534213120 (-50)) * (Binary64.finite false 6192449487634432 (-49)) : Binary64) =
      (Binary64.finite false 7740561859543040 (-47)) := by decide
  have e34 : ((Binary64.finite false 4925812092436480 (-46)) + (Binary64.finite false 7740561859543040 (-47)) : Binary64) =
      (Binary64.finite false 8796093022208000 (-46)) := by decide
  have e35 : ((Binary64.finite false 5629499534213120 (-50)) * (Binary64.finite false 5629499534213120 (-50)) : Binary64) =
      (Binary64.finite false 7036874417766400 (-48)) := by decide
  have e36 : ((Binary64.finite false 8444249301319680 (-48)) + (Binary64.finite false 7036874417766400 (-48)) : Binary64) =
      (Binary64.finite false 7740561859543040 (-47)) := by decide
  have e37 : ((Binary64.finite false 8444249301319680 (-49)) / (Binary64.finite false 5629499534213120 (-50)) : Binary64) =
      (Binary64.finite false 6755399441055744 (-51)) := by decide
  have e38 : ((Binary64.finite false 4925812092436480 (-47)) / (Binary64.finite false 5629499534213120 (-50)) : Binary64) =
      (Binary64.finite false 7881299347898368 (-50)) := by decide
  have e39 : ((Binary64.finite false 5629499534213120 (-50)) * (Binary64.finite false 6755399441055744 (-51)) : Binary64) =
      (Binary64.finite false 8444249301319680 (-49)) := by decide
  have e40 : ((Binary64.finite false 8444249301319680 (-49)) * (Binary64.finite false 7881299347898368 (-50)) : Binary64) =
      (Binary64.finite false 7388718138654720 (-46)) := by decide
  have e41 : ((Binary64.finite false 8796093022208000 (-46)) - (Binary64.finite false 7388718138654720 (-46)) : Binary64) =
      (Binary64.finite false 5629499534213120 (-48)) := by decide
  have e42 : ((Binary64.finite false 8444249301319680 (-49)) * (Binary64.finite false 6755399441055744 (-51)) : Binary64) =
      (Binary64.finite false 6333186975989760 (-47)) := by decide
  have e43 : ((Binary64.finite false 7740561859543040 (-47)) - (Binary64.finite false 6333186975989760 (-47)) : Binary64) =
      (Binary64.finite false 5629499534213120 (-49)) := by decide
  have e44 : ((Binary64.finite false 5629499534213120 (-48)) / (Binary64.finite false 5629499534213120 (-49)) : Binary64) =
      (Binary64.finite false 4503599627370496 (-51)) := by decide
  have e45 : ((Binary64.finite false 4503599627370496 (-51)) * (Binary64.finite false 6755399441055744 (-51)) : Binary64) =
      (Binary64.finite false 6755399441055744 (-50)) := by decide
  have e46 : ((Binary64.finite false 7881299347898368 (-50)) - (Binary64.finite false 6755399441055744 (-50)) : Binary64) =
      (Binary64.finite false 4503599627370496 (-52)) := by decide
  simp only [linearRegression64, linearRegressionLoop64, List.length_cons, List.length_nil,
    e0, e1, e2, e3, e4, e5, e6, e7, e8, e9, e10, e11, e12, e13, e14, e15, e16, e17, e18,
    e19, e20, e21, e22, e23, e24, e25, e26, e27, e28, e29, e30, e31, e32, e33, e34, e35,
    e36, e37, e38, e39, e40, e41, e42, e43, e44, e45, e46]

set_option maxRecDepth 10000 in
/-- Evaluation of `rSquared` in binary64 on the test data with the fit `(2, 1)`: the result
is exactly `1`. -/
theorem rSquared64_test_line :
    rSquared64 [Binary64.ofNat 1, Binary64.ofNat 2, Binary64.ofNat 3, Binary64.ofNat 4,
      Binary64.ofNat 5]
      [Binary64.ofNat 3, Binary64.ofNat 5, Binary64.ofNat 7, Binary64.ofNat 9, Binary64.ofNat 11]
      (Binary64.ofNat 2) (Binary64.ofNat 1) = .ok (Binary64.ofNat 1) := by
  have e0 : Binary64.ofNat 1 = (Binary64.finite false 4503599627370496 (-52)) := by decide
  have e1 : Binary64.ofNat 2 = (Binary64.finite false 4503599627370496 (-51)) := by decide
  have e2 : Binary64.ofNat 3 = (Binary64.finite false 6755399441055744 (-51)) := by decide
  have e3 : Binary64.ofNat 4 = (Binary64.finite false 4503599627370496 (-50)) := by decide
  have e4 : Binary64.ofNat 5 = (Binary64.finite false 5629499534213120 (-50)) := by decide
  have e5 : Binary64.ofNat 7 = (Binary64.finite false 7881299347898368 (-50)) := by decide
  have e6 : Binary64.ofNat 9 = (Binary64.finite false 5066549580791808 (-49)) := by decide
  have e7 : Binary64.ofNat 11 = (Binary64.finite false 6192449487634432 (-49)) := by decide
  have e8 : Binary64.ofNat 0 = (Binary64.finite false 0 0) := by decide
  have e9 : ((Binary64.finite false 0 0) + (Binary64.finite false 6755399441055744 (-51)) : Binary64) =
      (Binary64.finite false 6755399441055744 (-51)) := by decide
  have e10 : ((Binary64.finite false 6755399441055744 (-51)) + (Binary64.finite false 5629499534213120 (-50)) : Binary64) =
      (Binary64.finite false 4503599627370496 (-49)) := by decide
  have e11 : ((Binary64.finite false 4503599627370496 (-49)) + (Binary64.finite false 7881299347898368 (-50)) : Binary64) =
      (Binary64.finite false 8444249301319680 (-49)) := by decide
  have e12 : ((Binary64.finite false 8444249301319680 (-49)) + (Binary64.finite false 5066549580791808 (-49)) : Binary64) =
      (Binary64.finite false 6755399441055744 (-48)) := by decide
  have e13 : ((Binary64.finite false 6755399441055744 (-48)) + (Binary64.finite false 6192449487634432 (-49)) : Binary64) =
      (Binary64.finite false 4925812092436480 (-47)) := by decide
  have e14 : ((Binary64.finite false 4925812092436480 (-47)) / (Binary64.finite false 5629499534213120 (-50)) : Binary64) =
      (Binary64.finite false 7881299347898368 (-50)) := by decide
  have e15 : ((Binary64.finite false 4503599627370496 (-51)) * (Binary64.finite false 4503599627370496 (-52)) : Binary64) =
      (Binary64.finite false 4503599627370496 (-51)) := by decide
  have e16 : ((Binary64.finite false 4503599627370496 (-51)) + (Binary64.finite false 4503599627370496 (-52)) : Binary64) =
      (Binary64.finite false 6755399441055744 (-51)) := by decide
  have e17 : ((Binary64.finite false 6755399441055744 (-51)) - (Binary64.finite false 7881299347898368 (-50)) : Binary64) =
      (Binary64.finite true 4503599627370496 (-50)) := by decide
  have e18 : ((Binary64.finite true 4503599627370496 (-50)) * (Binary64.finite true 4503599627370496 (-50)) : Binary64) =
      (Binary64.finite false 4503599627370496 (-48)) := by decide
  have e19 : ((Binary64.finite false 0 0) + (Binary64.finite false 4503599627370496 (-48)) : Binary64) =
      (Binary64.finite false 4503599627370496 (-48)) := by decide
  have e20 : ((Binary64.finite false 6755399441055744 (-51)) - (Binary64.finite false 6755399441055744 (-51)) : Binary64) =
      (Binary64.finite false 0 0) := by decide
  have e21 : ((Binary64.finite false 0 0) * (Binary64.finite false 0 0) : Binary64) =
      (Binary64.finite false 0 0) := by decide
  have e22 : ((Binary64.finite false 0 0) + (Binary64.finite false 0 0) : Binary64) =
      (Binary64.finite false 0 0) := by decide
  have e23 : ((Binary64.finite false 4503599627370496 (-51)) * (Binary64.finite false 4503599627370496 (-51)) : Binary64) =
      (Binary64.finite false 4503599627370496 (-50)) := by decide
  have e24 : ((Binary64.finite false 4503599627370496 (-50)) + (Binary64.finite false 4503599627370496 (-52)) : Binary64) =
      (Binary64.finite false 5629499534213120 (-50)) := by decide
  have e25 : ((Binary64.finite false 5629499534213120 (-50)) - (Binary64.finite false 7881299347898368 (-50)) : Binary64) =
      (Binary64.finite true 4503599627370496 (-51)) := by decide
  have e26 : ((Binary64.finite true 4503599627370496 (-51)) * (Binary64.finite true 4503599627370496 (-51)) : Binary64) =
      (Binary64.finite false 4503599627370496 (-50)) := by decide
  have e27 : ((Binary64.finite false 4503599627370496 (-48)) + (Binary64.finite false 4503599627370496 (-50)) : Binary64) =
      (Binary64.finite false 5629499534213120 (-48)) := by decide
  have e28 : ((Binary64.finite false 5629499534213120 (-50)) - (Binary64.finite false 5629499534213120 (-50)) : Binary64) =
      (Binary64.finite false 0 0) := by decide
  have e29 : ((Binary64.finite false 4503599627370496 (-51)) * (Binary64.finite false 6755399441055744 (-51)) : Binary64) =
      (Binary64.finite false 6755399441055744 (-50)) := by decide
  have e30 : ((Binary64.finite false 6755399441055744 (-50)) + (Binary64.finite false 4503599627370496 (-52)) : Binary64) =
      (Binary64.finite false 7881299347898368 (-50)) := by decide
  have e31 : ((Binary64.finite false 7881299347898368 (-50)) - (Binary64.finite false 7881299347898368 (-50)) : Binary64) =
      (Binary64.finite false 0 0) := by decide
  have e32 : ((Binary64.finite false 5629499534213120 (-48)) + (Binary64.finite false 0 0) : Binary64) =
      (Binary64.finite false 5629499534213120 (-48)) := by decide
  have e33 : ((Binary64.finite false 4503599627370496 (-51)) * (Binary64.finite false 4503599627370496 (-50)) : Binary64) =
      (Binary64.finite false 4503599627370496 (-49)) := by decide
  have e34 : ((Binary64.finite false 4503599627370496 (-49)) + (Binary64.finite false 4503599627370496 (-52)) : Binary64) =
      (Binary64.finite false 5066549580791808 (-49)) := by decide
  have e35 : ((Binary64.finite false 5066549580791808 (-49)) - (Binary64.finite false 7881299347898368 (-50)) : Binary64) =
      (Binary64.finite false 4503599627370496 (-51)) := by decide
  have e36 : ((Binary64.finite false 5629499534213120 (-48)) + (Binary64.finite false 4503599627370496 (-50)) : Binary64) =
      (Binary64.finite false 6755399441055744 (-48)) := by decide
  have e37 : ((Binary64.finite false 5066549580791808 (-49)) - (Binary64.finite false 5066549580791808 (-49)) : Binary64) =
      (Binary64.finite false 0 0) := by decide
  have e38 : ((Binary64.finite false 4503599627370496 (-51)) * (Binary64.finite false 5629499534213120 (-50)) : Binary64) =
      (Binary64.finite false 5629499534213120 (-49)) := by decide
  have e39 : ((Binary64.finite false 5629499534213120 (-49)) + (Binary64.finite false 4503599627370496 (-52)) : Binary64) =
      (Binary64.finite false 6192449487634432 (-49)) := by decide
  have e40 : ((Binary64.finite false 6192449487634432 (-49)) - (Binary64.finite false 7881299347898368 (-50)) : Binary64) =
      (Binary64.finite false 4503599627370496 (-50)) := by decide
  have e41 : ((Binary64.finite false 4503599627370496 (-50)) * (Binary64.finite false 4503599627370496 (-50)) : Binary64) =
      (Binary64.finite false 4503599627370496 (-48)) := by decide
  have e42 : ((Binary64.finite false 6755399441055744 (-48)) + (Binary64.finite false 4503599627370496 (-48)) : Binary64) =
      (Binary64.finite false 5629499534213120 (-47)) := by decide
  have e43 : ((Binary64.finite false 6192449487634432 (-49)) - (Binary64.finite false 6192449487634432 (-49)) : Binary64) =
      (Binary64.finite false 0 0) := by decide
  have e44 : ((Binary64.finite false 0 0) / (Binary64.finite false 5629499534213120 (-47)) : Binary64) =
      (Binary64.finite false 0 0) := by decide
  have e45 : ((Binary64.finite false 4503599627370496 (-52)) - (Binary64.finite false 0 0) : Binary64) =
      (Binary64.finite false 4503599627370496 (-52)) := by decide
  simp only [rSquared64, rSquaredLoop64, mean64, List.foldl_cons, List.foldl_nil, List.length_cons,
    List.length_nil,
    e0, e1, e2, e3, e4, e5, e6, e7, e8, e9, e10, e11, e12, e13, e14, e15, e16, e17, e18,
    e19, e20, e21, e22, e23, e24, e25, e26, e27, e28, e29, e30, e31, e32, e33, e34, e35,
    e36, e37, e38, e39, e40, e41, e42, e43, e44, e45]

set_option maxRecDepth 10000 in
/-- Evaluation of `linearRegression` in binary64 on the constant `x = [0.1, 0.1, 0.1]`
(`0.1` is the rounded quotient `1/10`) and `y = [1, 2, 4]`: rounding leaves a non-zero
denominator and the result is slope `32` with a finite intercept, not `(NaN, NaN)`. -/
theorem linearRegression64_tenth :
    linearRegression64 [Binary64.ofNat 1 / Binary64.ofNat 10, Binary64.ofNat 1 / Binary64.ofNat 10,
        Binary64.ofNat 1 / Binary64.ofNat 10]
      [Binary64.ofNat 1, Binary64.ofNat 2, Binary64.ofNat 4] =
      .ok (Binary64.ofNat 32, (Binary64.finite true 7806239354108864 (-53))) := by
  have e0 : Binary64.ofNat 1 = (Binary64.finite false 4503599627370496 (-52)) := by decide
  have e1 : Binary64.ofNat 10 = (Binary64.finite false 5629499534213120 (-49)) := by decide
  have e2 : ((Binary64.finite false 4503599627370496 (-52)) / (Binary64.finite false 5629499534213120 (-49)) : Binary64) =
      (Binary64.finite false 7205759403792794 (-56)) := by decide
  have e3 : Binary64.ofNat 2 = (Binary64.finite false 4503599627370496 (-51)) := by decide
  have e4 : Binary64.ofNat 4 = (Binary64.finite false 4503599627370496 (-50)) := by decide
  have e5 : Binary64.ofNat 3 = (Binary64.finite false 6755399441055744 (-51)) := by decide
  have e6 : Binary64.ofNat 0 = (Binary64.finite false 0 0) := by decide
  have e7 : ((Binary64.finite false 0 0) + (Binary64.finite false 7205759403792794 (-56)) : Binary64) =
      (Binary64.finite false 7205759403792794 (-56)) := by decide
  have e8 : ((Binary64.finite false 0 0) + (Binary64.finite false 4503599627370496 (-52)) : Binary64) =
      (Binary64.finite false 4503599627370496 (-52)) := by decide
  have e9 : ((Binary64.finite false 7205759403792794 (-56)) * (Binary64.finite false 4503599627370496 (-52)) : Binary64) =
      (Binary64.finite false 7205759403792794 (-56)) := by decide
  have e10 : ((Binary64.finite false 7205759403792794 (-56)) * (Binary64.finite false 7205759403792794 (-56)) : Binary64) =
      (Binary64.finite false 5764607523034236 (-59)) := by decide
  have e11 : ((Binary64.finite false 0 0) + (Binary64.finite false 5764607523034236 (-59)) : Binary64) =
      (Binary64.finite false 5764607523034236 (-59)) := by decide
  have e12 : ((Binary64.finite false 7205759403792794 (-56)) + (Binary64.finite false 7205759403792794 (-56)) : Binary64) =
      (Binary64.finite false 7205759403792794 (-55)) := by decide
  have e13 : ((Binary64.finite false 4503599627370496 (-52)) + (Binary64.finite false 4503599627370496 (-51)) : Binary64) =
      (Binary64.finite false 6755399441055744 (-51)) := by decide
  have e14 : ((Binary64.finite false 7205759403792794 (-56)) * (Binary64.finite false 4503599627370496 (-51)) : Binary64) =
      (Binary64.finite false 7205759403792794 (-55)) := by decide
  have e15 : ((Binary64.finite false 7205759403792794 (-56)) + (Binary64.finite false 7205759403792794 (-55)) : Binary64) =
      (Binary64.finite false 5404319552844596 (-54)) := by decide
  have e16 : ((Binary64.finite false 5764607523034236 (-59)) + (Binary64.finite false 5764607523034236 (-59)) : Binary64) =
      (Binary64.finite false 5764607523034236 (-58)) := by decide
  have e17 : ((Binary64.finite false 7205759403792794 (-55)) + (Binary64.finite false 7205759403792794 (-56)) : Binary64) =
      (Binary64.finite false 5404319552844596 (-54)) := by decide
  have e18 : ((Binary64.finite false 6755399441055744 (-51)) + (Binary64.finite false 4503599627370496 (-50)) : Binary64) =
      (Binary64.finite false 7881299347898368 (-50)) := by decide
  have e19 : ((Binary64.finite false 7205759403792794 (-56)) * (Binary64.finite false 4503599627370496 (-50)) : Binary64) =
      (Binary64.finite false 7205759403792794 (-54)) := by decide
  have e20 : ((Binary64.finite false 5404319552844596 (-54)) + (Binary64.finite false 7205759403792794 (-54)) : Binary64) =
      (Binary64.finite false 6305039478318695 (-53)) := by decide
  have e21 : ((Binary64.finite false 5764607523034236 (-58)) + (Binary64.finite false 5764607523034236 (-59)) : Binary64) =
      (Binary64.finite false 8646911284551354 (-58)) := by decide
  have e22 : ((Binary64.finite false 5404319552844596 (-54)) / (Binary64.finite false 6755399441055744 (-51)) : Binary64) =
      (Binary64.finite false 7205759403792795 (-56)) := by decide
  have e23 : ((Binary64.finite false 7881299347898368 (-50)) / (Binary64.finite false 6755399441055744 (-51)) : Binary64) =
      (Binary64.finite false 5254199565265579 (-51)) := by decide
  have e24 : ((Binary64.finite false 6755399441055744 (-51)) * (Binary64.finite false 7205759403792795 (-56)) : Binary64) =
      (Binary64.finite false 5404319552844596 (-54)) := by decide
  have e25 : ((Binary64.finite false 5404319552844596 (-54)) * (Binary64.finite false 5254199565265579 (-51)) : Binary64) =
      (Binary64.finite false 6305039478318696 (-53)) := by decide
  have e26 : ((Binary64.finite false 6305039478318695 (-53)) - (Binary64.finite false 6305039478318696 (-53)) : Binary64) =
      (Binary64.finite true 4503599627370496 (-105)) := by decide
  have e27 : ((Binary64.finite false 5404319552844596 (-54)) * (Binary64.finite false 7205759403792795 (-56)) : Binary64) =
      (Binary64.finite false 8646911284551355 (-58)) := by decide
  have e28 : ((Binary64.finite false 8646911284551354 (-58)) - (Binary64.finite false 8646911284551355 (-58)) : Binary64) =
      (Binary64.finite true 4503599627370496 (-110)) := by decide
  have e29 : ((Binary64.finite true 4503599627370496 (-105)) / (Binary64.finite true 4503599627370496 (-110)) : Binary64) =
      (Binary64.finite false 4503599627370496 (-47)) := by decide
  have e30 : ((Binary64.finite false 4503599627370496 (-47)) * (Binary64.finite false 7205759403792795 (-56)) : Binary64) =
      (Binary64.finite false 7205759403792795 (-51)) := by decide
  have e31 : ((Binary64.finite false 5254199565265579 (-51)) - (Binary64.finite false 7205759403792795 (-51)) : Binary64) =
      (Binary64.finite true 7806239354108864 (-53)) := by decide
  have e32 : Binary64.ofNat 32 = (Binary64.finite false 4503599627370496 (-47)) := by decide
  simp only [linearRegression64, linearRegressionLoop64, List.length_cons, List.length_nil,
    e0, e1, e2, e3, e4, e5, e6, e7, e8, e9, e10, e11, e12, e13, e14, e15, e16, e17, e18,
    e19, e20, e21, e22, e23, e24, e25, e26, e27, e28, e29, e30, e31, e32]

set_option maxRecDepth 10000 in
/-- Evaluation of `rSquared` in binary64 on `x = [1, 2, 3]` and the constant
`y = [0.1, 0.1, 0.1]` with slope `0` and intercept `0.1`: the rounded mean differs from
`0.1`, `ssTot` is not zero and the result is `1`, not `NaN`. -/
theorem rSquared64_tenth :
    rSquared64 [Binary64.ofNat 1, Binary64.ofNat 2, Binary64.ofNat 3]
      [Binary64.ofNat 1 / Binary64.ofNat 10, Binary64.ofNat 1 / Binary64.ofNat 10,
        Binary64.ofNat 1 / Binary64.ofNat 10]
      (Binary64.ofNat 0) (Binary64.ofNat 1 / Binary64.ofNat 10) = .ok (Binary64.ofNat 1) := by
  have e0 : Binary64.ofNat 1 = (Binary64.finite false 4503599627370496 (-52)) := by decide
  have e1 : Binary64.ofNat 10 = (Binary64.finite false 5629499534213120 (-49)) := by decide
  have e2 : ((Binary64.finite false 4503599627370496 (-52)) / (Binary64.finite false 5629499534213120 (-49)) : Binary64) =
      (Binary64.finite false 7205759403792794 (-56)) := by decide
  have e3 : Binary64.ofNat 2 = (Binary64.finite false 4503599627370496 (-51)) := by decide
  have e4 : Binary64.ofNat 3 = (Binary64.finite false 6755399441055744 (-51)) := by decide
  have e5 : Binary64.ofNat 0 = (Binary64.finite false 0 0) := by decide
  have e6 : ((Binary64.finite false 0 0) + (Binary64.finite false 7205759403792794 (-56)) : Binary64) =
      (Binary64.finite false 7205759403792794 (-56)) := by decide
  have e7 : ((Binary64.finite false 7205759403792794 (-56)) + (Binary64.finite false 7205759403792794 (-56)) : Binary64) =
      (Binary64.finite false 7205759403792794 (-55)) := by decide
  have e8 : ((Binary64.finite false 7205759403792794 (-55)) + (Binary64.finite false 7205759403792794 (-56)) : Binary64) =
      (Binary64.finite false 5404319552844596 (-54)) := by decide
  have e9 : ((Binary64.finite false 5404319552844596 (-54)) / (Binary64.finite false 6755399441055744 (-51)) : Binary64) =
      (Binary64.finite false 7205759403792795 (-56)) := by decide
  have e10 : ((Binary64.finite false 0 0) * (Binary64.finite false 4503599627370496 (-52)) : Binary64) =
      (Binary64.finite false 0 0) := by decide
  have e11 : ((Binary64.finite false 7205759403792794 (-56)) - (Binary64.finite false 7205759403792795 (-56)) : Binary64) =
      (Binary64.finite true 4503599627370496 (-108)) := by decide
  have e12 : ((Binary64.finite true 4503599627370496 (-108)) * (Binary64.finite true 4503599627370496 (-108)) : Binary64) =
      (Binary64.finite false 4503599627370496 (-164)) := by decide
  have e13 : ((Binary64.finite false 0 0) + (Binary64.finite false 4503599627370496 (-164)) : Binary64) =
      (Binary64.finite false 4503599627370496 (-164)) := by decide
  have e14 : ((Binary64.finite false 7205759403792794 (-56)) - (Binary64.finite false 7205759403792794 (-56)) : Binary64) =
      (Binary64.finite false 0 0) := by decide
  have e15 : ((Binary64.finite false 0 0) * (Binary64.finite false 0 0) : Binary64) =
      (Binary64.finite false 0 0) := by decide
  have e16 : ((Binary64.finite false 0 0) + (Binary64.finite false 0 0) : Binary64) =
      (Binary64.finite false 0 0) := by decide
  have e17 : ((Binary64.finite false 0 0) * (Binary64.finite false 4503599627370496 (-51)) : Binary64) =
      (Binary64.finite false 0 0) := by decide
  have e18 : ((Binary64.finite false 4503599627370496 (-164)) + (Binary64.finite false 4503599627370496 (-164)) : Binary64) =
      (Binary64.finite false 4503599627370496 (-163)) := by decide
  have e19 : ((Binary64.finite false 0 0) * (Binary64.finite false 6755399441055744 (-51)) : Binary64) =
      (Binary64.finite false 0 0) := by decide
  have e20 : ((Binary64.finite false 4503599627370496 (-163)) + (Binary64.finite false 4503599627370496 (-164)) : Binary64) =
      (Binary64.finite false 6755399441055744 (-163)) := by decide
  have e21 : ((Binary64.finite false 0 0) / (Binary64.finite false 6755399441055744 (-163)) : Binary64) =
      (Binary64.finite false 0 0) := by decide
  have e22 : ((Binary64.finite false 4503599627370496 (-52)) - (Binary64.finite false 0 0) : Binary64) =
      (Binary64.finite false 4503599627370496 (-52)) := by decide
  simp only [rSquared64, rSquaredLoop64, mean64, List.foldl_cons, List.foldl_nil, List.length_cons,
    List.length_nil,
    e0, e1, e2, e3, e4, e5, e6, e7, e8, e9, e10, e11, e12, e13, e14, e15, e16, e17, e18,
    e19, e20, e21, e22]

/-- Evaluation of `fStatistic` in binary64 at `r2 = 1`, `n = 3`. -/
theorem fStatistic64_one : fStatistic64 (Binary64.ofNat 1) 3 = Binary64.inf false := by
  decide

/-! ## Claims refuted by rounding -/

/-- C2, counterexample: (1) the three samples `(1, 3)` lie on the line `y = 2*x + 1`
(`n = 3`, slope `2`), yet `linearRegression` returns `(NaN, NaN)`; (2) in binary64 the
samples `x = [50000001, 50000002, 50000003]`, `y = 2*x + 1` (all exactly representable,
`x` not constant) give slope `1` and intercept `50000003`, not within `1e-6` of
`(2, 1)`. -/
theorem linearRegression_exact_line_counterexample :
    (3 ≤ ([1, 1, 1] : List ℚ).length ∧ (2 : ℚ) ≠ 0 ∧
      ([3, 3, 3] : List ℚ) = ([1, 1, 1] : List ℚ).map (fun x => 2 * x + 1) ∧
      linearRegression (([1, 1, 1] : List ℚ).map fin) (([3, 3, 3] : List ℚ).map fin) =
        .ok (nan, nan) ∧
      ¬ ∃ slope intercept : ℚ,
        linearRegression (([1, 1, 1] : List ℚ).map fin) (([3, 3, 3] : List ℚ).map fin) =
          .ok (fin slope, fin intercept) ∧
        |slope - 2| ≤ 1 / 10 ^ 6 ∧ |intercept - 1| ≤ 1 / 10 ^ 6) ∧
    (3 ≤ ([50000001, 50000002, 50000003] : List ℚ).length ∧ (2 : ℚ) ≠ 0 ∧
      ([100000003, 100000005, 100000007] : List ℚ) =
        ([50000001, 50000002, 50000003] : List ℚ).map (fun x => 2 * x + 1) ∧
      [Binary64.ofNat 50000001, Binary64.ofNat 50000002, Binary64.ofNat 50000003,
        Binary64.ofNat 100000003, Binary64.ofNat 100000005, Binary64.ofNat 100000007,
        Binary64.ofNat 1, Binary64.ofNat 50000003].map Binary64.toRat =
        [some 50000001, some 50000002, some 50000003, some 100000003, some 100000005,
          some 100000007,
          some 1, some 50000003] ∧
      linearRegression64 [Binary64.ofNat 50000001, Binary64.ofNat 50000002, Binary64.ofNat 50000003]
        [Binary64.ofNat 100000003, Binary64.ofNat 100000005, Binary64.ofNat 100000007] =
        .ok (Binary64.ofNat 1, Binary64.ofNat 50000003) ∧
      ¬ |(1 : ℚ) - 2| ≤ 1 / 10 ^ 6 ∧ ¬ |(50000003 : ℚ) - 1| ≤ 1 / 10 ^ 6) := by
  refine ⟨⟨by decide, by norm_num, by norm_num, linearRegression_const_x_eval 1 3 3 3, ?_⟩,
    by decide, by norm_num, by norm_num, ?_, linearRegression64_large_x, ?_, ?_⟩
  · rintro ⟨s, i, h, -⟩
    rw [linearRegression_const_x_eval 1 3 3 3] at h
    simp at h
  · have e0 : Binary64.ofNat 50000001 = Binary64.finite false 6710886534217728 (-27) := by decide
    have e1 : Binary64.ofNat 50000002 = Binary64.finite false 6710886668435456 (-27) := by decide
    have e2 : Binary64.ofNat 50000003 = Binary64.finite false 6710886802653184 (-27) := by decide
    have e3 : Binary64.ofNat 100000003 = Binary64.finite false 6710886601326592 (-26) := by decide
    have e4 : Binary64.ofNat 100000005 = Binary64.finite false 6710886735544320 (-26) := by decide
    have e5 : Binary64.ofNat 100000007 = Binary64.finite false 6710886869762048 (-26) := by decide
    have e6 : Binary64.ofNat 1 = Binary64.finite false 4503599627370496 (-52) := by decide
    simp only [List.map_cons, List.map_nil, e0, e1, e2, e3, e4, e5, e6]
    simp [Binary64.toRat]
    norm_num
  · rw [abs_of_neg (by norm_num)]
    norm_num
  · rw [abs_of_pos (by norm_num)]
    norm_num

/-- C2, amended, witness: the theorem on the test data `x = [1, 2, 3, 4, 5]`,
`y = 2*x + 1 = [3, 5, 7, 9, 11]`; on this input the binary64 evaluation is exact too. -/
theorem linearRegression_exact_line_witness :
    ([1, 2, 3, 4, 5] : List ℚ).map (fun x => 2 * x + 1) = [3, 5, 7, 9, 11] ∧
    (∃ slope intercept : ℚ,
      linearRegression (([1, 2, 3, 4, 5] : List ℚ).map fin)
        ((([1, 2, 3, 4, 5] : List ℚ).map (fun x => 2 * x + 1)).map fin) =
        .ok (fin slope, fin intercept) ∧
      slope = 2 ∧ intercept = 1 ∧
      |slope - 2| ≤ 1 / 10 ^ 6 ∧ |intercept - 1| ≤ 1 / 10 ^ 6) ∧
    linearRegression64 [Binary64.ofNat 1, Binary64.ofNat 2, Binary64.ofNat 3, Binary64.ofNat 4,
      Binary64.ofNat 5]
      [Binary64.ofNat 3, Binary64.ofNat 5, Binary64.ofNat 7, Binary64.ofNat 9, Binary64.ofNat 11] =
      .ok (Binary64.ofNat 2, Binary64.ofNat 1) :=
  ⟨by norm_num,
    linearRegression_exact_line [1, 2, 3, 4, 5] 2 1 (by decide) (by norm_num)
      ⟨1, by simp, 2, by simp, by norm_num⟩,
    linearRegression64_test_line⟩

/-- C3, counterexample: (1) on the three samples `(1, 3)` of the line `y = 2*x + 1`,
`linearRegression` returns `(NaN, NaN)` and `rSquared` of that fit is `NaN`; (2) in
binary64, on `x = [50000001, 50000002, 50000003]`, `y = 2*x + 1` (`x` not constant) the
fit is `(1, 50000003)` and `rSquared` of it is `3/4`, not within `1e-6` of `1`. -/
theorem rSquared_perfect_fit_counterexample :
    (3 ≤ ([1, 1, 1] : List ℚ).length ∧ (2 : ℚ) ≠ 0 ∧
      ([3, 3, 3] : List ℚ) = ([1, 1, 1] : List ℚ).map (fun x => 2 * x + 1) ∧
      linearRegression (([1, 1, 1] : List ℚ).map fin) (([3, 3, 3] : List ℚ).map fin) =
        .ok (nan, nan) ∧
      rSquared (([1, 1, 1] : List ℚ).map fin) (([3, 3, 3] : List ℚ).map fin) nan nan =
        .ok nan ∧
      ¬ ∃ r2 : ℚ,
        rSquared (([1, 1, 1] : List ℚ).map fin) (([3, 3, 3] : List ℚ).map fin) nan nan =
          .ok (fin r2) ∧ |r2 - 1| ≤ 1 / 10 ^ 6) ∧
    (3 ≤ ([50000001, 50000002, 50000003] : List ℚ).length ∧ (2 : ℚ) ≠ 0 ∧
      ([100000003, 100000005, 100000007] : List ℚ) =
        ([50000001, 50000002, 50000003] : List ℚ).map (fun x => 2 * x + 1) ∧
      [Binary64.ofNat 50000001, Binary64.ofNat 50000002, Binary64.ofNat 50000003,
        Binary64.ofNat 100000003, Binary64.ofNat 100000005,
        Binary64.ofNat 100000007].map Binary64.toRat =
        [some 50000001, some 50000002, some 50000003, some 100000003, some 100000005,
          some 100000007] ∧
      linearRegression64 [Binary64.ofNat 50000001, Binary64.ofNat 50000002, Binary64.ofNat 50000003]
        [Binary64.ofNat 100000003, Binary64.ofNat 100000005, Binary64.ofNat 100000007] =
        .ok (Binary64.ofNat 1, Binary64.ofNat 50000003) ∧
      rSquared64 [Binary64.ofNat 50000001, Binary64.ofNat 50000002, Binary64.ofNat 50000003]
        [Binary64.ofNat 100000003, Binary64.ofNat 100000005, Binary64.ofNat 100000007]
        (Binary64.ofNat 1) (Binary64.ofNat 50000003) =
        .ok (Binary64.finite false 6755399441055744 (-53)) ∧
      Binary64.toRat (Binary64.finite false 6755399441055744 (-53)) = some (3 / 4) ∧
      ¬ |(3 / 4 : ℚ) - 1| ≤ 1 / 10 ^ 6) := by
  refine ⟨⟨by decide, by norm_num, by norm_num, linearRegression_const_x_eval 1 3 3 3,
    rSquared_nan_eval 1 1 1 3, ?_⟩,
    by decide, by norm_num, by norm_num, ?_, linearRegression64_large_x,
    rSquared64_large_x, ?_, ?_⟩
  · rintro ⟨r, h, -⟩
    rw [rSquared_nan_eval 1 1 1 3] at h
    simp at h
  · have e0 : Binary64.ofNat 50000001 = Binary64.finite false 6710886534217728 (-27) := by decide
    have e1 : Binary64.ofNat 50000002 = Binary64.finite false 6710886668435456 (-27) := by decide
    have e2 : Binary64.ofNat 50000003 = Binary64.finite false 6710886802653184 (-27) := by decide
    have e3 : Binary64.ofNat 100000003 = Binary64.finite false 6710886601326592 (-26) := by decide
    have e4 : Binary64.ofNat 100000005 = Binary64.finite false 6710886735544320 (-26) := by decide
    have e5 : Binary64.ofNat 100000007 = Binary64.finite false 6710886869762048 (-26) := by decide
    simp only [List.map_cons, List.map_nil, e0, e1, e2, e3, e4, e5]
    simp [Binary64.toRat]
    norm_num
  · simp [Binary64.toRat]
    norm_num
  · rw [abs_of_neg (by norm_num)]
    norm_num

/-- C3, amended, witness: the theorem on the test data `x = [1, 2, 3, 4, 5]`,
`y = 2*x + 1 = [3, 5, 7, 9, 11]`; on this input the binary64 evaluation is exact too. -/
theorem rSquared_perfect_fit_witness :
    ([1, 2, 3, 4, 5] : List ℚ).map (fun x => 2 * x + 1) = [3, 5, 7, 9, 11] ∧
    (∃ (slope intercept : Float64 ℚ) (r2 : ℚ),
      linearRegression (([1, 2, 3, 4, 5] : List ℚ).map fin)
        ((([1, 2, 3, 4, 5] : List ℚ).map (fun x => 2 * x + 1)).map fin) =
        .ok (slope, intercept) ∧
      rSquared (([1, 2, 3, 4, 5] : List ℚ).map fin)
        ((([1, 2, 3, 4, 5] : List ℚ).map (fun x => 2 * x + 1)).map fin) slope intercept =
        .ok (fin r2) ∧
      r2 = 1 ∧ |r2 - 1| ≤ 1 / 10 ^ 6) ∧
    rSquared64 [Binary64.ofNat 1, Binary64.ofNat 2, Binary64.ofNat 3, Binary64.ofNat 4,
      Binary64.ofNat 5]
      [Binary64.ofNat 3, Binary64.ofNat 5, Binary64.ofNat 7, Binary64.ofNat 9, Binary64.ofNat 11]
      (Binary64.ofNat 2) (Binary64.ofNat 1) = .ok (Binary64.ofNat 1) :=
  ⟨by norm_num,
    rSquared_perfect_fit [1, 2, 3, 4, 5] 2 1 (by decide) (by norm_num)
      ⟨1, by simp, 2, by simp, by norm_num⟩,
    rSquared64_test_line⟩

/-- C18, counterexample: in binary64, on `x = [8, 2, 5]`, `y = [9, 9, 7]` (neither
constant) `rSquared` of the fit returned by `linearRegression` is `-2^-50`, a negative
number: it is outside `[0, 1]` and it is not the squared correlation
`Sxy^2 / (Sxx * Syy)`, which is `0`. -/
theorem rSquared_fit_eq_correlation_sq_counterexample :
    (∃ u ∈ ([8, 2, 5] : List ℚ), ∃ v ∈ ([8, 2, 5] : List ℚ), u ≠ v) ∧
    (∃ u ∈ ([9, 9, 7] : List ℚ), ∃ v ∈ ([9, 9, 7] : List ℚ), u ≠ v) ∧
    [Binary64.ofNat 8, Binary64.ofNat 2, Binary64.ofNat 5, Binary64.ofNat 9, Binary64.ofNat 9,
      Binary64.ofNat 7].map Binary64.toRat =
      [some 8, some 2, some 5, some 9, some 9, some 7] ∧
    linearRegression64 [Binary64.ofNat 8, Binary64.ofNat 2, Binary64.ofNat 5]
      [Binary64.ofNat 9, Binary64.ofNat 9, Binary64.ofNat 7] =
      .ok (Binary64.finite true 8006399337547548 (-103),
        Binary64.finite false 4691249611844269 (-49)) ∧
    rSquared64 [Binary64.ofNat 8, Binary64.ofNat 2, Binary64.ofNat 5]
      [Binary64.ofNat 9, Binary64.ofNat 9, Binary64.ofNat 7]
      (Binary64.finite true 8006399337547548 (-103))
      (Binary64.finite false 4691249611844269 (-49)) =
      .ok (Binary64.finite true 4503599627370496 (-102)) ∧
    Binary64.toRat (Binary64.finite true 4503599627370496 (-102)) = some (-(1 / 2 ^ 50)) ∧
    (-(1 / 2 ^ 50) : ℚ) < 0 ∧
    sxyRef ([8, 2, 5] : List ℚ) [9, 9, 7] ^ 2 /
      (sxxRef ([8, 2, 5] : List ℚ) * ssTotRef ([9, 9, 7] : List ℚ)) = 0 := by
  refine ⟨⟨8, by simp, 2, by simp, by norm_num⟩, ⟨9, by simp, 7, by simp, by norm_num⟩, ?_,
    linearRegression64_small_r2, rSquared64_small_r2, ?_, by norm_num, ?_⟩
  · have e0 : Binary64.ofNat 8 = Binary64.finite false 4503599627370496 (-49) := by decide
    have e1 : Binary64.ofNat 2 = Binary64.finite false 4503599627370496 (-51) := by decide
    have e2 : Binary64.ofNat 5 = Binary64.finite false 5629499534213120 (-50) := by decide
    have e3 : Binary64.ofNat 9 = Binary64.finite false 5066549580791808 (-49) := by decide
    have e4 : Binary64.ofNat 7 = Binary64.finite false 7881299347898368 (-50) := by decide
    simp only [List.map_cons, List.map_nil, e0, e1, e2, e3, e4]
    simp [Binary64.toRat]
    norm_num
  · simp [Binary64.toRat]
    norm_num
  · norm_num [sxyRef, sxxRef, ssTotRef, pairSum, meanRef]

/-- C19, counterexample: in binary64, on `x = [1, 2, 3]`, `y = [1e9, 2e9, 3e9 + 2^-10]`,
slope `1e9`, intercept `0` (`n = 3 > 2`, `y` not constant, `ssRes = 2^-20`, not zero),
`rSquared` rounds to exactly `1` and `fStatistic` returns `+Inf`, while
`residualStandardError` is the non-zero number `2^-10`, so that
`(ssTot - ssRes) / residualStandardError^2` is a finite number. -/
theorem fStatistic_eq_mean_square_ratio_counterexample :
    2 < ([1, 2, 3] : List ℚ).length ∧
    (∃ u ∈ ([1000000000, 2000000000, 3000000000 + 1 / 2 ^ 10] : List ℚ),
      ∃ v ∈ ([1000000000, 2000000000, 3000000000 + 1 / 2 ^ 10] : List ℚ), u ≠ v) ∧
    sumSqResiduals ([1, 2, 3] : List ℚ) [1000000000, 2000000000, 3000000000 + 1 / 2 ^ 10]
      1000000000 0 = 1 / 2 ^ 20 ∧
    (1 / 2 ^ 20 : ℚ) ≠ 0 ∧
    [Binary64.ofNat 1, Binary64.ofNat 2, Binary64.ofNat 3, Binary64.ofNat 1000000000,
      Binary64.ofNat 2000000000, Binary64.ofNat 0].map Binary64.toRat =
      [some 1, some 2, some 3, some 1000000000, some 2000000000, some 0] ∧
    Binary64.toRat (Binary64.finite false 6291456000002048 (-21)) =
      some (3000000000 + 1 / 2 ^ 10) ∧
    rSquared64 [Binary64.ofNat 1, Binary64.ofNat 2, Binary64.ofNat 3]
      [Binary64.ofNat 1000000000, Binary64.ofNat 2000000000,
        Binary64.finite false 6291456000002048 (-21)]
      (Binary64.ofNat 1000000000) (Binary64.ofNat 0) = .ok (Binary64.ofNat 1) ∧
    fStatistic64 (Binary64.ofNat 1) 3 = Binary64.inf false ∧
    residualStandardError64 [Binary64.ofNat 1, Binary64.ofNat 2, Binary64.ofNat 3]
      [Binary64.ofNat 1000000000, Binary64.ofNat 2000000000,
        Binary64.finite false 6291456000002048 (-21)]
      (Binary64.ofNat 1000000000) (Binary64.ofNat 0) =
      .ok (Binary64.finite false 4503599627370496 (-62)) ∧
    Binary64.toRat (Binary64.finite false 4503599627370496 (-62)) = some (1 / 2 ^ 10) ∧
    Binary64.toRat (Binary64.inf false) = none := by
  refine ⟨by decide, ⟨1000000000, by simp, 2000000000, by simp, by norm_num⟩, ?_,
    by norm_num, ?_, ?_, rSquared64_rounds_to_one, fStatistic64_one,
    residualStandardError64_rounds_to_one, ?_, rfl⟩
  · norm_num [sumSqResiduals, pairSum]
  · have e0 : Binary64.ofNat 1 = Binary64.finite false 4503599627370496 (-52) := by decide
    have e1 : Binary64.ofNat 2 = Binary64.finite false 4503599627370496 (-51) := by decide
    have e2 : Binary64.ofNat 3 = Binary64.finite false 6755399441055744 (-51) := by decide
    have e3 : Binary64.ofNat 1000000000 =
        Binary64.finite false 8388608000000000 (-23) := by decide
    have e4 : Binary64.ofNat 2000000000 =
        Binary64.finite false 8388608000000000 (-22) := by decide
    have e5 : Binary64.ofNat 0 = Binary64.finite false 0 0 := by decide
    simp only [List.map_cons, List.map_nil, e0, e1, e2, e3, e4, e5]
    simp [Binary64.toRat]
    norm_num
  · simp [Binary64.toRat]
    norm_num
  · simp [Binary64.toRat]
    norm_num

end GoStats
